import Mathlib

/-! Platformer core: collision resolution, player step and level indexing.

A shallow embedding of `src/game.js` and `src/levels.js`.

Numbers: JavaScript numbers are modelled by an arbitrary linearly ordered
field `K` (exact arithmetic, no rounding, no NaN); every definition is
computable at `K = ℚ`.  The collision resolver is embedded a second time
with a rounding function applied to the result of every arithmetic
operation, and `round64` is the rounding of IEEE-754 binary64 on `ℚ`: the
statements on the landing scenario and on separation after a pass, whose
exactness depends on rounding, are made over that embedding.  The functions of the JavaScript `Math` object that
have no exact counterpart in a field (`sqrt`, `exp`, `pow`, `sin`) are taken
as a parameter `JSMath K`.  Rendering objects (meshes, mixers, toasts) carry
no state that the physics reads back, except `mesh.position`, which is kept.
-/

namespace Platformer

/-! ## THREE.Vector3 -/

/-- The `THREE.Vector3` value: three scalar fields. -/
structure Vector3 (K : Type) where
  x : K
  y : K
  z : K
deriving DecidableEq, Repr

/-- The functions of the JavaScript `Math` object used by the game that are
not field operations. -/
structure JSMath (K : Type) where
  sqrt : K → K
  exp : K → K
  pow : K → K → K
  sin : K → K

namespace Vector3

variable {K : Type} [LinearOrderedField K]

/-- The vector `new THREE.Vector3()`. -/
def zero : Vector3 K := ⟨0, 0, 0⟩

/-- The method `a.add(b)`. -/
def add (a b : Vector3 K) : Vector3 K := ⟨a.x + b.x, a.y + b.y, a.z + b.z⟩

/-- The method `a.sub(b)`; also `subVectors(a, b)`. -/
def sub (a b : Vector3 K) : Vector3 K := ⟨a.x - b.x, a.y - b.y, a.z - b.z⟩

/-- The method `a.multiplyScalar(s)`. -/
def multiplyScalar (a : Vector3 K) (s : K) : Vector3 K := ⟨a.x * s, a.y * s, a.z * s⟩

/-- The method `a.addScaledVector(v, s)`. -/
def addScaledVector (a v : Vector3 K) (s : K) : Vector3 K :=
  ⟨a.x + v.x * s, a.y + v.y * s, a.z + v.z * s⟩

/-- The method `a.lengthSq()`. -/
def lengthSq (a : Vector3 K) : K := a.x * a.x + a.y * a.y + a.z * a.z

/-- The method `a.length()`. -/
def length (M : JSMath K) (a : Vector3 K) : K := M.sqrt (lengthSq a)

/-- The method `a.normalize()`, which is `divideScalar(length() || 1)`, and
`divideScalar(s)` is `multiplyScalar(1 / s)`. -/
def normalize (M : JSMath K) (a : Vector3 K) : Vector3 K :=
  multiplyScalar a (1 / (if length M a = 0 then 1 else length M a))

/-- The method `crossVectors(a, b)`. -/
def cross (a b : Vector3 K) : Vector3 K :=
  ⟨a.y * b.z - a.z * b.y, a.z * b.x - a.x * b.z, a.x * b.y - a.y * b.x⟩

/-- The method `a.lerp(v, alpha)`. -/
def lerp (a v : Vector3 K) (alpha : K) : Vector3 K :=
  ⟨a.x + (v.x - a.x) * alpha, a.y + (v.y - a.y) * alpha, a.z + (v.z - a.z) * alpha⟩

/-- The method `a.distanceTo(b)`. -/
def distanceTo (M : JSMath K) (a b : Vector3 K) : K := M.sqrt (lengthSq (sub a b))

end Vector3

variable {K : Type} [LinearOrderedField K]

/-! ## Boxes and the overlap test -/

/-- The class `AABB`: centre `c` and half extent `h`. -/
structure AABB (K : Type) where
  c : Vector3 K
  h : Vector3 K
deriving DecidableEq, Repr

/-- The getter `AABB.min`. -/
def AABB.min (b : AABB K) : Vector3 K := b.c.sub b.h

/-- The getter `AABB.max`. -/
def AABB.max (b : AABB K) : Vector3 K := b.c.add b.h

/-- The record returned by `aabbOverlap`. -/
structure Overlap (K : Type) where
  ox : K
  oy : K
  oz : K
  hit : Bool
deriving DecidableEq, Repr

/-- The function `aabbOverlap(aMin, aMax, bMin, bMax)`. -/
def aabbOverlap (aMin aMax bMin bMax : Vector3 K) : Overlap K :=
  let ox := Min.min aMax.x bMax.x - Max.max aMin.x bMin.x
  let oy := Min.min aMax.y bMax.y - Max.max aMin.y bMin.y
  let oz := Min.min aMax.z bMax.z - Max.max aMin.z bMin.z
  { ox := ox, oy := oy, oz := oz, hit := decide (ox > 0) && decide (oy > 0) && decide (oz > 0) }

/-! ## Level data (`src/levels.js`) -/

/-- A static platform record of a level, `{ pos, size }`; the arrays
`[x, y, z]` of the source are written as vectors. -/
structure PlatformDef (K : Type) where
  pos : Vector3 K
  size : Vector3 K

/-- A moving platform record of a level, `{ pos, size, axis, amp, speed }`. -/
structure MovingPlatformDef (K : Type) where
  pos : Vector3 K
  size : Vector3 K
  axis : String
  amp : K
  speed : K

/-- A collectible record of a level, `{ pos }`. -/
structure CollectibleDef (K : Type) where
  pos : Vector3 K

/-- An enemy record of a level, `{ pos, patrolAxis, amp, speed }`. -/
structure EnemyDef (K : Type) where
  pos : Vector3 K
  patrolAxis : String
  amp : K
  speed : K

/-- The spawn record of a level, `{ pos }`. -/
structure SpawnDef (K : Type) where
  pos : Vector3 K

/-- The goal record of a level, `{ pos, radius }`. -/
structure GoalDef (K : Type) where
  pos : Vector3 K
  radius : K

/-- The object returned by `L({...})` in `levels.js`. -/
structure LevelDef (K : Type) where
  platforms : List (PlatformDef K)
  movingPlatforms : List (MovingPlatformDef K)
  collectibles : List (CollectibleDef K)
  enemies : List (EnemyDef K)
  spawn : SpawnDef K
  goal : GoalDef K

/-- Level 1 of `LEVELS`. -/
def level1 : LevelDef K where
  platforms := [
    { pos := ⟨0, (-1.5), 0⟩, size := ⟨40, 2, 40⟩ },
    { pos := ⟨3, 0.0, (-2)⟩, size := ⟨6, 1, 6⟩ },
    { pos := ⟨8, 1.5, (-2)⟩, size := ⟨6, 1, 6⟩ },
    { pos := ⟨13, 3.0, (-2)⟩, size := ⟨6, 1, 6⟩ },
    { pos := ⟨18, 4.0, (-2)⟩, size := ⟨5, 1, 5⟩ },
    { pos := ⟨25, 4.0, (-2)⟩, size := ⟨5, 1, 5⟩ },
    { pos := ⟨22, 5.5, 4⟩, size := ⟨2, 8, 2⟩ },
    { pos := ⟨30, 6.0, 0⟩, size := ⟨10, 1, 10⟩ } ]
  movingPlatforms := [
    { pos := ⟨10, 5.0, 6⟩, size := ⟨5, 1, 5⟩, axis := "y", amp := 2.0, speed := 1.2 },
    { pos := ⟨20, 7.5, 10⟩, size := ⟨5, 1, 5⟩, axis := "x", amp := 3.5, speed := 1.0 } ]
  collectibles := [
    { pos := ⟨8, 3.0, 0⟩ },
    { pos := ⟨18, 6.5, (-2)⟩ },
    { pos := ⟨25, 6.5, (-2)⟩ },
    { pos := ⟨30, 8.0, 0⟩ } ]
  enemies := [
    { pos := ⟨18, 5.2, 1.5⟩, patrolAxis := "z", amp := 3.0, speed := 1.2 } ]
  spawn := { pos := ⟨0, 1, 8⟩ }
  goal := { pos := ⟨30, 7.5, 0⟩, radius := 2.2 }

/-- Level 2 of `LEVELS`. -/
def level2 : LevelDef K where
  platforms := [
    { pos := ⟨0, (-1.5), 0⟩, size := ⟨60, 2, 60⟩ },
    { pos := ⟨(-10), 0.0, 10⟩, size := ⟨8, 1, 8⟩ },
    { pos := ⟨(-4), 1.2, 4⟩, size := ⟨8, 1, 8⟩ },
    { pos := ⟨2, 2.4, (-2)⟩, size := ⟨8, 1, 8⟩ },
    { pos := ⟨8, 3.6, (-8)⟩, size := ⟨8, 1, 8⟩ },
    { pos := ⟨14, 5.0, (-4)⟩, size := ⟨6, 1, 6⟩ },
    { pos := ⟨18, 6.5, (-8)⟩, size := ⟨6, 1, 6⟩ },
    { pos := ⟨18, 8.0, (-12)⟩, size := ⟨10, 1, 10⟩ } ]
  movingPlatforms := [
    { pos := ⟨10, 4.5, (-12)⟩, size := ⟨5, 1, 5⟩, axis := "x", amp := 4.0, speed := 1.1 } ]
  collectibles := [
    { pos := ⟨(-4), 3.0, 4⟩ },
    { pos := ⟨2, 4.1, (-2)⟩ },
    { pos := ⟨18, 10.0, (-12)⟩ } ]
  enemies := [
    { pos := ⟨8, 4.7, (-8)⟩, patrolAxis := "x", amp := 2.5, speed := 1.4 } ]
  spawn := { pos := ⟨(-10), 1, 10⟩ }
  goal := { pos := ⟨18, 9.5, (-12)⟩, radius := 2.4 }

/-- Level 3 of `LEVELS`. -/
def level3 : LevelDef K where
  platforms := [
    { pos := ⟨0, (-1.5), 0⟩, size := ⟨70, 2, 50⟩ },
    { pos := ⟨(-20), 0.0, 0⟩, size := ⟨10, 1, 10⟩ },
    { pos := ⟨(-8), 2.0, 0⟩, size := ⟨6, 1, 6⟩ },
    { pos := ⟨2, 4.0, 0⟩, size := ⟨6, 1, 6⟩ },
    { pos := ⟨12, 6.0, 0⟩, size := ⟨6, 1, 6⟩ },
    { pos := ⟨22, 7.0, 0⟩, size := ⟨10, 1, 10⟩ } ]
  movingPlatforms := [
    { pos := ⟨(-14), 1.0, 0⟩, size := ⟨6, 1, 6⟩, axis := "x", amp := 5.5, speed := 0.9 },
    { pos := ⟨(-2), 3.0, 0⟩, size := ⟨6, 1, 6⟩, axis := "y", amp := 2.5, speed := 1.3 },
    { pos := ⟨8, 5.0, 0⟩, size := ⟨6, 1, 6⟩, axis := "x", amp := 4.0, speed := 1.2 } ]
  collectibles := [
    { pos := ⟨(-8), 3.4, 0⟩ },
    { pos := ⟨2, 5.4, 0⟩ },
    { pos := ⟨22, 9.1, 0⟩ } ]
  enemies := [
    { pos := ⟨6, 5.3, 2.5⟩, patrolAxis := "z", amp := 3.0, speed := 1.0 } ]
  spawn := { pos := ⟨(-20), 1, 0⟩ }
  goal := { pos := ⟨22, 8.5, 0⟩, radius := 2.4 }

/-- Level 4 of `LEVELS`. -/
def level4 : LevelDef K where
  platforms := [
    { pos := ⟨0, (-1.5), 0⟩, size := ⟨60, 2, 60⟩ },
    { pos := ⟨0, 0.0, 16⟩, size := ⟨10, 1, 10⟩ },
    { pos := ⟨0, 3.0, 10⟩, size := ⟨6, 1, 6⟩ },
    { pos := ⟨(-4), 6.0, 4⟩, size := ⟨6, 1, 6⟩ },
    { pos := ⟨4, 9.0, (-2)⟩, size := ⟨6, 1, 6⟩ },
    { pos := ⟨0, 12.0, (-10)⟩, size := ⟨6, 1, 6⟩ },
    { pos := ⟨0, 15.0, (-18)⟩, size := ⟨12, 1, 12⟩ },
    { pos := ⟨(-8), 6.0, 4⟩, size := ⟨2, 12, 2⟩ },
    { pos := ⟨8, 10.0, (-2)⟩, size := ⟨2, 12, 2⟩ },
    { pos := ⟨0, 12.5, (-10)⟩, size := ⟨2, 10, 2⟩ } ]
  movingPlatforms := [
    { pos := ⟨0, 7.5, 2⟩, size := ⟨6, 1, 6⟩, axis := "x", amp := 5.0, speed := 1.0 } ]
  collectibles := [
    { pos := ⟨0, 4.4, 10⟩ },
    { pos := ⟨4, 10.4, (-2)⟩ },
    { pos := ⟨0, 17.4, (-18)⟩ } ]
  enemies := [
    { pos := ⟨0, 13.2, (-10)⟩, patrolAxis := "x", amp := 4.0, speed := 1.3 } ]
  spawn := { pos := ⟨0, 1, 16⟩ }
  goal := { pos := ⟨0, 16.5, (-18)⟩, radius := 2.6 }

/-- Level 5 of `LEVELS`. -/
def level5 : LevelDef K where
  platforms := [
    { pos := ⟨0, (-1.5), 0⟩, size := ⟨80, 2, 70⟩ },
    { pos := ⟨(-22), 0.0, (-12)⟩, size := ⟨10, 1, 10⟩ },
    { pos := ⟨(-10), 2.0, (-12)⟩, size := ⟨6, 1, 6⟩ },
    { pos := ⟨0, 4.0, (-12)⟩, size := ⟨6, 1, 6⟩ },
    { pos := ⟨10, 6.0, (-12)⟩, size := ⟨6, 1, 6⟩ },
    { pos := ⟨18, 8.0, (-12)⟩, size := ⟨6, 1, 6⟩ },
    { pos := ⟨26, 9.0, (-12)⟩, size := ⟨12, 1, 12⟩ },
    { pos := ⟨0, 3.0, (-4)⟩, size := ⟨5, 1, 5⟩ },
    { pos := ⟨10, 5.0, (-20)⟩, size := ⟨5, 1, 5⟩ } ]
  movingPlatforms := [
    { pos := ⟨5, 5.0, (-12)⟩, size := ⟨5, 1, 5⟩, axis := "z", amp := 4.0, speed := 1.2 } ]
  collectibles := [
    { pos := ⟨(-10), 3.4, (-12)⟩ },
    { pos := ⟨10, 7.4, (-12)⟩ },
    { pos := ⟨26, 11.6, (-12)⟩ } ]
  enemies := [
    { pos := ⟨(-2), 5.2, (-12)⟩, patrolAxis := "z", amp := 3.0, speed := 1.6 },
    { pos := ⟨14, 7.2, (-12)⟩, patrolAxis := "z", amp := 3.0, speed := 1.8 } ]
  spawn := { pos := ⟨(-22), 1, (-12)⟩ }
  goal := { pos := ⟨26, 10.5, (-12)⟩, radius := 2.6 }

/-- Level 6 of `LEVELS`. -/
def level6 : LevelDef K where
  platforms := [
    { pos := ⟨0, (-1.5), 0⟩, size := ⟨90, 2, 70⟩ },
    { pos := ⟨(-26), 0.0, 8⟩, size := ⟨12, 1, 12⟩ },
    { pos := ⟨(-10), 3.0, 8⟩, size := ⟨6, 1, 6⟩ },
    { pos := ⟨6, 6.0, 8⟩, size := ⟨6, 1, 6⟩ },
    { pos := ⟨18, 9.0, 8⟩, size := ⟨6, 1, 6⟩ },
    { pos := ⟨30, 11.0, 8⟩, size := ⟨14, 1, 14⟩ },
    { pos := ⟨0, 5.5, 12⟩, size := ⟨2, 10, 2⟩ },
    { pos := ⟨12, 8.5, 4⟩, size := ⟨2, 10, 2⟩ } ]
  movingPlatforms := [
    { pos := ⟨(-2), 4.5, 8⟩, size := ⟨10, 1, 4⟩, axis := "x", amp := 6.0, speed := 0.9 },
    { pos := ⟨12, 7.5, 8⟩, size := ⟨6, 1, 6⟩, axis := "y", amp := 2.5, speed := 1.1 } ]
  collectibles := [
    { pos := ⟨(-10), 4.4, 8⟩ },
    { pos := ⟨18, 10.4, 8⟩ },
    { pos := ⟨30, 13.8, 8⟩ } ]
  enemies := [
    { pos := ⟨6, 6.9, 12⟩, patrolAxis := "x", amp := 6.0, speed := 1.0 } ]
  spawn := { pos := ⟨(-26), 1, 8⟩ }
  goal := { pos := ⟨30, 12.5, 8⟩, radius := 2.8 }

/-- Level 7 of `LEVELS`. -/
def level7 : LevelDef K where
  platforms := [
    { pos := ⟨0, (-1.5), 0⟩, size := ⟨110, 2, 110⟩ },
    { pos := ⟨(-28), 0.0, (-18)⟩, size := ⟨12, 1, 12⟩ },
    { pos := ⟨(-14), 3.0, (-10)⟩, size := ⟨6, 1, 6⟩ },
    { pos := ⟨0, 6.0, (-2)⟩, size := ⟨6, 1, 6⟩ },
    { pos := ⟨14, 9.0, 6⟩, size := ⟨6, 1, 6⟩ },
    { pos := ⟨24, 12.0, 14⟩, size := ⟨6, 1, 6⟩ },
    { pos := ⟨34, 15.0, 18⟩, size := ⟨16, 1, 16⟩ },
    { pos := ⟨(-6), 6.0, (-2)⟩, size := ⟨2, 14, 2⟩ },
    { pos := ⟨6, 9.0, 6⟩, size := ⟨2, 14, 2⟩ },
    { pos := ⟨20, 12.0, 14⟩, size := ⟨2, 14, 2⟩ } ]
  movingPlatforms := [
    { pos := ⟨(-6), 4.5, (-6)⟩, size := ⟨6, 1, 6⟩, axis := "z", amp := 6.0, speed := 1.1 },
    { pos := ⟨8, 7.5, 2⟩, size := ⟨6, 1, 6⟩, axis := "x", amp := 6.0, speed := 1.2 },
    { pos := ⟨22, 10.5, 10⟩, size := ⟨6, 1, 6⟩, axis := "y", amp := 3.0, speed := 1.3 } ]
  collectibles := [
    { pos := ⟨(-14), 4.4, (-10)⟩ },
    { pos := ⟨0, 7.4, (-2)⟩ },
    { pos := ⟨14, 10.4, 6⟩ },
    { pos := ⟨24, 13.4, 14⟩ },
    { pos := ⟨34, 17.8, 18⟩ } ]
  enemies := [
    { pos := ⟨(-2), 6.2, (-2)⟩, patrolAxis := "x", amp := 6.0, speed := 1.5 },
    { pos := ⟨12, 9.2, 6⟩, patrolAxis := "z", amp := 6.0, speed := 1.6 },
    { pos := ⟨22, 12.2, 14⟩, patrolAxis := "x", amp := 6.0, speed := 1.7 } ]
  spawn := { pos := ⟨(-28), 1, (-18)⟩ }
  goal := { pos := ⟨34, 16.5, 18⟩, radius := 3.0 }

/-- The array `LEVELS` of `levels.js`. -/
def LEVELS (K : Type) [LinearOrderedField K] : List (LevelDef K) :=
  [level1, level2, level3, level4, level5, level6, level7]

/-- The constant `LEVEL_COUNT = LEVELS.length`. -/
def LEVEL_COUNT : Int := ((LEVELS ℚ).length : Int)

/-! ## Game state (`src/game.js`) -/

/-- An entry of `this.platforms`: `{ mesh, aabb, size }`. -/
structure Platform (K : Type) where
  position : Vector3 K
  aabb : AABB K
  size : Vector3 K

/-- An entry of `this.movingPlatforms`:
`{ def, mesh, aabb, basePos, prevPos, delta, t }`; `position` is
`mesh.position` and `def_` is the field `def`. -/
structure MovingPlatform (K : Type) where
  def_ : MovingPlatformDef K
  position : Vector3 K
  aabb : AABB K
  basePos : Vector3 K
  prevPos : Vector3 K
  delta : Vector3 K
  t : K

/-- An entry of `this.collectibles`: `{ mesh, taken }`, with `mesh.position`
and `mesh.visible`. -/
structure Collectible (K : Type) where
  position : Vector3 K
  visible : Bool
  taken : Bool

/-- An entry of `this.enemies`: `{ mesh, aabb, def, t }`. -/
structure Enemy (K : Type) where
  position : Vector3 K
  aabb : AABB K
  def_ : EnemyDef K
  t : K

/-- The object `this.goal`: `{ mesh, pos, radius }`. -/
structure Goal (K : Type) where
  pos : Vector3 K
  radius : K

/-- The object `this.player` without its rendering fields.  `groundPlatform`
is a reference to an entry of `this.movingPlatforms` in the source; here it
is the index of that entry in the list, which names the same object as long
as the list is the one the reference was taken from. -/
structure Player (K : Type) where
  pos : Vector3 K
  vel : Vector3 K
  half : Vector3 K
  grounded : Bool
  groundPlatform : Option Nat
  coyote : K
  dashAvailable : Bool
  dashing : Bool
  dashTime : K
  jumpBuffer : K
  spawn : Vector3 K
  facing : Vector3 K

/-- The object `this.btn` of held on-screen buttons. -/
structure Btn where
  left : Bool
  right : Bool
  forward : Bool
  back : Bool
  jump : Bool
  dash : Bool

/-- The state of a `Game` object that the simulation reads or writes.
`keys code` is `this.keys.get(code) === true`; `cameraPosition` is
`this.camera.position`; `_prevDashHeld` is `false` while the source field is
still undefined. -/
structure Game (K : Type) where
  difficulty : Int
  levelIndex : Int
  _advancing : Bool
  _pendingAdvance : Bool
  _pendingIndex : Int
  keys : String → Bool
  btn : Btn
  cameraPosition : Vector3 K
  level : Option (LevelDef K)
  platforms : List (Platform K)
  movingPlatforms : List (MovingPlatform K)
  collectibles : List (Collectible K)
  enemies : List (Enemy K)
  goal : Option (Goal K)
  player : Player K
  _prevDashHeld : Bool

/-- The player object built by the `Game` constructor. -/
def Player.init : Player K where
  pos := Vector3.zero
  vel := Vector3.zero
  half := ⟨0.45, 0.9, 0.45⟩
  grounded := false
  groundPlatform := none
  coyote := 0
  dashAvailable := true
  dashing := false
  dashTime := 0
  jumpBuffer := 0
  spawn := Vector3.zero
  facing := ⟨0, 0, 1⟩

/-! ## Level selection -/

/-- The method `_respawn()`. -/
def _respawn (g : Game K) : Game K :=
  { g with
    player :=
      { g.player with
        pos := g.player.spawn
        vel := ⟨0, 0, 0⟩
        grounded := false
        groundPlatform := none
        coyote := 0
        dashAvailable := true
        dashing := false
        dashTime := 0
        jumpBuffer := 0
        facing := ⟨0, 0, 1⟩ }
    collectibles := g.collectibles.map fun c => { c with taken := false, visible := true } }

/-- The method `_clearWorld()`: the world lists are emptied. -/
def _clearWorld (g : Game K) : Game K :=
  { g with platforms := [], movingPlatforms := [], collectibles := [], enemies := [], goal := none }

/-- The part of `_rebuildWorld()` after the assets are awaited: the level
`LEVELS[this.levelIndex]` is loaded into the world lists, the spawn is set
and the player respawns.  `none` stands for the exception the source throws
when `LEVELS[this.levelIndex]` is undefined. -/
def _loadLevel (g : Game K) : Option (Game K) :=
  if g.levelIndex < 0 then none else
  match (LEVELS K).get? g.levelIndex.toNat with
  | none => none
  | some lvl =>
    some (_respawn
      { g with
        level := some lvl
        platforms := lvl.platforms.map fun p =>
          { position := p.pos
            aabb := ⟨p.pos, ⟨p.size.x / 2, p.size.y / 2, p.size.z / 2⟩⟩
            size := p.size }
        movingPlatforms := lvl.movingPlatforms.map fun d =>
          { def_ := d
            position := d.pos
            aabb := ⟨d.pos, ⟨d.size.x / 2, d.size.y / 2, d.size.z / 2⟩⟩
            basePos := d.pos
            prevPos := d.pos
            delta := Vector3.zero
            t := 0 }
        collectibles := lvl.collectibles.map fun c =>
          { position := c.pos, visible := true, taken := false }
        enemies := lvl.enemies.map fun d =>
          { position := d.pos, aabb := ⟨d.pos, ⟨0.55, 0.55, 0.55⟩⟩, def_ := d, t := 0 }
        goal := some { pos := lvl.goal.pos, radius := lvl.goal.radius }
        player := { g.player with spawn := lvl.spawn.pos } })

/-- The method `_rebuildWorld()`, run to completion: `_clearWorld()`, then
the level is loaded. -/
def _rebuildWorld (g : Game K) : Option (Game K) :=
  _loadLevel (_clearWorld g)

/-- The method `goToLevel(index)`, run to completion.  The operator `%` of
JavaScript is the remainder of truncated division, `Int.tmod`. -/
def goToLevel (index : Int) (g : Game K) : Option (Game K) :=
  let i := Int.tmod (Int.tmod index LEVEL_COUNT + LEVEL_COUNT) LEVEL_COUNT
  _rebuildWorld { g with levelIndex := i }

/-- The method `nextLevel()`, run to completion. -/
def nextLevel (g : Game K) : Option (Game K) :=
  let next := Int.tmod (g.levelIndex + 1) LEVEL_COUNT
  goToLevel next g

/-! ## Collision resolution -/

/-- An entry of the array `colliders` of `_resolvePlayerCollisions`: its box
`c.aabb`, and `moving = some i` when the entry is `this.movingPlatforms[i]`,
the only entries for which `c.delta` is defined. -/
structure Collider (K : Type) where
  aabb : AABB K
  moving : Option Nat

/-- The array `[...this.platforms, ...this.movingPlatforms]`. -/
def colliders (g : Game K) : List (Collider K) :=
  (g.platforms.map fun p => { aabb := p.aabb, moving := none }) ++
    (g.movingPlatforms.enum.map fun im => { aabb := im.2.aabb, moving := some im.1 })

/-- The overlap record the loop of `_resolvePlayerCollisions` computes for a
collider: `pMin`, `pMax` are those of `new AABB(p.pos, p.half)`, which the
loop refreshes after every change of `p.pos`. -/
def playerOverlap (p : Player K) (c : Collider K) : Overlap K :=
  aabbOverlap (AABB.min ⟨p.pos, p.half⟩) (AABB.max ⟨p.pos, p.half⟩) c.aabb.min c.aabb.max

/-- The body of the loop of `_resolvePlayerCollisions` for one collider. -/
def resolveStep (p : Player K) (c : Collider K) : Player K :=
  let overlap := playerOverlap p c
  if !overlap.hit then p
  else if overlap.ox ≤ overlap.oy ∧ overlap.ox ≤ overlap.oz then
    let dir : K := if p.pos.x < c.aabb.c.x then -1 else 1
    { p with
      pos := { p.pos with x := p.pos.x + dir * overlap.ox }
      vel := { p.vel with x := 0 } }
  else if overlap.oz ≤ overlap.ox ∧ overlap.oz ≤ overlap.oy then
    let dir : K := if p.pos.z < c.aabb.c.z then -1 else 1
    { p with
      pos := { p.pos with z := p.pos.z + dir * overlap.oz }
      vel := { p.vel with z := 0 } }
  else
    let dir : K := if p.pos.y < c.aabb.c.y then -1 else 1
    let p1 : Player K := { p with pos := { p.pos with y := p.pos.y + dir * overlap.oy } }
    let p2 : Player K :=
      if dir > 0 then
        { p1 with
          grounded := true
          groundPlatform :=
            match c.moving with
            | some i => some i
            | none => p1.groundPlatform }
      else p1
    { p2 with vel := { p2.vel with y := 0 } }

/-- The method `_resolvePlayerCollisions()` on the player, for the given
array of colliders. -/
def _resolvePlayerCollisions (cs : List (Collider K)) (p : Player K) : Player K :=
  cs.foldl resolveStep p

/-! ## Input -/

/-- The record returned by `_inputAxes()`. -/
structure InputAxes (K : Type) where
  x : K
  z : K
  jumpHeld : Bool
  dashHeld : Bool

/-- The method `_inputAxes()`. -/
def _inputAxes (g : Game K) : InputAxes K :=
  let k := g.keys
  let left := k "ArrowLeft" || k "KeyA" || g.btn.left
  let right := k "ArrowRight" || k "KeyD" || g.btn.right
  let forward := k "ArrowUp" || k "KeyW" || g.btn.forward
  let back := k "ArrowDown" || k "KeyS" || g.btn.back
  let jumpHeld := k "Space" || g.btn.jump
  let dashHeld := k "ShiftLeft" || k "ShiftRight" || k "KeyK" || g.btn.dash
  { x := (if right then 1 else 0) - (if left then 1 else 0)
    z := (if forward then 1 else 0) - (if back then 1 else 0)
    jumpHeld := jumpHeld
    dashHeld := dashHeld }

/-- The method `_cameraRelativeAxes()` for player position `pos` and camera
position `cam`: the pair `(away, right)`. -/
def _cameraRelativeAxes (M : JSMath K) (pos cam : Vector3 K) : Vector3 K × Vector3 K :=
  let away0 : Vector3 K := { Vector3.sub pos cam with y := 0 }
  let away : Vector3 K := if away0.lengthSq < 1e-8 then ⟨0, 0, 1⟩ else away0.normalize M
  let up : Vector3 K := ⟨0, 1, 0⟩
  let right := (Vector3.cross away up).normalize M
  (away, right)

/-! ## The player step, phase by phase

Each phase is one block of `_stepPlayer(dt)`, in source order. -/

/-- Carry by the moving platform the player stands on (first block). -/
def stepCarry (mps : List (MovingPlatform K)) (p : Player K) : Player K :=
  if p.grounded then
    match p.groundPlatform with
    | some i =>
      match mps.get? i with
      | some mp => { p with pos := p.pos.add mp.delta }
      | none => p
    | none => p
  else p

/-- Jump buffer and coyote timers. -/
def stepTimers (jumpHeld : Bool) (dt : K) (p : Player K) : Player K :=
  let p1 : Player K :=
    if jumpHeld then { p with jumpBuffer := 0.12 }
    else { p with jumpBuffer := Max.max 0 (p.jumpBuffer - dt) }
  if p1.grounded then { p1 with coyote := 0.10 }
  else { p1 with coyote := Max.max 0 (p1.coyote - dt) }

/-- The vector `wish` as first built from the camera axes and the input. -/
def rawWish (axes : InputAxes K) (away right : Vector3 K) : Vector3 K :=
  (Vector3.zero.addScaledVector right axes.x).addScaledVector away axes.z

/-- The vector `wish` after the block that normalises it when non-zero. -/
def wishVector (M : JSMath K) (raw : Vector3 K) : Vector3 K :=
  if raw.lengthSq > 0 then raw.normalize M else raw

/-- Facing follows a non-zero wish (same block). -/
def stepFacing (M : JSMath K) (raw : Vector3 K) (p : Player K) : Player K :=
  if raw.lengthSq > 0 then { p with facing := raw.normalize M } else p

/-- The constant `maxSpeed`. -/
def maxSpeed (difficulty : Int) : K :=
  if difficulty = 1 then 7.2 else if difficulty = 3 then 6.2 else 6.6

/-- The constant `dashSpeed`. -/
def dashSpeed (difficulty : Int) : K :=
  if difficulty = 3 then 18.0 else 20.0

/-- The condition of the dash block. -/
def dashFires (dashPressed : Bool) (p : Player K) : Bool :=
  dashPressed && p.dashAvailable && !p.dashing

/-- The dash block. -/
def stepDash (dashPressed : Bool) (wish away : Vector3 K) (dashSpeed : K) (p : Player K) :
    Player K :=
  if dashFires dashPressed p then
    let dir := if wish.lengthSq > 0 then wish else away
    { p with
      dashing := true
      dashTime := 0.22
      dashAvailable := false
      vel := { dir.multiplyScalar dashSpeed with y := 0.0 } }
  else p

/-- The dash timer block. -/
def stepDashTimer (dt : K) (p : Player K) : Player K :=
  if p.dashing then
    let p1 : Player K := { p with dashTime := p.dashTime - dt }
    if p1.dashTime ≤ 0 then { p1 with dashing := false } else p1
  else p

/-- Gravity. -/
def stepGravity (dt : K) (p : Player K) : Player K :=
  if !p.dashing then { p with vel := { p.vel with y := p.vel.y + (-24.0) * dt } } else p

/-- Horizontal blend and ground friction; `accel` is the constant computed
before the dash block. -/
def stepHorizontal (M : JSMath K) (dt : K) (wish : Vector3 K) (maxSpeed accel : K)
    (p : Player K) : Player K :=
  if !p.dashing then
    let curH : Vector3 K := ⟨p.vel.x, 0, p.vel.z⟩
    let target := wish.multiplyScalar maxSpeed
    let a := accel * (if p.grounded then 1.0 else 0.75)
    let curH1 := curH.lerp target (1 - M.exp (-a * dt))
    let curH2 :=
      if wish.lengthSq = 0 ∧ p.grounded = true then curH1.multiplyScalar (M.pow 0.0008 dt)
      else curH1
    { p with vel := { p.vel with x := curH2.x, z := curH2.z } }
  else p

/-- The condition of the jump block. -/
def jumpFires (p : Player K) : Bool :=
  decide (p.jumpBuffer > 0) && (p.grounded || decide (p.coyote > 0))

/-- The jump block. -/
def stepJump (p : Player K) : Player K :=
  if jumpFires p then
    { p with
      vel := { p.vel with y := 9.2 }
      grounded := false
      groundPlatform := none
      coyote := 0
      jumpBuffer := 0 }
  else p

/-- Position integration. -/
def stepIntegrate (dt : K) (p : Player K) : Player K :=
  { p with pos := p.pos.addScaledVector p.vel dt }

/-- Ground state is cleared before the resolution pass. -/
def clearGround (p : Player K) : Player K :=
  { p with grounded := false, groundPlatform := none }

/-- Dash is made available again on ground contact. -/
def restoreDash (p : Player K) : Player K :=
  if p.grounded then { p with dashAvailable := true } else p

/-- The values one `_stepPlayer(dt)` call goes through: the input, the
camera axis `away`, the vector `wish`, and the player after each block. -/
structure StepTrace (K : Type) where
  axes : InputAxes K
  dashPressed : Bool
  away : Vector3 K
  wish : Vector3 K
  carried : Player K
  timed : Player K
  faced : Player K
  dashed : Player K
  preJump : Player K
  jumped : Player K
  preResolve : Player K
  resolved : Player K
  final : Player K

/-- The straight-line part of `_stepPlayer(dt)`, from the carry to the line
`if (p.grounded) p.dashAvailable = true`, recording the player after each
block. -/
def stepTrace (M : JSMath K) (dt : K) (g : Game K) : StepTrace K :=
  let carried := stepCarry g.movingPlatforms g.player
  let axes := _inputAxes g
  let dashPressed := axes.dashHeld && !g._prevDashHeld
  let timed := stepTimers axes.jumpHeld dt carried
  let ar := _cameraRelativeAxes M timed.pos g.cameraPosition
  let raw := rawWish axes ar.1 ar.2
  let wish := wishVector M raw
  let faced := stepFacing M raw timed
  let accel : K := if faced.grounded then 36.0 else 18.0
  let dashed := stepDash dashPressed wish ar.1 (dashSpeed g.difficulty) faced
  let preJump :=
    stepHorizontal M dt wish (maxSpeed g.difficulty) accel
      (stepGravity dt (stepDashTimer dt dashed))
  let jumped := stepJump preJump
  let preResolve := clearGround (stepIntegrate dt jumped)
  let resolved := _resolvePlayerCollisions (colliders g) preResolve
  { axes := axes, dashPressed := dashPressed, away := ar.1, wish := wish, carried := carried,
    timed := timed, faced := faced, dashed := dashed, preJump := preJump, jumped := jumped,
    preResolve := preResolve, resolved := resolved, final := restoreDash resolved }

/-- The player box of the final checks overlaps the box of some enemy. -/
def hitsEnemy (es : List (Enemy K)) (p : Player K) : Bool :=
  es.any fun e =>
    (aabbOverlap (AABB.min ⟨p.pos, p.half⟩) (AABB.max ⟨p.pos, p.half⟩) e.aabb.min e.aabb.max).hit

/-- The call ends in one of its two `_respawn()` calls: the player is below
the death plane or touches an enemy. -/
def respawns (M : JSMath K) (dt : K) (g : Game K) : Bool :=
  decide ((stepTrace M dt g).final.pos.y < -30) || hitsEnemy g.enemies (stepTrace M dt g).final

/-- The pickup loop body for one collectible. -/
def pickup (M : JSMath K) (p : Player K) (c : Collectible K) : Collectible K :=
  if c.taken then c
  else if Vector3.distanceTo M c.position p.pos < 1.2 then { c with taken := true, visible := false }
  else c

/-- The method `_stepPlayer(dt)`. -/
def _stepPlayer (M : JSMath K) (dt : K) (g : Game K) : Game K :=
  let tr := stepTrace M dt g
  let g1 : Game K := { g with player := tr.final, _prevDashHeld := tr.axes.dashHeld }
  if tr.final.pos.y < -30 then _respawn g1
  else if hitsEnemy g1.enemies tr.final then _respawn g1
  else { g1 with collectibles := g1.collectibles.map (pickup M tr.final) }

/-! ## Vocabulary of the statements -/

/-- The three coordinate axes. -/
inductive Axis where
  | x
  | y
  | z
deriving DecidableEq, Repr

/-- The component of a vector on an axis. -/
def Vector3.get (v : Vector3 K) : Axis → K
  | .x => v.x
  | .y => v.y
  | .z => v.z

/-- The overlap depth on an axis. -/
def Overlap.depth (o : Overlap K) : Axis → K
  | .x => o.ox
  | .y => o.oy
  | .z => o.oz

/-- The loop body resolves collider `c` on axis `a`: it moves the player on
that axis. -/
def resolvesOn (a : Axis) (p : Player K) (c : Collider K) : Prop :=
  (resolveStep p c).pos.get a ≠ p.pos.get a

/-- The push direction of the loop body on an axis: `-1` when the player
centre is strictly below the collider centre on that axis, `1` otherwise. -/
def pushDir (a : Axis) (p : Player K) (c : Collider K) : K :=
  if p.pos.get a < c.aabb.c.get a then -1 else 1

/-- The boxes of two colliders overlap (positive depth on all three axes). -/
def collidersOverlap (a b : Collider K) : Prop :=
  (aabbOverlap a.aabb.min a.aabb.max b.aabb.min b.aabb.max).hit = true

/-- The pass, collider by collider: each collider of the list paired with
the player at the moment the loop reaches it. -/
def passStates : List (Collider K) → Player K → List (Player K × Collider K)
  | [], _ => []
  | c :: cs, p => (p, c) :: passStates cs (resolveStep p c)

/-- The loop body resolves collider `c` on the y axis with an upward push:
the player centre is not below the collider centre. -/
def resolvesUp (p : Player K) (c : Collider K) : Prop :=
  resolvesOn .y p c ∧ ¬ p.pos.y < c.aabb.c.y

instance (p : Player K) (c : Collider K) : Decidable (resolvesUp p c) := by
  unfold resolvesUp resolvesOn
  infer_instance

/-- The moving platforms (by index) the pass resolves upward on y, in
collider order. -/
def movingSupports (cs : List (Collider K)) (p : Player K) : List Nat :=
  (passStates cs p).filterMap fun qc => if resolvesUp qc.1 qc.2 then qc.2.moving else none

/-! ## Concrete inputs -/

/-- The player of the constructor placed at `pos` with velocity `vel`. -/
def playerAt (pos vel : Vector3 K) : Player K :=
  { (Player.init : Player K) with pos := pos, vel := vel }

/-- The static platform of the landing scenario: centre `(0,0,0)`, half
extent `(5, 0.5, 5)`. -/
def landingPlatform : Collider K :=
  { aabb := ⟨⟨0, 0, 0⟩, ⟨5, 0.5, 5⟩⟩, moving := none }

/-- A thin wall: centre `(0,1,0)`, half extent `(0.1, 5, 5)`. -/
def thinWall : Collider K :=
  { aabb := ⟨⟨0, 1, 0⟩, ⟨0.1, 5, 5⟩⟩, moving := none }

/-- The game object of the constructor with an empty world: no key or
button held, camera at the origin. -/
def emptyGame : Game K where
  difficulty := 2
  levelIndex := 0
  _advancing := false
  _pendingAdvance := false
  _pendingIndex := 0
  keys := fun _ => false
  btn := ⟨false, false, false, false, false, false⟩
  cameraPosition := Vector3.zero
  level := none
  platforms := []
  movingPlatforms := []
  collectibles := []
  enemies := []
  goal := none
  player := Player.init
  _prevDashHeld := false

/-- The world of the landing scenario: one static platform of size
`(10, 1, 10)` at the origin. -/
def landingGame : Game K :=
  { (emptyGame : Game K) with
    platforms := [⟨⟨0, 0, 0⟩, ⟨⟨0, 0, 0⟩, ⟨5, 0.5, 5⟩⟩, ⟨10, 1, 10⟩⟩] }

/-- Left block of a corridor: x from `-3` to `-0.25`. -/
def corridorLeft : Collider K :=
  { aabb := ⟨⟨-1.625, 0, 0⟩, ⟨1.375, 1, 1⟩⟩, moving := none }

/-- Right block of a corridor: x from `0.25` to `3`. -/
def corridorRight : Collider K :=
  { aabb := ⟨⟨1.625, 0, 0⟩, ⟨1.375, 1, 1⟩⟩, moving := none }

/-- A large block around the origin: half extent `(5, 5, 5)`. -/
def bigBlock : Collider K :=
  { aabb := ⟨⟨0, 0, 0⟩, ⟨5, 5, 5⟩⟩, moving := none }

/-- A coarse rational stand-in for `Math`, exact at `sqrt 1`, `exp 0`,
`pow b 0`, `pow b 1` and `sin 0`.  It serves only to run the definitions at
concrete inputs; the statements hold for every `JSMath`. -/
def coarseMath : JSMath ℚ where
  sqrt := fun x => (1 + x) / 2
  exp := fun x => if x ≤ 0 then 1 / (1 - x) else 1 + x
  pow := fun b e => 1 + e * (b - 1)
  sin := fun x => x

/-- The landing world with the player falling at `6` units/s from height
`1.5`, `0.1` above the platform top. -/
def fallingGame : Game ℚ :=
  { (landingGame : Game ℚ) with player := playerAt ⟨0, 1.5, 0⟩ ⟨0, -6, 0⟩ }

/-- A ledge ahead of the player: one static platform with centre `(0,0,3)`
and half extent `(5, 0.5, 2.5)`, so z from `0.5` to `5.5` and top at `0.5`;
the player is airborne at `(0, 1.35, 0)`, feet at `0.45`, the dash button is
held and was not held before, the camera is at the origin. -/
def ledgeGame : Game ℚ :=
  { (emptyGame : Game ℚ) with
    platforms := [⟨⟨0, 0, 3⟩, ⟨⟨0, 0, 3⟩, ⟨5, 0.5, 2.5⟩⟩, ⟨10, 1, 5⟩⟩]
    btn := ⟨false, false, false, false, false, true⟩
    player := playerAt ⟨0, 1.35, 0⟩ ⟨0, 0, 0⟩ }

/-- An empty world with the player falling at `6` units/s just above the
death plane, its dash already used. -/
def fallOutGame : Game ℚ :=
  { (emptyGame : Game ℚ) with
    player := { (playerAt ⟨0, -29.9, 0⟩ ⟨0, -6, 0⟩ : Player ℚ) with dashAvailable := false } }

/-- An empty world, the camera at the origin right below the player, the
player facing along x, the dash button held and not held before, no
direction held. -/
def sideFacingGame : Game ℚ :=
  { (emptyGame : Game ℚ) with
    btn := ⟨false, false, false, false, false, true⟩
    player := { (playerAt ⟨0, 1, 0⟩ ⟨0, 0, 0⟩ : Player ℚ) with facing := ⟨1, 0, 0⟩ } }

/-! ## The frame: `update()` and the level rebuild -/

/-- The body of the loop of `_updateMovingPlatforms(dt)` for one platform. -/
def updateMovingPlatform (M : JSMath K) (dt : K) (mp : MovingPlatform K) : MovingPlatform K :=
  let t := mp.t + dt * mp.def_.speed
  let prevPos := mp.position
  let off := M.sin t * mp.def_.amp
  let pos0 := mp.basePos
  let pos1 : Vector3 K := if mp.def_.axis = "x" then { pos0 with x := pos0.x + off } else pos0
  let pos2 : Vector3 K := if mp.def_.axis = "y" then { pos1 with y := pos1.y + off } else pos1
  let pos3 : Vector3 K := if mp.def_.axis = "z" then { pos2 with z := pos2.z + off } else pos2
  { mp with
    t := t
    prevPos := prevPos
    position := pos3
    delta := Vector3.sub pos3 prevPos
    aabb := { mp.aabb with c := pos3 } }

/-- The method `_updateMovingPlatforms(dt)`. -/
def _updateMovingPlatforms (M : JSMath K) (dt : K) (g : Game K) : Game K :=
  { g with movingPlatforms := g.movingPlatforms.map (updateMovingPlatform M dt) }

/-- The body of the loop of `_updateEnemies(dt)` for one enemy. -/
def updateEnemy (M : JSMath K) (difficulty : Int) (dt : K) (e : Enemy K) : Enemy K :=
  let t := e.t + dt * e.def_.speed *
    (if difficulty = 1 then 0.8 else if difficulty = 3 then 1.25 else 1.0)
  let off := M.sin t * e.def_.amp
  let pos0 := e.def_.pos
  let pos1 : Vector3 K := if e.def_.patrolAxis = "x" then { pos0 with x := pos0.x + off } else pos0
  let pos2 : Vector3 K := if e.def_.patrolAxis = "y" then { pos1 with y := pos1.y + off } else pos1
  let pos3 : Vector3 K := if e.def_.patrolAxis = "z" then { pos2 with z := pos2.z + off } else pos2
  { e with t := t, position := pos3, aabb := { e.aabb with c := pos3 } }

/-- The method `_updateEnemies(dt)`. -/
def _updateEnemies (M : JSMath K) (dt : K) (g : Game K) : Game K :=
  { g with enemies := g.enemies.map (updateEnemy M g.difficulty dt) }

/-- The method `_updateCollectibles(dt)`; `now` is `performance.now()`.  The
rotation of the mesh is not kept. -/
def _updateCollectibles (M : JSMath K) (now : K) (g : Game K) : Game K :=
  { g with
    collectibles := g.collectibles.map fun c =>
      { c with position := { c.position with y := c.position.y + M.sin (now * 0.002) * 0.002 } } }

/-- The test of `_updateGoal(dt)`: there is a goal and the player is within
its radius. -/
def inGoal (M : JSMath K) (g : Game K) : Bool :=
  match g.goal with
  | none => false
  | some goal => decide (Vector3.distanceTo M g.player.pos goal.pos < goal.radius)

/-- The method `_updateGoal(dt)`; the rotation of the goal mesh is not
kept. -/
def _updateGoal (M : JSMath K) (g : Game K) : Game K :=
  match g.goal with
  | none => g
  | some goal =>
    if Vector3.distanceTo M g.player.pos goal.pos < goal.radius then
      if !g._pendingAdvance && !g._advancing then
        let next := Int.tmod (g.levelIndex + 1) LEVEL_COUNT
        { g with _pendingAdvance := true, _pendingIndex := next }
      else g
    else g

/-- The method `_updateCamera(dt)` on `this.camera.position`; `offset` is the
orbit vector the method builds from `camYaw`, `camPitch` and `camDist`. -/
def _updateCamera (M : JSMath K) (offset : Vector3 K) (dt : K) (g : Game K) : Game K :=
  let desired := g.player.pos.add offset
  { g with cameraPosition := g.cameraPosition.lerp desired (1 - M.exp (-10 * dt)) }

/-- What `goToLevel(index)` does before its first suspension: the index is
normalised and stored, and `_rebuildWorld()` clears the world; the rest of
the rebuild waits for the assets. -/
def goToLevelStart (index : Int) (g : Game K) : Game K :=
  let i := Int.tmod (Int.tmod index LEVEL_COUNT + LEVEL_COUNT) LEVEL_COUNT
  _clearWorld { g with levelIndex := i }

/-- The completion of the rebuild that `update()` started: `_loadLevel`,
then the `finally` handler clears `_advancing`, also when the load threw. -/
def rebuildComplete (g : Game K) : Game K :=
  match _loadLevel g with
  | some g1 => { g1 with _advancing := false }
  | none => { g with _advancing := false }

/-- What one `update()` call reads from outside the game object: the clock
delta, `performance.now()` and the orbit offset of the camera. -/
structure FrameInput (K : Type) where
  delta : K
  now : K
  cameraOffset : Vector3 K

/-- The game after `_updateCamera(dt)` in `update()`, before the pending
level change is handled. -/
def updateBody (M : JSMath K) (inp : FrameInput K) (g : Game K) : Game K :=
  let dt := Min.min inp.delta (1 / 30)
  let g1 := _updateMovingPlatforms M dt g
  let g2 := _updateEnemies M dt g1
  let g3 := _updateCollectibles M inp.now g2
  let g4 := _updateGoal M g3
  let g5 := _stepPlayer M dt g4
  _updateCamera M inp.cameraOffset dt g5

/-- The condition of the last block of `update()`: a rebuild is started. -/
def startsRebuild (g : Game K) : Bool :=
  g._pendingAdvance && !g._advancing

/-- The last block of `update()`: the pending level change is taken and the
rebuild is kicked off. -/
def updateTail (g : Game K) : Game K :=
  if startsRebuild g then
    let target := g._pendingIndex
    goToLevelStart target { g with _advancing := true, _pendingAdvance := false }
  else g

/-- The method `update()`. -/
def update (M : JSMath K) (inp : FrameInput K) (g : Game K) : Game K :=
  updateTail (updateBody M inp g)

/-- The number of rebuilds that a run of consecutive `update()` calls, with
no rebuild completion in between, starts. -/
def rebuildsStarted (M : JSMath K) : List (FrameInput K) → Game K → Nat
  | [], _ => 0
  | inp :: inps, g =>
    (if startsRebuild (updateBody M inp g) then 1 else 0) + rebuildsStarted M inps (update M inp g)

/-- The game after a run of consecutive `update()` calls. -/
def runFrames (M : JSMath K) (inps : List (FrameInput K)) (g : Game K) : Game K :=
  inps.foldl (fun g inp => update M inp g) g

/-- The invariant of the dash timer: `dashTime > 0` implies `dashing`. -/
def dashInvariant (p : Player K) : Prop :=
  0 < p.dashTime → p.dashing = true

/-- A sequence of games in which the player changes only by `_stepPlayer`
calls: call `k` runs on `s k` with step `dts k`, and the player of `s (k+1)`
is the player it leaves; keys, camera and world may change between calls. -/
def IsPlayerRun (M : JSMath K) (dts : Nat → K) (s : Nat → Game K) : Prop :=
  ∀ k, (s (k + 1)).player = (_stepPlayer M (dts k) (s k)).player

/-- The fields of the level state machine: `levelIndex`, `_advancing`,
`_pendingAdvance`, `_pendingIndex`. -/
def levelFlags (g : Game K) : Int × Bool × Bool × Int :=
  (g.levelIndex, g._advancing, g._pendingAdvance, g._pendingIndex)

/-- A game standing in the goal: the goal at the origin with radius `2.2`,
the player at the origin, level 0, nothing pending or in flight. -/
def goalGame : Game ℚ :=
  { (emptyGame : Game ℚ) with goal := some ⟨⟨0, 0, 0⟩, 2.2⟩ }

/-- A frame input: clock delta `1/60`, time 0, camera orbit offset
`(0, 3, 14)`. -/
def frameInput : FrameInput ℚ :=
  { delta := 1 / 60, now := 0, cameraOffset := ⟨0, 3, 14⟩ }

/-- A game on level 0 with a rebuild in flight. -/
def advancingGame : Game ℚ :=
  { (emptyGame : Game ℚ) with _advancing := true }

/-- An empty world with one enemy whose box, centre `(0, 0.9, 0)`, the
player at `(0, 1, 0)` touches after falling for one step. -/
def hazardGame : Game ℚ :=
  { (emptyGame : Game ℚ) with
    enemies := [⟨⟨0, 0.9, 0⟩, ⟨⟨0, 0.9, 0⟩, ⟨0.55, 0.55, 0.55⟩⟩, ⟨⟨0, 0.9, 0⟩, "x", 0, 1⟩, 0⟩]
    collectibles := [⟨⟨3, 1, 0⟩, false, true⟩]
    player := { (playerAt ⟨0, 1, 0⟩ ⟨0, 0, 0⟩ : Player ℚ) with spawn := ⟨7, 1, 7⟩ } }

/-- The landing world with the player standing on the platform, grounded,
the jump button held. -/
def standingGame : Game ℚ :=
  { (landingGame : Game ℚ) with
    btn := ⟨false, false, false, false, true, false⟩
    player := { (playerAt ⟨0, 1.4, 0⟩ ⟨0, 0, 0⟩ : Player ℚ) with grounded := true } }

/-- The run of `_stepPlayer` calls with `dt = 1/30` from `standingGame`, the
jump button held throughout. -/
def jumpRun : Nat → Game ℚ
  | 0 => standingGame
  | k + 1 => _stepPlayer coarseMath (1 / 30) (jumpRun k)

/-- The state of the free-fall scenario after `n` steps of `1/60` s: an
empty world, no input, the player not grounded, not dashing and out of its
coyote window, at height `5 - 24 n (n+1) / (2 * 3600)` with vertical
velocity `-24 n / 60`, nothing horizontal. -/
def FreeFall (n : Nat) (g : Game K) : Prop :=
  g.platforms = [] ∧ g.movingPlatforms = [] ∧ g.enemies = [] ∧
    (_inputAxes g).x = 0 ∧ (_inputAxes g).z = 0 ∧ (_inputAxes g).jumpHeld = false ∧
    (_inputAxes g).dashHeld = false ∧
    g.player.grounded = false ∧ g.player.dashing = false ∧ g.player.coyote = 0 ∧
    g.player.pos = ⟨0, 5 - 24 * (n : K) * ((n : K) + 1) / (2 * 3600), 0⟩ ∧
    g.player.vel = ⟨0, -24 * (n : K) / 60, 0⟩

/-- The free-fall scenario at its start: the empty world with the player of
the constructor at `(0, 5, 0)`. -/
def freeFallGame : Game ℚ :=
  { (emptyGame : Game ℚ) with player := playerAt ⟨0, 5, 0⟩ ⟨0, 0, 0⟩ }

/-- The landing world with the player standing on the platform, grounded,
sliding with horizontal velocity `(3, 0, 4)`, no input. -/
def slidingGame : Game K :=
  { (landingGame : Game K) with
    player := { (playerAt ⟨0, 1.4, 0⟩ ⟨3, 0, 4⟩ : Player K) with grounded := true } }

/-! ## Collision resolution in rounded arithmetic

JavaScript numbers are IEEE-754 binary64 values, and every `+`, `-`, `*` of
the resolver rounds its result.  The definitions of this section repeat the
box getters, `aabbOverlap` and the loop of `_resolvePlayerCollisions` with a
rounding function `fl` applied to the result of each arithmetic operation,
in the order in which the code performs them; comparisons, `Math.min` and
`Math.max` do not round.  With `fl = id` they are the definitions above. -/

/-- A vector with every component rounded: the number literals of a
`new THREE.Vector3(x, y, z)` as the arithmetic stores them. -/
def Vector3.round (fl : K → K) (v : Vector3 K) : Vector3 K := ⟨fl v.x, fl v.y, fl v.z⟩

/-- The getter `AABB.min`, `this.c.clone().sub(this.h)`: one rounded
subtraction for each component. -/
def AABB.minFl (fl : K → K) (b : AABB K) : Vector3 K :=
  ⟨fl (b.c.x - b.h.x), fl (b.c.y - b.h.y), fl (b.c.z - b.h.z)⟩

/-- The getter `AABB.max`, `this.c.clone().add(this.h)`: one rounded
addition for each component. -/
def AABB.maxFl (fl : K → K) (b : AABB K) : Vector3 K :=
  ⟨fl (b.c.x + b.h.x), fl (b.c.y + b.h.y), fl (b.c.z + b.h.z)⟩

/-- The function `aabbOverlap(aMin, aMax, bMin, bMax)`: each depth is one
rounded subtraction of a `Math.min` and a `Math.max`. -/
def aabbOverlapFl (fl : K → K) (aMin aMax bMin bMax : Vector3 K) : Overlap K :=
  let ox := fl (Min.min aMax.x bMax.x - Max.max aMin.x bMin.x)
  let oy := fl (Min.min aMax.y bMax.y - Max.max aMin.y bMin.y)
  let oz := fl (Min.min aMax.z bMax.z - Max.max aMin.z bMin.z)
  { ox := ox, oy := oy, oz := oz, hit := decide (ox > 0) && decide (oy > 0) && decide (oz > 0) }

/-- The overlap record the loop of `_resolvePlayerCollisions` computes for a
collider, from the rounded boxes of the player and of the collider. -/
def playerOverlapFl (fl : K → K) (p : Player K) (c : Collider K) : Overlap K :=
  aabbOverlapFl fl (AABB.minFl fl ⟨p.pos, p.half⟩) (AABB.maxFl fl ⟨p.pos, p.half⟩)
    (c.aabb.minFl fl) (c.aabb.maxFl fl)

/-- The body of the loop of `_resolvePlayerCollisions` for one collider:
`p.pos.x += dir * ox` is a rounded product followed by a rounded sum. -/
def resolveStepFl (fl : K → K) (p : Player K) (c : Collider K) : Player K :=
  let overlap := playerOverlapFl fl p c
  if !overlap.hit then p
  else if overlap.ox ≤ overlap.oy ∧ overlap.ox ≤ overlap.oz then
    let dir : K := if p.pos.x < c.aabb.c.x then -1 else 1
    { p with
      pos := { p.pos with x := fl (p.pos.x + fl (dir * overlap.ox)) }
      vel := { p.vel with x := 0 } }
  else if overlap.oz ≤ overlap.ox ∧ overlap.oz ≤ overlap.oy then
    let dir : K := if p.pos.z < c.aabb.c.z then -1 else 1
    { p with
      pos := { p.pos with z := fl (p.pos.z + fl (dir * overlap.oz)) }
      vel := { p.vel with z := 0 } }
  else
    let dir : K := if p.pos.y < c.aabb.c.y then -1 else 1
    let p1 : Player K :=
      { p with pos := { p.pos with y := fl (p.pos.y + fl (dir * overlap.oy)) } }
    let p2 : Player K :=
      if dir > 0 then
        { p1 with
          grounded := true
          groundPlatform :=
            match c.moving with
            | some i => some i
            | none => p1.groundPlatform }
      else p1
    { p2 with vel := { p2.vel with y := 0 } }

/-- The method `_resolvePlayerCollisions()` on the player, in rounded
arithmetic, for the given array of colliders. -/
def _resolvePlayerCollisionsFl (fl : K → K) (cs : List (Collider K)) (p : Player K) :
    Player K :=
  cs.foldl (resolveStepFl fl) p

/-- The branch the loop body takes for a collider: `none` when the overlap
test reports no hit (`continue`), otherwise the axis of the branch, x when
`ox <= oy && ox <= oz`, else z when `oz <= ox && oz <= oy`, else y. -/
def resolveAxisFl (fl : K → K) (p : Player K) (c : Collider K) : Option Axis :=
  let overlap := playerOverlapFl fl p c
  if !overlap.hit then none
  else if overlap.ox ≤ overlap.oy ∧ overlap.ox ≤ overlap.oz then some .x
  else if overlap.oz ≤ overlap.ox ∧ overlap.oz ≤ overlap.oy then some .z
  else some .y

/-- On axis `a` the player's rounded box penetrates the collider's rounded
box only partly: the player's extent is the collider's shifted up, or
shifted down. -/
def partlyPenetratesFl (fl : K → K) (a : Axis) (p : Player K) (c : Collider K) : Prop :=
  ((c.aabb.minFl fl).get a ≤ (AABB.minFl fl ⟨p.pos, p.half⟩).get a ∧
      (c.aabb.maxFl fl).get a ≤ (AABB.maxFl fl ⟨p.pos, p.half⟩).get a) ∨
    ((AABB.minFl fl ⟨p.pos, p.half⟩).get a ≤ (c.aabb.minFl fl).get a ∧
      (AABB.maxFl fl ⟨p.pos, p.half⟩).get a ≤ (c.aabb.maxFl fl).get a)

/-- How far, on axis `a`, the player's rounded box reaches into the
collider's from the side `s` a push of direction `s` moves it to: from above
(`s = 1`) the collider's max minus the player's min, from below (`s = -1`)
the player's max minus the collider's min.  It is at most 0 when the player
lies wholly on that side. -/
def intrusionFl (fl : K → K) (a : Axis) (s : K) (p : Player K) (c : Collider K) : K :=
  if 0 < s then (c.aabb.maxFl fl).get a - (AABB.minFl fl ⟨p.pos, p.half⟩).get a
  else (AABB.maxFl fl ⟨p.pos, p.half⟩).get a - (c.aabb.minFl fl).get a

/-- The rounding `fl` has relative error at most `u`: the standard model of
floating-point arithmetic without underflow or overflow. -/
def RoundsWithin (fl : K → K) (u : K) : Prop := ∀ x, |fl x - x| ≤ u * |x|

/-! ## Binary64 rounding

`round64` is round-to-nearest, ties-to-even, to 53 significant bits, the
rounding of IEEE-754 binary64 arithmetic and hence of every JavaScript
number operation and number literal.  The exponent is not bounded: the
function agrees with binary64 on the normal range `2^-1022 ≤ |x| < 2^1024`,
and on sums and differences of binary64 values below that range, which are
exact in both; it has no overflow to infinity. -/

/-- Round to the nearest integer, a tie to the even neighbour. -/
def roundHalfEven (t : ℚ) : ℤ :=
  if t - ⌊t⌋ < 1 / 2 then ⌊t⌋
  else if 1 / 2 < t - ⌊t⌋ then ⌊t⌋ + 1
  else if ⌊t⌋ % 2 = 0 then ⌊t⌋
  else ⌊t⌋ + 1

/-- The binary64 rounding of a rational: with `2^e ≤ |x| < 2^(e+1)` the
nearest multiple of `2^(e-52)`, ties to the even multiple. -/
def round64 (x : ℚ) : ℚ :=
  if x = 0 then 0
  else (roundHalfEven (x / 2 ^ (Int.log 2 |x| - 52)) : ℚ) * 2 ^ (Int.log 2 |x| - 52)

/-- The player of the constructor placed at `pos` with velocity `vel`, its
number literals rounded by `fl`. -/
def playerAtFl (fl : K → K) (pos vel : Vector3 K) : Player K :=
  { (playerAt (pos.round fl) (vel.round fl) : Player K) with
    half := (Vector3.round fl ⟨0.45, 0.9, 0.45⟩) }

/-- The player of the landing scenario in binary64 arithmetic: centre
`(0, 1.3, 0)`, falling. -/
def landingPlayer64 : Player ℚ := playerAtFl round64 ⟨0, 1.3, 0⟩ ⟨0, -3, 0⟩

/-- A player deep in the landing platform in binary64 arithmetic: centre
`(1, 0.5 + 2^-53, 0)`, its feet just less than `0.9` below the platform
top. -/
def deepPlayer64 : Player ℚ := playerAtFl round64 ⟨1, 1 / 2 + 1 / 2 ^ 53, 0⟩ ⟨0, -3, 0⟩

/-- The player at the origin in binary64 arithmetic, at rest. -/
def originPlayer64 : Player ℚ := playerAtFl round64 ⟨0, 0, 0⟩ ⟨0, 0, 0⟩

/-- A wall standing on the landing platform: x from `0.5` to `1.5`, y from
`0.5` to `4.5`. -/
def sideWall : Collider K :=
  { aabb := ⟨⟨1, 2.5, 0⟩, ⟨0.5, 2, 5⟩⟩, moving := none }

/-- A player in the corner of the landing platform and the wall in binary64
arithmetic: centre `(0.3, 1.3, 0)`, falling, its feet in the platform and
its side in the wall. -/
def cornerPlayer64 : Player ℚ := playerAtFl round64 ⟨0.3, 1.3, 0⟩ ⟨0, -3, 0⟩

/-! ## C1 -/

/-- C1: `aabbOverlap` returns on each axis the depth
`min(aMax, bMax) - max(aMin, bMin)`, reports `hit` exactly when the three
depths are strictly positive, and so reports no hit when some depth is 0
(boxes touching on a face). -/
theorem aabbOverlap_depths_and_hit (aMin aMax bMin bMax : Vector3 K) :
    (aabbOverlap aMin aMax bMin bMax).ox = Min.min aMax.x bMax.x - Max.max aMin.x bMin.x ∧
    (aabbOverlap aMin aMax bMin bMax).oy = Min.min aMax.y bMax.y - Max.max aMin.y bMin.y ∧
    (aabbOverlap aMin aMax bMin bMax).oz = Min.min aMax.z bMax.z - Max.max aMin.z bMin.z ∧
    ((aabbOverlap aMin aMax bMin bMax).hit = true ↔
      0 < (aabbOverlap aMin aMax bMin bMax).ox ∧ 0 < (aabbOverlap aMin aMax bMin bMax).oy ∧
        0 < (aabbOverlap aMin aMax bMin bMax).oz) ∧
    ((aabbOverlap aMin aMax bMin bMax).ox = 0 ∨ (aabbOverlap aMin aMax bMin bMax).oy = 0 ∨
        (aabbOverlap aMin aMax bMin bMax).oz = 0 →
      (aabbOverlap aMin aMax bMin bMax).hit = false) := by
  refine ⟨rfl, rfl, rfl, ?_, ?_⟩
  · simp [aabbOverlap, and_assoc]
  · intro h
    simp only [aabbOverlap] at h ⊢
    rcases h with h | h | h <;> simp [h]

/-! ## Lemmas on one resolution step -/

theorem playerOverlap_hit_iff (p : Player K) (c : Collider K) :
    (playerOverlap p c).hit = true ↔
      0 < (playerOverlap p c).ox ∧ 0 < (playerOverlap p c).oy ∧ 0 < (playerOverlap p c).oz := by
  simp [playerOverlap, aabbOverlap, and_assoc]

theorem resolveStep_of_not_hit (p : Player K) (c : Collider K)
    (h : (playerOverlap p c).hit = false) : resolveStep p c = p := by
  simp [resolveStep, h]

theorem resolveStep_x (p : Player K) (c : Collider K) (h : (playerOverlap p c).hit = true)
    (hx : (playerOverlap p c).ox ≤ (playerOverlap p c).oy ∧
      (playerOverlap p c).ox ≤ (playerOverlap p c).oz) :
    resolveStep p c =
      { p with
        pos := { p.pos with x := p.pos.x + pushDir .x p c * (playerOverlap p c).ox }
        vel := { p.vel with x := 0 } } := by
  simp [resolveStep, h, hx, pushDir, Vector3.get]

theorem resolveStep_z (p : Player K) (c : Collider K) (h : (playerOverlap p c).hit = true)
    (hx : ¬ ((playerOverlap p c).ox ≤ (playerOverlap p c).oy ∧
      (playerOverlap p c).ox ≤ (playerOverlap p c).oz))
    (hz : (playerOverlap p c).oz ≤ (playerOverlap p c).ox ∧
      (playerOverlap p c).oz ≤ (playerOverlap p c).oy) :
    resolveStep p c =
      { p with
        pos := { p.pos with z := p.pos.z + pushDir .z p c * (playerOverlap p c).oz }
        vel := { p.vel with z := 0 } } := by
  simp only [resolveStep, h, Bool.not_true, Bool.false_eq_true, if_false, if_neg hx, if_pos hz,
    pushDir, Vector3.get]

theorem resolveStep_y (p : Player K) (c : Collider K) (h : (playerOverlap p c).hit = true)
    (hx : ¬ ((playerOverlap p c).ox ≤ (playerOverlap p c).oy ∧
      (playerOverlap p c).ox ≤ (playerOverlap p c).oz))
    (hz : ¬ ((playerOverlap p c).oz ≤ (playerOverlap p c).ox ∧
      (playerOverlap p c).oz ≤ (playerOverlap p c).oy)) :
    resolveStep p c =
      { p with
        pos := { p.pos with y := p.pos.y + pushDir .y p c * (playerOverlap p c).oy }
        vel := { p.vel with y := 0 }
        grounded := if p.pos.y < c.aabb.c.y then p.grounded else true
        groundPlatform :=
          if p.pos.y < c.aabb.c.y then p.groundPlatform
          else match c.moving with
            | some i => some i
            | none => p.groundPlatform } := by
  simp only [resolveStep, h, Bool.not_true, Bool.false_eq_true, if_false, if_neg hx, if_neg hz,
    pushDir, Vector3.get]
  by_cases hlt : p.pos.y < c.aabb.c.y
  · have h10 : ¬ ((1 : K) < 0) := by norm_num
    simp [hlt, h10]
  · simp [hlt]

theorem pushDir_mul_ne_zero (a : Axis) (p : Player K) (c : Collider K) (d : K) (hd : 0 < d) :
    pushDir a p c * d ≠ 0 := by
  unfold pushDir
  split_ifs
  · simp [hd.ne']
  · simp [hd.ne']

theorem resolvesOn_iff_x (p : Player K) (c : Collider K) (h : (playerOverlap p c).hit = true)
    (hx : (playerOverlap p c).ox ≤ (playerOverlap p c).oy ∧
      (playerOverlap p c).ox ≤ (playerOverlap p c).oz) (a : Axis) :
    resolvesOn a p c ↔ a = .x := by
  have hpos := ((playerOverlap_hit_iff p c).1 h).1
  have hne := pushDir_mul_ne_zero .x p c _ hpos
  unfold resolvesOn
  rw [resolveStep_x p c h hx]
  cases a <;> simp [Vector3.get, hne]

theorem resolvesOn_iff_z (p : Player K) (c : Collider K) (h : (playerOverlap p c).hit = true)
    (hx : ¬ ((playerOverlap p c).ox ≤ (playerOverlap p c).oy ∧
      (playerOverlap p c).ox ≤ (playerOverlap p c).oz))
    (hz : (playerOverlap p c).oz ≤ (playerOverlap p c).ox ∧
      (playerOverlap p c).oz ≤ (playerOverlap p c).oy) (a : Axis) :
    resolvesOn a p c ↔ a = .z := by
  have hpos := ((playerOverlap_hit_iff p c).1 h).2.2
  have hne := pushDir_mul_ne_zero .z p c _ hpos
  unfold resolvesOn
  rw [resolveStep_z p c h hx hz]
  cases a <;> simp [Vector3.get, hne]

theorem resolvesOn_iff_y (p : Player K) (c : Collider K) (h : (playerOverlap p c).hit = true)
    (hx : ¬ ((playerOverlap p c).ox ≤ (playerOverlap p c).oy ∧
      (playerOverlap p c).ox ≤ (playerOverlap p c).oz))
    (hz : ¬ ((playerOverlap p c).oz ≤ (playerOverlap p c).ox ∧
      (playerOverlap p c).oz ≤ (playerOverlap p c).oy)) (a : Axis) :
    resolvesOn a p c ↔ a = .y := by
  have hpos := ((playerOverlap_hit_iff p c).1 h).2.1
  have hne := pushDir_mul_ne_zero .y p c _ hpos
  unfold resolvesOn
  rw [resolveStep_y p c h hx hz]
  cases a <;> simp [Vector3.get, hne]

/-! ## C2 -/

/-- C2: for a collider the pass finds overlapping the player, with depths
`(ox, oy, oz)`: x is resolved whenever `ox ≤ oy` and `ox ≤ oz`; otherwise z
whenever `oz ≤ oy`; otherwise y; y is resolved only when `oy` is strictly
smaller than both `ox` and `oz`; the resolved axis is unique and its depth is
the smallest of the three. -/
theorem resolveStep_axis_choice (p : Player K) (c : Collider K)
    (h : (playerOverlap p c).hit = true) :
    ((playerOverlap p c).ox ≤ (playerOverlap p c).oy ∧
        (playerOverlap p c).ox ≤ (playerOverlap p c).oz → resolvesOn .x p c) ∧
    (¬ ((playerOverlap p c).ox ≤ (playerOverlap p c).oy ∧
        (playerOverlap p c).ox ≤ (playerOverlap p c).oz) →
      (playerOverlap p c).oz ≤ (playerOverlap p c).oy → resolvesOn .z p c) ∧
    (¬ ((playerOverlap p c).ox ≤ (playerOverlap p c).oy ∧
        (playerOverlap p c).ox ≤ (playerOverlap p c).oz) →
      ¬ (playerOverlap p c).oz ≤ (playerOverlap p c).oy → resolvesOn .y p c) ∧
    (resolvesOn .y p c →
      (playerOverlap p c).oy < (playerOverlap p c).ox ∧
        (playerOverlap p c).oy < (playerOverlap p c).oz) ∧
    (∀ a, resolvesOn a p c → ∀ b, (playerOverlap p c).depth a ≤ (playerOverlap p c).depth b) ∧
    (∃! a, resolvesOn a p c) := by
  by_cases hx : (playerOverlap p c).ox ≤ (playerOverlap p c).oy ∧
      (playerOverlap p c).ox ≤ (playerOverlap p c).oz
  · have key := resolvesOn_iff_x p c h hx
    refine ⟨fun _ => (key _).2 rfl, fun h1 => absurd hx h1, fun h1 => absurd hx h1, ?_, ?_, ?_⟩
    · intro hy
      exact absurd ((key _).1 hy) (by decide)
    · intro a ha b
      rw [(key a).1 ha]
      cases b
      · exact le_refl _
      · exact hx.1
      · exact hx.2
    · exact ⟨.x, (key _).2 rfl, fun a ha => (key a).1 ha⟩
  · by_cases hz : (playerOverlap p c).oz ≤ (playerOverlap p c).ox ∧
        (playerOverlap p c).oz ≤ (playerOverlap p c).oy
    · have key := resolvesOn_iff_z p c h hx hz
      refine ⟨fun h1 => absurd h1 hx, fun _ _ => (key _).2 rfl, ?_, ?_, ?_, ?_⟩
      · intro _ h2
        exact absurd hz.2 h2
      · intro hy
        exact absurd ((key _).1 hy) (by decide)
      · intro a ha b
        rw [(key a).1 ha]
        cases b
        · exact hz.1
        · exact hz.2
        · exact le_refl _
      · exact ⟨.z, (key _).2 rfl, fun a ha => (key a).1 ha⟩
    · have key := resolvesOn_iff_y p c h hx hz
      have hlt : (playerOverlap p c).oy < (playerOverlap p c).ox ∧
          (playerOverlap p c).oy < (playerOverlap p c).oz := by
        rw [not_and_or, not_le, not_le] at hx hz
        rcases hx with h1 | h1 <;> rcases hz with h2 | h2
        · exact ⟨h1, lt_trans h1 h2⟩
        · exact ⟨h1, h2⟩
        · exact absurd (lt_trans h1 h2) (lt_irrefl _)
        · exact ⟨lt_trans h2 h1, h2⟩
      refine ⟨fun h1 => absurd h1 hx, ?_, fun _ _ => (key _).2 rfl, fun _ => hlt, ?_, ?_⟩
      · intro _ h2
        exact absurd h2 (not_le.2 hlt.2)
      · intro a ha b
        rw [(key a).1 ha]
        cases b
        · exact hlt.1.le
        · exact le_refl _
        · exact hlt.2.le
      · exact ⟨.y, (key _).2 rfl, fun a ha => (key a).1 ha⟩

/-- Witness of C2: the player `0.1` deep in the top of the landing platform
is resolved on y. -/
theorem resolveStep_axis_choice_witness :
    (playerOverlap (playerAt (⟨0, 1.3, 0⟩ : Vector3 ℚ) ⟨0, -3, 0⟩) landingPlatform).hit = true ∧
      resolvesOn .y (playerAt (⟨0, 1.3, 0⟩ : Vector3 ℚ) ⟨0, -3, 0⟩) landingPlatform :=
  have h : (playerOverlap (playerAt (⟨0, 1.3, 0⟩ : Vector3 ℚ) ⟨0, -3, 0⟩) landingPlatform).hit
      = true := by
    norm_num [playerOverlap, aabbOverlap, playerAt, Player.init, landingPlatform, AABB.min,
      AABB.max, Vector3.sub, Vector3.add]
  ⟨h, (resolveStep_axis_choice _ _ h).2.2.1
    (by norm_num [playerOverlap, aabbOverlap, playerAt, Player.init, landingPlatform, AABB.min,
      AABB.max, Vector3.sub, Vector3.add])
    (by norm_num [playerOverlap, aabbOverlap, playerAt, Player.init, landingPlatform, AABB.min,
      AABB.max, Vector3.sub, Vector3.add])⟩

/-! ## C3 -/

/-- C3, as the code has it: for an overlapping collider there is one axis,
the resolved one, on which the position changes, by exactly the overlap depth
on that axis times the push direction, which is `-1` when the player centre
is strictly below the collider centre on that axis and `+1` otherwise (the
sign of the difference of the centres when they differ, `+1` when they
coincide); the velocity on that axis becomes 0; position and velocity on the
other two axes are unchanged. -/
theorem resolveStep_push (p : Player K) (c : Collider K)
    (h : (playerOverlap p c).hit = true) :
    ∃ a : Axis, (∀ b, resolvesOn b p c ↔ b = a) ∧
      (resolveStep p c).pos.get a =
        p.pos.get a + pushDir a p c * (playerOverlap p c).depth a ∧
      (p.pos.get a ≠ c.aabb.c.get a →
        pushDir a p c = ((SignType.sign (p.pos.get a - c.aabb.c.get a) : SignType) : K)) ∧
      (p.pos.get a = c.aabb.c.get a → pushDir a p c = 1) ∧
      (resolveStep p c).vel.get a = 0 ∧
      ∀ b, b ≠ a →
        (resolveStep p c).pos.get b = p.pos.get b ∧ (resolveStep p c).vel.get b = p.vel.get b := by
  have hsign : ∀ a : Axis, p.pos.get a ≠ c.aabb.c.get a →
      pushDir a p c = ((SignType.sign (p.pos.get a - c.aabb.c.get a) : SignType) : K) := by
    intro a hne
    unfold pushDir
    rcases lt_or_gt_of_ne hne with hlt | hgt
    · rw [if_pos hlt, sign_neg (sub_neg.2 hlt)]
      simp
    · rw [if_neg (not_lt.2 hgt.le), sign_pos (sub_pos.2 hgt)]
      simp
  have hone : ∀ a : Axis, p.pos.get a = c.aabb.c.get a → pushDir a p c = 1 := by
    intro a he
    simp [pushDir, he]
  by_cases hx : (playerOverlap p c).ox ≤ (playerOverlap p c).oy ∧
      (playerOverlap p c).ox ≤ (playerOverlap p c).oz
  · refine ⟨.x, resolvesOn_iff_x p c h hx, ?_, hsign _, hone _, ?_, ?_⟩
    · rw [resolveStep_x p c h hx]; rfl
    · rw [resolveStep_x p c h hx]; rfl
    · intro b hb
      rw [resolveStep_x p c h hx]
      cases b
      · exact absurd rfl hb
      · exact ⟨rfl, rfl⟩
      · exact ⟨rfl, rfl⟩
  · by_cases hz : (playerOverlap p c).oz ≤ (playerOverlap p c).ox ∧
        (playerOverlap p c).oz ≤ (playerOverlap p c).oy
    · refine ⟨.z, resolvesOn_iff_z p c h hx hz, ?_, hsign _, hone _, ?_, ?_⟩
      · rw [resolveStep_z p c h hx hz]; rfl
      · rw [resolveStep_z p c h hx hz]; rfl
      · intro b hb
        rw [resolveStep_z p c h hx hz]
        cases b
        · exact ⟨rfl, rfl⟩
        · exact ⟨rfl, rfl⟩
        · exact absurd rfl hb
    · refine ⟨.y, resolvesOn_iff_y p c h hx hz, ?_, hsign _, hone _, ?_, ?_⟩
      · rw [resolveStep_y p c h hx hz]; rfl
      · rw [resolveStep_y p c h hx hz]; rfl
      · intro b hb
        rw [resolveStep_y p c h hx hz]
        cases b
        · exact ⟨rfl, rfl⟩
        · exact absurd rfl hb
        · exact ⟨rfl, rfl⟩

/-- Witness of C3: the player `0.1` deep in the top of the landing
platform. -/
theorem resolveStep_push_witness :
    (playerOverlap (playerAt (⟨0, 1.3, 0⟩ : Vector3 ℚ) ⟨0, -3, 0⟩) landingPlatform).hit = true ∧
      ∃ a : Axis,
        (resolveStep (playerAt (⟨0, 1.3, 0⟩ : Vector3 ℚ) ⟨0, -3, 0⟩) landingPlatform).vel.get a
          = 0 :=
  have h : (playerOverlap (playerAt (⟨0, 1.3, 0⟩ : Vector3 ℚ) ⟨0, -3, 0⟩) landingPlatform).hit
      = true := by
    norm_num [playerOverlap, aabbOverlap, playerAt, Player.init, landingPlatform, AABB.min,
      AABB.max, Vector3.sub, Vector3.add]
  ⟨h, (resolveStep_push _ _ h).imp fun _ ha => ha.2.2.2.2.1⟩

/-- Counterexample to C3 as stated: the player centred on a thin wall
(centres equal on x) is resolved on x and moved by the full depth `0.2` in
the positive direction, while the sign of the difference of the centres
is 0. -/
theorem resolveStep_push_sign_counterexample :
    (playerOverlap (playerAt (⟨0, 1, 0⟩ : Vector3 ℚ) ⟨0, 0, 0⟩) thinWall).hit = true ∧
    (playerOverlap (playerAt (⟨0, 1, 0⟩ : Vector3 ℚ) ⟨0, 0, 0⟩) thinWall).ox = 0.2 ∧
    (playerOverlap (playerAt (⟨0, 1, 0⟩ : Vector3 ℚ) ⟨0, 0, 0⟩) thinWall).oy = 1.8 ∧
    (playerOverlap (playerAt (⟨0, 1, 0⟩ : Vector3 ℚ) ⟨0, 0, 0⟩) thinWall).oz = 0.9 ∧
    (resolveStep (playerAt (⟨0, 1, 0⟩ : Vector3 ℚ) ⟨0, 0, 0⟩) thinWall).pos = ⟨0.2, 1, 0⟩ ∧
    (resolveStep (playerAt (⟨0, 1, 0⟩ : Vector3 ℚ) ⟨0, 0, 0⟩) thinWall).pos.x ≠
      (playerAt (⟨0, 1, 0⟩ : Vector3 ℚ) ⟨0, 0, 0⟩).pos.x +
        ((SignType.sign ((playerAt (⟨0, 1, 0⟩ : Vector3 ℚ) ⟨0, 0, 0⟩).pos.x -
          (thinWall : Collider ℚ).aabb.c.x) : SignType) : ℚ) *
          (playerOverlap (playerAt (⟨0, 1, 0⟩ : Vector3 ℚ) ⟨0, 0, 0⟩) thinWall).ox := by
  norm_num [resolveStep, playerOverlap, aabbOverlap, playerAt, Player.init, thinWall, AABB.min,
    AABB.max, Vector3.sub, Vector3.add]

/-! ## Binary64 rounding -/

theorem roundHalfEven_sub_le (t : ℚ) : |((roundHalfEven t : ℤ) : ℚ) - t| ≤ 1 / 2 := by
  have h0 : (0 : ℚ) ≤ t - ⌊t⌋ := sub_nonneg.2 (Int.floor_le t)
  have h1 : t - ⌊t⌋ < 1 := by linarith [Int.lt_floor_add_one t]
  unfold roundHalfEven
  rw [abs_le]
  split_ifs with a b c
  · constructor <;> linarith
  · push_cast; constructor <;> linarith
  · constructor <;> linarith
  · push_cast; constructor <;> linarith

theorem roundHalfEven_of_near (t : ℚ) (m : ℤ) (h : |t - m| < 1 / 2) : roundHalfEven t = m := by
  rw [abs_lt] at h
  unfold roundHalfEven
  by_cases hm : (m : ℚ) ≤ t
  · have hf : ⌊t⌋ = m := by
      rw [Int.floor_eq_iff]; constructor <;> linarith
    rw [hf, if_pos (by linarith)]
  · have hf : ⌊t⌋ = m - 1 := by
      rw [Int.floor_eq_iff]; push_cast; constructor <;> linarith
    rw [hf]; push_cast
    rw [if_neg (by linarith), if_pos (by linarith)]; ring

theorem roundHalfEven_of_tie_even (t : ℚ) (m : ℤ) (h : t = m + 1 / 2) (he : m % 2 = 0) :
    roundHalfEven t = m := by
  have hf : ⌊t⌋ = m := by
    rw [Int.floor_eq_iff]; constructor <;> linarith
  unfold roundHalfEven
  rw [hf, if_neg (by linarith), if_neg (by linarith), if_pos he]

theorem roundHalfEven_of_tie_odd (t : ℚ) (m : ℤ) (h : t = m + 1 / 2) (he : m % 2 = 1) :
    roundHalfEven t = m + 1 := by
  have hf : ⌊t⌋ = m := by
    rw [Int.floor_eq_iff]; constructor <;> linarith
  unfold roundHalfEven
  rw [hf, if_neg (by linarith), if_neg (by linarith), if_neg (by omega)]

theorem log_two_eq (x : ℚ) (e : ℤ) (h1 : (2 : ℚ) ^ e ≤ x) (h2 : x < (2 : ℚ) ^ (e + 1)) :
    Int.log 2 x = e := by
  have hx : 0 < x := lt_of_lt_of_le (zpow_pos (by norm_num) e) h1
  have a : e ≤ Int.log 2 x := (Int.zpow_le_iff_le_log (by norm_num) hx).1 (by exact_mod_cast h1)
  have b : Int.log 2 x < e + 1 := (Int.lt_zpow_iff_log_lt (by norm_num) hx).1 (by exact_mod_cast h2)
  omega

theorem round64_eq (x : ℚ) (e m : ℤ) (h1 : (2 : ℚ) ^ e ≤ |x|) (h2 : |x| < (2 : ℚ) ^ (e + 1))
    (hm : roundHalfEven (x / 2 ^ (e - 52)) = m) : round64 x = m * 2 ^ (e - 52) := by
  have hx : x ≠ 0 := by
    intro h; rw [h, abs_zero] at h1
    exact absurd h1 (not_le.2 (zpow_pos (by norm_num) e))
  unfold round64
  rw [if_neg hx, log_two_eq |x| e h1 h2, hm]

theorem round64_error (x : ℚ) : |round64 x - x| ≤ 2 ^ (-53 : ℤ) * |x| := by
  by_cases hx : x = 0
  · simp [round64, hx]
  · have hpos : 0 < |x| := abs_pos.2 hx
    have hlog : (2 : ℚ) ^ (Int.log 2 |x|) ≤ |x| := by
      have := Int.zpow_log_le_self (b := 2) (by norm_num) hpos
      exact_mod_cast this
    have hulp : (0 : ℚ) < 2 ^ (Int.log 2 |x| - 52) := zpow_pos (by norm_num) _
    unfold round64
    rw [if_neg hx]
    have e1 : ((roundHalfEven (x / 2 ^ (Int.log 2 |x| - 52)) : ℤ) : ℚ) * 2 ^ (Int.log 2 |x| - 52) - x
        = (((roundHalfEven (x / 2 ^ (Int.log 2 |x| - 52)) : ℤ) : ℚ) - x / 2 ^ (Int.log 2 |x| - 52))
          * 2 ^ (Int.log 2 |x| - 52) := by
      field_simp
    rw [e1, abs_mul, abs_of_pos hulp]
    have h2 : (2 : ℚ) ^ (Int.log 2 |x| - 52) = 2 * (2 ^ (-53 : ℤ) * 2 ^ (Int.log 2 |x|)) := by
      rw [show Int.log 2 |x| - 52 = 1 + (-53 + Int.log 2 |x|) by ring,
        zpow_add₀ (by norm_num), zpow_add₀ (by norm_num)]
      norm_num
    have h3 := roundHalfEven_sub_le (x / 2 ^ (Int.log 2 |x| - 52))
    have h4 : (0 : ℚ) ≤ 2 ^ (-53 : ℤ) := by positivity
    calc |((roundHalfEven (x / 2 ^ (Int.log 2 |x| - 52)) : ℤ) : ℚ) - x / 2 ^ (Int.log 2 |x| - 52)|
          * 2 ^ (Int.log 2 |x| - 52)
        ≤ 1 / 2 * 2 ^ (Int.log 2 |x| - 52) := mul_le_mul_of_nonneg_right h3 hulp.le
      _ = 2 ^ (-53 : ℤ) * 2 ^ (Int.log 2 |x|) := by rw [h2]; ring
      _ ≤ 2 ^ (-53 : ℤ) * |x| := mul_le_mul_of_nonneg_left hlog h4

theorem round64_roundsWithin : RoundsWithin round64 (2 ^ (-53 : ℤ)) := round64_error

theorem floor_le_roundHalfEven (t : ℚ) : ⌊t⌋ ≤ roundHalfEven t := by
  unfold roundHalfEven
  split_ifs <;> omega

theorem roundHalfEven_le_floor_add_one (t : ℚ) : roundHalfEven t ≤ ⌊t⌋ + 1 := by
  unfold roundHalfEven
  split_ifs <;> omega

theorem roundHalfEven_mono {t t' : ℚ} (h : t ≤ t') : roundHalfEven t ≤ roundHalfEven t' := by
  rcases (Int.floor_mono h).lt_or_eq with hlt | heq
  · have a := roundHalfEven_le_floor_add_one t
    have b := floor_le_roundHalfEven t'
    omega
  · unfold roundHalfEven
    rw [← heq]
    have hr : t - ⌊t⌋ ≤ t' - ⌊t⌋ := by linarith
    split_ifs <;> first | omega | (exfalso; linarith)

theorem roundHalfEven_intCast (m : ℤ) : roundHalfEven (m : ℚ) = m :=
  roundHalfEven_of_near _ m (by simp)

theorem log_two_bounds (x : ℚ) (hx : 0 < x) :
    (2 : ℚ) ^ (Int.log 2 x) ≤ x ∧ x < (2 : ℚ) ^ (Int.log 2 x + 1) := by
  constructor
  · have := Int.zpow_log_le_self (b := 2) (by norm_num) hx
    exact_mod_cast this
  · have := Int.lt_zpow_succ_log_self (b := 2) (by norm_num) x
    exact_mod_cast this

theorem zpow_sub_52 (e : ℤ) : (2 : ℚ) ^ e = 2 ^ (52 : ℕ) * 2 ^ (e - 52) := by
  rw [← zpow_natCast, ← zpow_add₀ (by norm_num)]; congr 1; push_cast; ring

theorem zpow_add_one_53 (e : ℤ) : (2 : ℚ) ^ (e + 1) = 2 ^ (53 : ℕ) * 2 ^ (e - 52) := by
  rw [← zpow_natCast, ← zpow_add₀ (by norm_num)]; congr 1; push_cast; ring

/-- The significand of a positive `x`: between `2^52` and `2^53`. -/
theorem significand_bounds_pos (x : ℚ) (hx : 0 < x) :
    (2 : ℤ) ^ 52 ≤ roundHalfEven (x / 2 ^ (Int.log 2 x - 52)) ∧
      roundHalfEven (x / 2 ^ (Int.log 2 x - 52)) ≤ (2 : ℤ) ^ 53 := by
  obtain ⟨h1, h2⟩ := log_two_bounds x hx
  have hulp : (0 : ℚ) < 2 ^ (Int.log 2 x - 52) := zpow_pos (by norm_num) _
  rw [zpow_sub_52] at h1
  rw [zpow_add_one_53] at h2
  have a : (((2 : ℤ) ^ 52 : ℤ) : ℚ) ≤ x / 2 ^ (Int.log 2 x - 52) := by
    rw [le_div_iff₀ hulp]; push_cast; exact h1
  have b : x / 2 ^ (Int.log 2 x - 52) ≤ (((2 : ℤ) ^ 53 : ℤ) : ℚ) := by
    rw [div_le_iff₀ hulp]; push_cast; exact h2.le
  have a' := roundHalfEven_mono a
  have b' := roundHalfEven_mono b
  rw [roundHalfEven_intCast] at a' b'
  exact ⟨a', b'⟩

/-- The significand of a negative `x`: between `-2^53` and `-2^52`. -/
theorem significand_bounds_neg (x : ℚ) (hx : x < 0) :
    -(2 : ℤ) ^ 53 ≤ roundHalfEven (x / 2 ^ (Int.log 2 (-x) - 52)) ∧
      roundHalfEven (x / 2 ^ (Int.log 2 (-x) - 52)) ≤ -(2 : ℤ) ^ 52 := by
  obtain ⟨h1, h2⟩ := log_two_bounds (-x) (neg_pos.2 hx)
  have hulp : (0 : ℚ) < 2 ^ (Int.log 2 (-x) - 52) := zpow_pos (by norm_num) _
  rw [zpow_sub_52] at h1
  rw [zpow_add_one_53] at h2
  have a : ((-(2 : ℤ) ^ 53 : ℤ) : ℚ) ≤ x / 2 ^ (Int.log 2 (-x) - 52) := by
    rw [le_div_iff₀ hulp]; push_cast; linarith
  have b : x / 2 ^ (Int.log 2 (-x) - 52) ≤ ((-(2 : ℤ) ^ 52 : ℤ) : ℚ) := by
    rw [div_le_iff₀ hulp]; push_cast; linarith
  have a' := roundHalfEven_mono a
  have b' := roundHalfEven_mono b
  rw [roundHalfEven_intCast] at a' b'
  exact ⟨a', b'⟩

theorem round64_pos_bounds (x : ℚ) (hx : 0 < x) :
    (2 : ℚ) ^ (Int.log 2 x) ≤ round64 x ∧ round64 x ≤ (2 : ℚ) ^ (Int.log 2 x + 1) := by
  obtain ⟨h1, h2⟩ := significand_bounds_pos x hx
  have hulp : (0 : ℚ) < 2 ^ (Int.log 2 x - 52) := zpow_pos (by norm_num) _
  have h1q : ((2 : ℚ) ^ (52 : ℕ)) ≤ (roundHalfEven (x / 2 ^ (Int.log 2 x - 52)) : ℚ) := by
    exact_mod_cast h1
  have h2q : (roundHalfEven (x / 2 ^ (Int.log 2 x - 52)) : ℚ) ≤ ((2 : ℚ) ^ (53 : ℕ)) := by
    exact_mod_cast h2
  unfold round64
  rw [if_neg hx.ne', abs_of_pos hx, zpow_sub_52 (Int.log 2 x), zpow_add_one_53 (Int.log 2 x)]
  exact ⟨mul_le_mul_of_nonneg_right h1q hulp.le, mul_le_mul_of_nonneg_right h2q hulp.le⟩

theorem round64_neg_bounds (x : ℚ) (hx : x < 0) :
    -(2 : ℚ) ^ (Int.log 2 (-x) + 1) ≤ round64 x ∧ round64 x ≤ -(2 : ℚ) ^ (Int.log 2 (-x)) := by
  obtain ⟨h1, h2⟩ := significand_bounds_neg x hx
  have hulp : (0 : ℚ) < 2 ^ (Int.log 2 (-x) - 52) := zpow_pos (by norm_num) _
  have h1q : -((2 : ℚ) ^ (53 : ℕ)) ≤ (roundHalfEven (x / 2 ^ (Int.log 2 (-x) - 52)) : ℚ) := by
    exact_mod_cast h1
  have h2q : (roundHalfEven (x / 2 ^ (Int.log 2 (-x) - 52)) : ℚ) ≤ -((2 : ℚ) ^ (52 : ℕ)) := by
    exact_mod_cast h2
  unfold round64
  rw [if_neg hx.ne, abs_of_neg hx, zpow_sub_52 (Int.log 2 (-x)),
    zpow_add_one_53 (Int.log 2 (-x))]
  constructor
  · have := mul_le_mul_of_nonneg_right h1q hulp.le
    linarith
  · have := mul_le_mul_of_nonneg_right h2q hulp.le
    linarith

theorem round64_zero : round64 0 = 0 := by simp [round64]

theorem round64_mono : Monotone round64 := by
  intro x y hxy
  rcases lt_trichotomy x 0 with hx | hx | hx
  · rcases lt_trichotomy y 0 with hy | hy | hy
    · -- both negative
      have hlog : Int.log 2 (-y) ≤ Int.log 2 (-x) :=
        Int.log_mono_right (neg_pos.2 hy) (by linarith)
      rcases hlog.lt_or_eq with hlt | heq
      · have a := (round64_neg_bounds x hx).2
        have b := (round64_neg_bounds y hy).1
        have c : (2 : ℚ) ^ (Int.log 2 (-y) + 1) ≤ 2 ^ (Int.log 2 (-x)) :=
          zpow_le_zpow_right₀ (by norm_num) (by omega)
        linarith
      · unfold round64
        rw [if_neg hx.ne, if_neg hy.ne, abs_of_neg hx, abs_of_neg hy, heq]
        have hulp : (0 : ℚ) < 2 ^ (Int.log 2 (-x) - 52) := zpow_pos (by norm_num) _
        have hq : x / 2 ^ (Int.log 2 (-x) - 52) ≤ y / 2 ^ (Int.log 2 (-x) - 52) :=
          div_le_div_of_nonneg_right hxy hulp.le
        have := roundHalfEven_mono hq
        exact mul_le_mul_of_nonneg_right (by exact_mod_cast this) hulp.le
    · rw [hy, round64_zero]
      have a := (round64_neg_bounds x hx).2
      have : (0 : ℚ) < 2 ^ (Int.log 2 (-x)) := zpow_pos (by norm_num) _
      linarith
    · have a := (round64_neg_bounds x hx).2
      have b := (round64_pos_bounds y hy).1
      have : (0 : ℚ) < 2 ^ (Int.log 2 (-x)) := zpow_pos (by norm_num) _
      have : (0 : ℚ) < 2 ^ (Int.log 2 y) := zpow_pos (by norm_num) _
      linarith
  · have hy : 0 ≤ y := by linarith
    rw [hx, round64_zero]
    rcases hy.lt_or_eq with hy | hy
    · have b := (round64_pos_bounds y hy).1
      have : (0 : ℚ) < 2 ^ (Int.log 2 y) := zpow_pos (by norm_num) _
      linarith
    · rw [← hy, round64_zero]
  · have hy : 0 < y := by linarith
    have hlog : Int.log 2 x ≤ Int.log 2 y := Int.log_mono_right hx hxy
    rcases hlog.lt_or_eq with hlt | heq
    · have a := (round64_pos_bounds x hx).2
      have b := (round64_pos_bounds y hy).1
      have c : (2 : ℚ) ^ (Int.log 2 x + 1) ≤ 2 ^ (Int.log 2 y) :=
        zpow_le_zpow_right₀ (by norm_num) (by omega)
      linarith
    · unfold round64
      rw [if_neg hx.ne', if_neg hy.ne', abs_of_pos hx, abs_of_pos hy, heq]
      have hulp : (0 : ℚ) < 2 ^ (Int.log 2 y - 52) := zpow_pos (by norm_num) _
      have hq : x / 2 ^ (Int.log 2 y - 52) ≤ y / 2 ^ (Int.log 2 y - 52) :=
        div_le_div_of_nonneg_right hxy hulp.le
      have := roundHalfEven_mono hq
      exact mul_le_mul_of_nonneg_right (by exact_mod_cast this) hulp.le

/-- An integer of 53 bits times a power of two is a binary64 value. -/
theorem round64_significand_mul (m k : ℤ) (h1 : (2 : ℤ) ^ 52 ≤ |m|) (h2 : |m| ≤ (2 : ℤ) ^ 53) :
    round64 ((m : ℚ) * 2 ^ k) = (m : ℚ) * 2 ^ k := by
  have hk : (0 : ℚ) < 2 ^ k := zpow_pos (by norm_num) _
  have habs : |(m : ℚ) * 2 ^ k| = |(m : ℚ)| * 2 ^ k := by rw [abs_mul, abs_of_pos hk]
  have h1q : (2 : ℚ) ^ (52 : ℕ) ≤ |(m : ℚ)| := by
    have : (((2 : ℤ) ^ 52 : ℤ) : ℚ) ≤ ((|m| : ℤ) : ℚ) := Int.cast_le.2 h1
    simpa using this
  have h2q : |(m : ℚ)| ≤ (2 : ℚ) ^ (53 : ℕ) := by
    have : ((|m| : ℤ) : ℚ) ≤ (((2 : ℤ) ^ 53 : ℤ) : ℚ) := Int.cast_le.2 h2
    simpa using this
  rcases h2.lt_or_eq with hlt | heq
  · have hltq : |(m : ℚ)| < (2 : ℚ) ^ (53 : ℕ) := by
      have : ((|m| : ℤ) : ℚ) < (((2 : ℤ) ^ 53 : ℤ) : ℚ) := Int.cast_lt.2 hlt
      simpa using this
    have e1 : (2 : ℚ) ^ (k + 52) = 2 ^ (52 : ℕ) * 2 ^ k := by
      rw [← zpow_natCast, ← zpow_add₀ (by norm_num)]; congr 1; push_cast; ring
    have e2 : (2 : ℚ) ^ (k + 52 + 1) = 2 ^ (53 : ℕ) * 2 ^ k := by
      rw [← zpow_natCast, ← zpow_add₀ (by norm_num)]; congr 1; push_cast; ring
    rw [round64_eq _ (k + 52) m]
    · congr 2; ring
    · rw [habs, e1]; exact mul_le_mul_of_nonneg_right h1q hk.le
    · rw [habs, e2]; exact mul_lt_mul_of_pos_right hltq hk
    · have : (m : ℚ) * 2 ^ k / 2 ^ (k + 52 - 52) = (m : ℚ) := by
        rw [show k + 52 - 52 = k by ring]; field_simp
      rw [this, roundHalfEven_intCast]
  · have heqq : |(m : ℚ)| = (2 : ℚ) ^ (53 : ℕ) := by
      have : ((|m| : ℤ) : ℚ) = (((2 : ℤ) ^ 53 : ℤ) : ℚ) := by rw [heq]
      simpa using this
    have e1 : (2 : ℚ) ^ (k + 53) = 2 ^ (53 : ℕ) * 2 ^ k := by
      rw [← zpow_natCast, ← zpow_add₀ (by norm_num)]; congr 1; push_cast; ring
    have e2 : (2 : ℚ) ^ (k + 53 + 1) = 2 ^ (54 : ℕ) * 2 ^ k := by
      rw [← zpow_natCast, ← zpow_add₀ (by norm_num)]; congr 1; push_cast; ring
    have e3 : (2 : ℚ) ^ (k + 53 - 52) = 2 * 2 ^ k := by
      rw [show k + 53 - 52 = 1 + k by ring, zpow_add₀ (by norm_num)]; norm_num
    obtain ⟨n, hn⟩ : ∃ n : ℤ, m = 2 * n := by
      rcases abs_cases m with ⟨h, _⟩ | ⟨h, _⟩
      · exact ⟨2 ^ 52, by rw [← h, heq]; norm_num⟩
      · exact ⟨-2 ^ 52, by
          have : m = -|m| := by rw [h]; ring
          rw [this, heq]; norm_num⟩
    rw [round64_eq _ (k + 53) n]
    · rw [e3, hn]; push_cast; ring
    · rw [habs, e1, heqq]
    · rw [habs, e2, heqq]; exact mul_lt_mul_of_pos_right (by norm_num) hk
    · have : (m : ℚ) * 2 ^ k / 2 ^ (k + 53 - 52) = (n : ℚ) := by
        rw [e3, hn]; push_cast; field_simp; ring
      rw [this, roundHalfEven_intCast]

theorem round64_idem (x : ℚ) : round64 (round64 x) = round64 x := by
  rcases lt_trichotomy x 0 with hx | hx | hx
  · obtain ⟨h1, h2⟩ := significand_bounds_neg x hx
    have e : round64 x = (roundHalfEven (x / 2 ^ (Int.log 2 (-x) - 52)) : ℚ) *
        2 ^ (Int.log 2 (-x) - 52) := by
      unfold round64; rw [if_neg hx.ne, abs_of_neg hx]
    rw [e]
    apply round64_significand_mul
    · rw [abs_of_nonpos (by linarith [pow_pos (show (0 : ℤ) < 2 by norm_num) 52])]; linarith
    · rw [abs_of_nonpos (by linarith [pow_pos (show (0 : ℤ) < 2 by norm_num) 52])]; linarith
  · rw [hx, round64_zero, round64_zero]
  · obtain ⟨h1, h2⟩ := significand_bounds_pos x hx
    have e : round64 x = (roundHalfEven (x / 2 ^ (Int.log 2 x - 52)) : ℚ) *
        2 ^ (Int.log 2 x - 52) := by
      unfold round64; rw [if_neg hx.ne', abs_of_pos hx]
    rw [e]
    apply round64_significand_mul
    · rw [abs_of_nonneg (by linarith [pow_pos (show (0 : ℤ) < 2 by norm_num) 52])]; exact h1
    · rw [abs_of_nonneg (by linarith [pow_pos (show (0 : ℤ) < 2 by norm_num) 52])]; exact h2

/-! ## The resolver in rounded arithmetic -/

theorem playerOverlapFl_hit_iff (fl : K → K) (p : Player K) (c : Collider K) :
    (playerOverlapFl fl p c).hit = true ↔
      0 < (playerOverlapFl fl p c).ox ∧ 0 < (playerOverlapFl fl p c).oy ∧
        0 < (playerOverlapFl fl p c).oz := by
  simp [playerOverlapFl, aabbOverlapFl, and_assoc]

theorem minFl_get (fl : K → K) (b : AABB K) (a : Axis) :
    (b.minFl fl).get a = fl (b.c.get a - b.h.get a) := by
  cases a <;> rfl

theorem maxFl_get (fl : K → K) (b : AABB K) (a : Axis) :
    (b.maxFl fl).get a = fl (b.c.get a + b.h.get a) := by
  cases a <;> rfl

theorem playerOverlapFl_depth (fl : K → K) (p : Player K) (c : Collider K) (a : Axis) :
    (playerOverlapFl fl p c).depth a =
      fl (Min.min (fl (p.pos.get a + p.half.get a)) (fl (c.aabb.c.get a + c.aabb.h.get a)) -
        Max.max (fl (p.pos.get a - p.half.get a)) (fl (c.aabb.c.get a - c.aabb.h.get a))) := by
  cases a <;> rfl

theorem playerOverlapFl_depth_pos (fl : K → K) (p : Player K) (c : Collider K) (a : Axis)
    (h : (playerOverlapFl fl p c).hit = true) : 0 < (playerOverlapFl fl p c).depth a := by
  have := (playerOverlapFl_hit_iff fl p c).1 h
  cases a
  · exact this.1
  · exact this.2.1
  · exact this.2.2

theorem resolveAxisFl_eq_none_iff (fl : K → K) (p : Player K) (c : Collider K) :
    resolveAxisFl fl p c = none ↔ (playerOverlapFl fl p c).hit = false := by
  by_cases hh : (playerOverlapFl fl p c).hit = true
  · simp only [resolveAxisFl, hh, Bool.not_true, Bool.false_eq_true, if_false]
    constructor
    · intro h; split_ifs at h
    · intro h; exact absurd h (by simp)
  · have hf : (playerOverlapFl fl p c).hit = false := by simpa using hh
    simp [resolveAxisFl, hf]

theorem resolveAxisFl_hit (fl : K → K) (p : Player K) (c : Collider K) (a : Axis)
    (h : resolveAxisFl fl p c = some a) : (playerOverlapFl fl p c).hit = true := by
  cases hh : (playerOverlapFl fl p c).hit
  · rw [(resolveAxisFl_eq_none_iff fl p c).2 hh] at h; exact absurd h (by simp)
  · rfl

theorem resolveStepFl_of_none (fl : K → K) (p : Player K) (c : Collider K)
    (h : resolveAxisFl fl p c = none) : resolveStepFl fl p c = p := by
  have hh := (resolveAxisFl_eq_none_iff fl p c).1 h
  simp [resolveStepFl, hh]

theorem resolveStepFl_of_x (fl : K → K) (p : Player K) (c : Collider K)
    (h : resolveAxisFl fl p c = some .x) :
    resolveStepFl fl p c =
      { p with
        pos := { p.pos with x := fl (p.pos.x + fl (pushDir .x p c * (playerOverlapFl fl p c).ox)) }
        vel := { p.vel with x := 0 } } := by
  have hh := resolveAxisFl_hit fl p c _ h
  unfold resolveAxisFl at h
  simp only [hh, Bool.not_true, Bool.false_eq_true, if_false] at h
  have hx : (playerOverlapFl fl p c).ox ≤ (playerOverlapFl fl p c).oy ∧
      (playerOverlapFl fl p c).ox ≤ (playerOverlapFl fl p c).oz := by
    by_contra hx
    rw [if_neg hx] at h
    split_ifs at h <;> cases h
  simp [resolveStepFl, hh, hx, pushDir, Vector3.get]

theorem resolveStepFl_of_z (fl : K → K) (p : Player K) (c : Collider K)
    (h : resolveAxisFl fl p c = some .z) :
    resolveStepFl fl p c =
      { p with
        pos := { p.pos with z := fl (p.pos.z + fl (pushDir .z p c * (playerOverlapFl fl p c).oz)) }
        vel := { p.vel with z := 0 } } := by
  have hh := resolveAxisFl_hit fl p c _ h
  unfold resolveAxisFl at h
  simp only [hh, Bool.not_true, Bool.false_eq_true, if_false] at h
  have hx : ¬ ((playerOverlapFl fl p c).ox ≤ (playerOverlapFl fl p c).oy ∧
      (playerOverlapFl fl p c).ox ≤ (playerOverlapFl fl p c).oz) := by
    intro hx
    rw [if_pos hx] at h
    exact absurd h (by simp)
  rw [if_neg hx] at h
  have hz : (playerOverlapFl fl p c).oz ≤ (playerOverlapFl fl p c).ox ∧
      (playerOverlapFl fl p c).oz ≤ (playerOverlapFl fl p c).oy := by
    by_contra hz
    rw [if_neg hz] at h
    exact absurd h (by simp)
  simp only [resolveStepFl, hh, Bool.not_true, Bool.false_eq_true, if_false, if_neg hx,
    if_pos hz, pushDir, Vector3.get]

theorem resolveStepFl_of_y (fl : K → K) (p : Player K) (c : Collider K)
    (h : resolveAxisFl fl p c = some .y) :
    resolveStepFl fl p c =
      { p with
        pos := { p.pos with y := fl (p.pos.y + fl (pushDir .y p c * (playerOverlapFl fl p c).oy)) }
        vel := { p.vel with y := 0 }
        grounded := if p.pos.y < c.aabb.c.y then p.grounded else true
        groundPlatform :=
          if p.pos.y < c.aabb.c.y then p.groundPlatform
          else match c.moving with
            | some i => some i
            | none => p.groundPlatform } := by
  have hh := resolveAxisFl_hit fl p c _ h
  unfold resolveAxisFl at h
  simp only [hh, Bool.not_true, Bool.false_eq_true, if_false] at h
  have hx : ¬ ((playerOverlapFl fl p c).ox ≤ (playerOverlapFl fl p c).oy ∧
      (playerOverlapFl fl p c).ox ≤ (playerOverlapFl fl p c).oz) := by
    intro hx
    rw [if_pos hx] at h
    exact absurd h (by simp)
  rw [if_neg hx] at h
  have hz : ¬ ((playerOverlapFl fl p c).oz ≤ (playerOverlapFl fl p c).ox ∧
      (playerOverlapFl fl p c).oz ≤ (playerOverlapFl fl p c).oy) := by
    intro hz
    rw [if_pos hz] at h
    exact absurd h (by simp)
  simp only [resolveStepFl, hh, Bool.not_true, Bool.false_eq_true, if_false, if_neg hx,
    if_neg hz, pushDir, Vector3.get]
  by_cases hlt : p.pos.y < c.aabb.c.y
  · have h10 : ¬ ((1 : K) < 0) := by norm_num
    simp [hlt, h10]
  · simp [hlt]

theorem resolveStepFl_half (fl : K → K) (p : Player K) (c : Collider K) :
    (resolveStepFl fl p c).half = p.half := by
  rcases h : resolveAxisFl fl p c with _ | a
  · rw [resolveStepFl_of_none fl p c h]
  · cases a
    · rw [resolveStepFl_of_x fl p c h]
    · rw [resolveStepFl_of_y fl p c h]
    · rw [resolveStepFl_of_z fl p c h]

theorem resolveStepFl_pos_axis (fl : K → K) (p : Player K) (c : Collider K) (a : Axis)
    (h : resolveAxisFl fl p c = some a) :
    (resolveStepFl fl p c).pos.get a =
      fl (p.pos.get a + fl (pushDir a p c * (playerOverlapFl fl p c).depth a)) := by
  cases a
  · rw [resolveStepFl_of_x fl p c h]; rfl
  · rw [resolveStepFl_of_y fl p c h]; rfl
  · rw [resolveStepFl_of_z fl p c h]; rfl

theorem resolveStepFl_pos_other (fl : K → K) (p : Player K) (c : Collider K) (a : Axis)
    (h : resolveAxisFl fl p c ≠ some a) :
    (resolveStepFl fl p c).pos.get a = p.pos.get a := by
  rcases h' : resolveAxisFl fl p c with _ | b
  · rw [resolveStepFl_of_none fl p c h']
  · have hne : b ≠ a := fun e => h (by rw [h', e])
    cases b
    · rw [resolveStepFl_of_x fl p c h']; cases a <;> first | rfl | exact absurd rfl hne
    · rw [resolveStepFl_of_y fl p c h']; cases a <;> first | rfl | exact absurd rfl hne
    · rw [resolveStepFl_of_z fl p c h']; cases a <;> first | rfl | exact absurd rfl hne

/-- With no rounding the rounded loop body is the exact one. -/
theorem resolveStepFl_id (p : Player K) (c : Collider K) :
    resolveStepFl id p c = resolveStep p c := by
  have e : playerOverlapFl id p c = playerOverlap p c := rfl
  simp only [resolveStepFl, resolveStep, e, id]

/-- With no rounding the rounded pass is the exact one. -/
theorem resolvePlayerCollisionsFl_id (cs : List (Collider K)) (p : Player K) :
    _resolvePlayerCollisionsFl id cs p = _resolvePlayerCollisions cs p := by
  have e : resolveStepFl (id : K → K) = resolveStep := by
    funext p c
    exact resolveStepFl_id p c
  unfold _resolvePlayerCollisionsFl _resolvePlayerCollisions
  rw [e]

theorem resolvePlayerCollisionsFl_append (fl : K → K) (pre post : List (Collider K))
    (c : Collider K) (p : Player K) :
    _resolvePlayerCollisionsFl fl (pre ++ c :: post) p =
      _resolvePlayerCollisionsFl fl post
        (resolveStepFl fl (_resolvePlayerCollisionsFl fl pre p) c) := by
  simp [_resolvePlayerCollisionsFl, List.foldl_append]

/-! ## Error analysis of one push -/

/-- Exact arithmetic is the rounding `id`, with relative error `0`. -/
theorem roundsWithin_id : RoundsWithin (id : K → K) 0 := by
  intro x
  simp

theorem roundsWithin_nonneg {fl : K → K} {u : K} (h : RoundsWithin fl u) : 0 ≤ u := by
  have := h 1
  rw [abs_one, mul_one] at this
  exact le_trans (abs_nonneg _) this

theorem roundsWithin_bounds {fl : K → K} {u : K} (h : RoundsWithin fl u) {x b : K}
    (hx : |x| ≤ b) : x - u * b ≤ fl x ∧ fl x ≤ x + u * b := by
  have h1 := h x
  have h2 : u * |x| ≤ u * b := mul_le_mul_of_nonneg_left hx (roundsWithin_nonneg h)
  have h3 := abs_le.1 (le_trans h1 h2)
  constructor <;> linarith [h3.1, h3.2]

theorem roundsWithin_pos {fl : K → K} {u : K} (h : RoundsWithin fl u) (hu : u < 1) {x : K}
    (hx : 0 < x) : 0 < fl x := by
  have h1 := abs_le.1 (h x)
  rw [abs_of_pos hx] at h1
  have : 0 < (1 - u) * x := mul_pos (by linarith) hx
  nlinarith [h1.1]

theorem roundsWithin_neg {fl : K → K} {u : K} (h : RoundsWithin fl u) (hu : u < 1) {x : K}
    (hx : x < 0) : fl x < 0 := by
  have h1 := abs_le.1 (h x)
  rw [abs_of_neg hx] at h1
  have : 0 < (1 - u) * (-x) := mul_pos (by linarith) (by linarith)
  nlinarith [h1.2]

theorem roundsWithin_nonpos {fl : K → K} {u : K} (h : RoundsWithin fl u) (hu : u ≤ 1) {x : K}
    (hx : x ≤ 0) : fl x ≤ 0 := by
  have h1 := abs_le.1 (h x)
  rw [abs_of_nonpos hx] at h1
  have : 0 ≤ (1 - u) * (-x) := mul_nonneg (by linarith) (by linarith)
  nlinarith [h1.2]

/-- A rounded value of something at most `d` is at most `d + u d`. -/
theorem roundsWithin_le {fl : K → K} {u : K} (h : RoundsWithin fl u) (hu : u ≤ 1) {x d : K}
    (hd : 0 ≤ d) (hx : x ≤ d) : fl x ≤ d + u * d := by
  have hu0 := roundsWithin_nonneg h
  rcases le_or_lt x 0 with h0 | h0
  · have := roundsWithin_nonpos h hu h0
    have : 0 ≤ u * d := mul_nonneg hu0 hd
    linarith
  · have h1 := (roundsWithin_bounds h (show |x| ≤ d by rw [abs_of_pos h0]; exact hx)).2
    linarith

/-- A push in the direction `+1` out of a partial penetration: the
collider's max reaches at most `26 u B` past the player's new min. -/
theorem push_up_intrusion (fl : K → K) (u B pc ph cc ch : K) (hfl : RoundsWithin fl u)
    (hu : u ≤ 1 / 1024) (hpc : |pc| ≤ B) (hph : |ph| ≤ B) (hcc : |cc| ≤ B) (hch : |ch| ≤ B)
    (hdir : ¬ pc < cc)
    (hp : (fl (cc - ch) ≤ fl (pc - ph) ∧ fl (cc + ch) ≤ fl (pc + ph)) ∨
      (fl (pc - ph) ≤ fl (cc - ch) ∧ fl (pc + ph) ≤ fl (cc + ch))) :
    fl (cc + ch) - fl (fl (pc + fl (1 * fl (Min.min (fl (pc + ph)) (fl (cc + ch)) -
      Max.max (fl (pc - ph)) (fl (cc - ch))))) - ph) ≤ 26 * (u * B) := by
  have hu0 := roundsWithin_nonneg hfl
  have hB : 0 ≤ B := le_trans (abs_nonneg _) hpc
  have huB0 : 0 ≤ u * B := mul_nonneg hu0 hB
  have huB : u * B ≤ B / 1024 := by
    have := mul_le_mul_of_nonneg_right hu hB
    linarith
  rw [abs_le] at hpc hph hcc hch
  have hdir' : cc ≤ pc := not_lt.1 hdir
  obtain ⟨a1, a2⟩ := roundsWithin_bounds hfl (show |pc - ph| ≤ 2 * B by
    rw [abs_le]; constructor <;> linarith [hpc.1, hpc.2, hph.1, hph.2])
  obtain ⟨b1, b2⟩ := roundsWithin_bounds hfl (show |pc + ph| ≤ 2 * B by
    rw [abs_le]; constructor <;> linarith [hpc.1, hpc.2, hph.1, hph.2])
  obtain ⟨c1, c2⟩ := roundsWithin_bounds hfl (show |cc - ch| ≤ 2 * B by
    rw [abs_le]; constructor <;> linarith [hcc.1, hcc.2, hch.1, hch.2])
  obtain ⟨d1, d2⟩ := roundsWithin_bounds hfl (show |cc + ch| ≤ 2 * B by
    rw [abs_le]; constructor <;> linarith [hcc.1, hcc.2, hch.1, hch.2])
  rw [one_mul]
  generalize hpMin : fl (pc - ph) = pMin at *
  generalize hpMax : fl (pc + ph) = pMax at *
  generalize hcMin : fl (cc - ch) = cMin at *
  generalize hcMax : fl (cc + ch) = cMax at *
  have key : ∀ t, |t| ≤ 41 / 10 * B →
      cMax - (pc - ph) - t ≤ 6 * (u * B) →
      cMax - fl (fl (pc + fl (fl t)) - ph) ≤ 26 * (u * B) := by
    intro t ht hgap
    obtain ⟨e1, e2⟩ := roundsWithin_bounds hfl ht
    rw [abs_le] at ht
    obtain ⟨f1, f2⟩ := roundsWithin_bounds hfl (show |fl t| ≤ 42 / 10 * B by
      rw [abs_le]; constructor <;> linarith [ht.1, ht.2])
    obtain ⟨g1, g2⟩ := roundsWithin_bounds hfl (show |pc + fl (fl t)| ≤ 53 / 10 * B by
      rw [abs_le]; constructor <;> linarith [ht.1, ht.2, hpc.1, hpc.2])
    obtain ⟨k1, k2⟩ := roundsWithin_bounds hfl (show |fl (pc + fl (fl t)) - ph| ≤ 64 / 10 * B by
      rw [abs_le]; constructor <;> linarith [ht.1, ht.2, hpc.1, hpc.2, hph.1, hph.2])
    linarith
  rcases hp with ⟨h1, h2⟩ | ⟨h1, h2⟩
  · rw [min_eq_right h2, max_eq_left h1]
    have := key (cMax - pMin) (by rw [abs_le]; constructor <;>
      linarith [hpc.1, hpc.2, hph.1, hph.2, hcc.1, hcc.2, hch.1, hch.2]) (by linarith)
    linarith
  · rw [min_eq_left h2, max_eq_right h1]
    have := key (pMax - cMin) (by rw [abs_le]; constructor <;>
      linarith [hpc.1, hpc.2, hph.1, hph.2, hcc.1, hcc.2, hch.1, hch.2]) (by linarith)
    linarith

/-- A push in the direction `-1` out of a partial penetration: the player's
new max reaches at most `26 u B` past the collider's min. -/
theorem push_down_intrusion (fl : K → K) (u B pc ph cc ch : K) (hfl : RoundsWithin fl u)
    (hu : u ≤ 1 / 1024) (hpc : |pc| ≤ B) (hph : |ph| ≤ B) (hcc : |cc| ≤ B) (hch : |ch| ≤ B)
    (hdir : pc < cc)
    (hp : (fl (cc - ch) ≤ fl (pc - ph) ∧ fl (cc + ch) ≤ fl (pc + ph)) ∨
      (fl (pc - ph) ≤ fl (cc - ch) ∧ fl (pc + ph) ≤ fl (cc + ch))) :
    fl (fl (pc + fl (-1 * fl (Min.min (fl (pc + ph)) (fl (cc + ch)) -
      Max.max (fl (pc - ph)) (fl (cc - ch))))) + ph) - fl (cc - ch) ≤ 26 * (u * B) := by
  have hu0 := roundsWithin_nonneg hfl
  have hB : 0 ≤ B := le_trans (abs_nonneg _) hpc
  have huB0 : 0 ≤ u * B := mul_nonneg hu0 hB
  have huB : u * B ≤ B / 1024 := by
    have := mul_le_mul_of_nonneg_right hu hB
    linarith
  rw [abs_le] at hpc hph hcc hch
  obtain ⟨a1, a2⟩ := roundsWithin_bounds hfl (show |pc - ph| ≤ 2 * B by
    rw [abs_le]; constructor <;> linarith [hpc.1, hpc.2, hph.1, hph.2])
  obtain ⟨b1, b2⟩ := roundsWithin_bounds hfl (show |pc + ph| ≤ 2 * B by
    rw [abs_le]; constructor <;> linarith [hpc.1, hpc.2, hph.1, hph.2])
  obtain ⟨c1, c2⟩ := roundsWithin_bounds hfl (show |cc - ch| ≤ 2 * B by
    rw [abs_le]; constructor <;> linarith [hcc.1, hcc.2, hch.1, hch.2])
  obtain ⟨d1, d2⟩ := roundsWithin_bounds hfl (show |cc + ch| ≤ 2 * B by
    rw [abs_le]; constructor <;> linarith [hcc.1, hcc.2, hch.1, hch.2])
  rw [neg_one_mul]
  generalize hpMin : fl (pc - ph) = pMin at *
  generalize hpMax : fl (pc + ph) = pMax at *
  generalize hcMin : fl (cc - ch) = cMin at *
  generalize hcMax : fl (cc + ch) = cMax at *
  have key : ∀ t, |t| ≤ 41 / 10 * B →
      pc + ph - t - cMin ≤ 6 * (u * B) →
      fl (fl (pc + fl (-fl t)) + ph) - cMin ≤ 26 * (u * B) := by
    intro t ht hgap
    obtain ⟨e1, e2⟩ := roundsWithin_bounds hfl ht
    rw [abs_le] at ht
    obtain ⟨f1, f2⟩ := roundsWithin_bounds hfl (show |-fl t| ≤ 42 / 10 * B by
      rw [abs_le]; constructor <;> linarith [ht.1, ht.2])
    obtain ⟨g1, g2⟩ := roundsWithin_bounds hfl (show |pc + fl (-fl t)| ≤ 53 / 10 * B by
      rw [abs_le]; constructor <;> linarith [ht.1, ht.2, hpc.1, hpc.2])
    obtain ⟨k1, k2⟩ := roundsWithin_bounds hfl (show |fl (pc + fl (-fl t)) + ph| ≤ 64 / 10 * B by
      rw [abs_le]; constructor <;> linarith [ht.1, ht.2, hpc.1, hpc.2, hph.1, hph.2])
    linarith
  rcases hp with ⟨h1, h2⟩ | ⟨h1, h2⟩
  · rw [min_eq_right h2, max_eq_left h1]
    exact key (cMax - pMin) (by rw [abs_le]; constructor <;>
      linarith [hpc.1, hpc.2, hph.1, hph.2, hcc.1, hcc.2, hch.1, hch.2]) (by linarith)
  · rw [min_eq_left h2, max_eq_right h1]
    exact key (pMax - cMin) (by rw [abs_le]; constructor <;>
      linarith [hpc.1, hpc.2, hph.1, hph.2, hcc.1, hcc.2, hch.1, hch.2]) (by linarith)

theorem pushDir_eq (a : Axis) (p : Player K) (c : Collider K) :
    pushDir a p c = 1 ∨ pushDir a p c = -1 := by
  unfold pushDir
  split_ifs
  · right; rfl
  · left; rfl

theorem intrusionFl_one (fl : K → K) (a : Axis) (p : Player K) (c : Collider K) :
    intrusionFl fl a 1 p c =
      fl (c.aabb.c.get a + c.aabb.h.get a) - fl (p.pos.get a - p.half.get a) := by
  unfold intrusionFl
  rw [if_pos one_pos, maxFl_get, minFl_get]

theorem intrusionFl_neg_one (fl : K → K) (a : Axis) (p : Player K) (c : Collider K) :
    intrusionFl fl a (-1) p c =
      fl (p.pos.get a + p.half.get a) - fl (c.aabb.c.get a - c.aabb.h.get a) := by
  unfold intrusionFl
  rw [if_neg (by norm_num), maxFl_get, minFl_get]

theorem partlyPenetratesFl_iff (fl : K → K) (a : Axis) (p : Player K) (c : Collider K) :
    partlyPenetratesFl fl a p c ↔
      (fl (c.aabb.c.get a - c.aabb.h.get a) ≤ fl (p.pos.get a - p.half.get a) ∧
        fl (c.aabb.c.get a + c.aabb.h.get a) ≤ fl (p.pos.get a + p.half.get a)) ∨
      (fl (p.pos.get a - p.half.get a) ≤ fl (c.aabb.c.get a - c.aabb.h.get a) ∧
        fl (p.pos.get a + p.half.get a) ≤ fl (c.aabb.c.get a + c.aabb.h.get a)) := by
  unfold partlyPenetratesFl
  rw [minFl_get, maxFl_get, minFl_get, maxFl_get]

/-- The loop body on a collider it resolves on axis `a` out of a partial
penetration: afterwards the player reaches at most `26 u B` into the
collider from the side it was pushed to. -/
theorem resolveStepFl_intrusion (fl : K → K) (u B : K) (p : Player K) (c : Collider K)
    (a : Axis) (hfl : RoundsWithin fl u) (hu : u ≤ 1 / 1024)
    (hpos : |p.pos.get a| ≤ B) (hhalf : |p.half.get a| ≤ B)
    (hcc : |c.aabb.c.get a| ≤ B) (hch : |c.aabb.h.get a| ≤ B)
    (hax : resolveAxisFl fl p c = some a) (hpart : partlyPenetratesFl fl a p c) :
    intrusionFl fl a (pushDir a p c) (resolveStepFl fl p c) c ≤ 26 * (u * B) := by
  rw [partlyPenetratesFl_iff] at hpart
  by_cases hlt : p.pos.get a < c.aabb.c.get a
  · have hd : pushDir a p c = -1 := by unfold pushDir; rw [if_pos hlt]
    rw [hd, intrusionFl_neg_one, resolveStepFl_half, resolveStepFl_pos_axis fl p c a hax, hd,
      playerOverlapFl_depth]
    exact push_down_intrusion fl u B _ _ _ _ hfl hu hpos hhalf hcc hch hlt hpart
  · have hd : pushDir a p c = 1 := by unfold pushDir; rw [if_neg hlt]
    rw [hd, intrusionFl_one, resolveStepFl_half, resolveStepFl_pos_axis fl p c a hax, hd,
      playerOverlapFl_depth]
    exact push_up_intrusion fl u B _ _ _ _ hfl hu hpos hhalf hcc hch hlt hpart

/-- A later loop body that leaves axis `a` alone, or pushes on it in the
direction `s`, does not bring the player further into `c` from side `s`,
and leaves the coordinate a value of the arithmetic. -/
theorem resolveStepFl_intrusion_mono (fl : K → K) (u : K) (hfl : RoundsWithin fl u)
    (hu : u ≤ 1 / 1024) (hmono : Monotone fl) (hidem : ∀ x, fl (fl x) = fl x)
    (q : Player K) (c c' : Collider K) (a : Axis) (s : K) (hs : s = 1 ∨ s = -1)
    (hrep : fl (q.pos.get a) = q.pos.get a)
    (hstep : resolveAxisFl fl q c' = some a → pushDir a q c' = s) :
    intrusionFl fl a s (resolveStepFl fl q c') c ≤ intrusionFl fl a s q c ∧
      fl ((resolveStepFl fl q c').pos.get a) = (resolveStepFl fl q c').pos.get a := by
  by_cases hax : resolveAxisFl fl q c' = some a
  · have hd := hstep hax
    have hpos := resolveStepFl_pos_axis fl q c' a hax
    have ho := playerOverlapFl_depth_pos fl q c' a (resolveAxisFl_hit fl q c' a hax)
    have hu1 : u < 1 := by linarith
    rw [hd] at hpos
    refine ⟨?_, by rw [hpos, hidem]⟩
    rcases hs with hs | hs
    · rw [hs, intrusionFl_one, intrusionFl_one, resolveStepFl_half, hpos, hs, one_mul]
      have h1 : 0 < fl ((playerOverlapFl fl q c').depth a) := roundsWithin_pos hfl hu1 ho
      have h2 : q.pos.get a ≤ fl (q.pos.get a + fl ((playerOverlapFl fl q c').depth a)) := by
        have := hmono (show q.pos.get a ≤ q.pos.get a + fl ((playerOverlapFl fl q c').depth a)
          by linarith)
        rw [hrep] at this
        exact this
      have h3 := hmono (show q.pos.get a - q.half.get a ≤
        fl (q.pos.get a + fl ((playerOverlapFl fl q c').depth a)) - q.half.get a by linarith)
      linarith
    · rw [hs, intrusionFl_neg_one, intrusionFl_neg_one, resolveStepFl_half, hpos, hs,
        neg_one_mul]
      have h1 : fl (-(playerOverlapFl fl q c').depth a) < 0 :=
        roundsWithin_neg hfl hu1 (by linarith)
      have h2 : fl (q.pos.get a + fl (-(playerOverlapFl fl q c').depth a)) ≤ q.pos.get a := by
        have := hmono (show q.pos.get a + fl (-(playerOverlapFl fl q c').depth a) ≤ q.pos.get a
          by linarith)
        rw [hrep] at this
        exact this
      have h3 := hmono (show
        fl (q.pos.get a + fl (-(playerOverlapFl fl q c').depth a)) + q.half.get a ≤
          q.pos.get a + q.half.get a by linarith)
      linarith
  · have hpos := resolveStepFl_pos_other fl q c' a hax
    refine ⟨le_of_eq ?_, by rw [hpos, hrep]⟩
    simp only [intrusionFl, minFl_get, maxFl_get, resolveStepFl_half, hpos]

/-- The rest of the pass, when every later collider leaves axis `a` alone
or pushes on it in the direction `s`. -/
theorem resolvePass_intrusion_mono (fl : K → K) (u : K) (hfl : RoundsWithin fl u)
    (hu : u ≤ 1 / 1024) (hmono : Monotone fl) (hidem : ∀ x, fl (fl x) = fl x)
    (c : Collider K) (a : Axis) (s : K) (hs : s = 1 ∨ s = -1) :
    ∀ (post : List (Collider K)) (q : Player K), fl (q.pos.get a) = q.pos.get a →
      (∀ post1 c' post2, post = post1 ++ c' :: post2 →
        resolveAxisFl fl (_resolvePlayerCollisionsFl fl post1 q) c' = some a →
          pushDir a (_resolvePlayerCollisionsFl fl post1 q) c' = s) →
      intrusionFl fl a s (_resolvePlayerCollisionsFl fl post q) c ≤ intrusionFl fl a s q c := by
  intro post
  induction post with
  | nil => intro q _ _; exact le_refl _
  | cons c' rest ih =>
    intro q hrep hpost
    obtain ⟨h1, h2⟩ := resolveStepFl_intrusion_mono fl u hfl hu hmono hidem q c c' a s hs hrep
      (hpost [] c' rest rfl)
    have h3 := ih (resolveStepFl fl q c') h2 (fun post1 c'' post2 e h =>
      hpost (c' :: post1) c'' post2 (by rw [e]; rfl) h)
    exact le_trans h3 h1

/-- The depth the overlap test reports on axis `a` is at most the rounded
intrusion from either side. -/
theorem depth_le_of_intrusion (fl : K → K) (u : K) (hfl : RoundsWithin fl u) (hu : u ≤ 1)
    (p : Player K) (c : Collider K) (a : Axis) (s d : K) (hd : 0 ≤ d)
    (h : intrusionFl fl a s p c ≤ d) : (playerOverlapFl fl p c).depth a ≤ d + u * d := by
  rw [playerOverlapFl_depth]
  apply roundsWithin_le hfl hu hd
  unfold intrusionFl at h
  rw [minFl_get, maxFl_get, minFl_get, maxFl_get] at h
  split_ifs at h
  · have := min_le_right (fl (p.pos.get a + p.half.get a)) (fl (c.aabb.c.get a + c.aabb.h.get a))
    have := le_max_left (fl (p.pos.get a - p.half.get a)) (fl (c.aabb.c.get a - c.aabb.h.get a))
    show _ - _ ≤ d
    linarith
  · have := min_le_left (fl (p.pos.get a + p.half.get a)) (fl (c.aabb.c.get a + c.aabb.h.get a))
    have := le_max_right (fl (p.pos.get a - p.half.get a)) (fl (c.aabb.c.get a - c.aabb.h.get a))
    show _ - _ ≤ d
    linarith

/-! ## Binary64 values of the scenarios -/

theorem round64_val_1 : round64 (13 / 10) = 5854679515581645 / 4503599627370496 := by
  rw [round64_eq _ (0) 5854679515581645 (le_abs.2 (Or.inl (by norm_num)))
    (abs_lt.2 ⟨by norm_num, by norm_num⟩)
    (roundHalfEven_of_near _ _ (abs_lt.2 ⟨by norm_num, by norm_num⟩))]
  norm_num

theorem round64_val_2 : round64 (-3) = -3 := by
  rw [round64_eq _ (1) (-6755399441055744) (le_abs.2 (Or.inr (by norm_num)))
    (abs_lt.2 ⟨by norm_num, by norm_num⟩)
    (roundHalfEven_of_near _ _ (abs_lt.2 ⟨by norm_num, by norm_num⟩))]
  norm_num

theorem round64_val_3 : round64 (9 / 20) = 8106479329266893 / 18014398509481984 := by
  rw [round64_eq _ (-2) 8106479329266893 (le_abs.2 (Or.inl (by norm_num)))
    (abs_lt.2 ⟨by norm_num, by norm_num⟩)
    (roundHalfEven_of_near _ _ (abs_lt.2 ⟨by norm_num, by norm_num⟩))]
  norm_num

theorem round64_val_4 : round64 (9 / 10) = 8106479329266893 / 9007199254740992 := by
  rw [round64_eq _ (-1) 8106479329266893 (le_abs.2 (Or.inl (by norm_num)))
    (abs_lt.2 ⟨by norm_num, by norm_num⟩)
    (roundHalfEven_of_near _ _ (abs_lt.2 ⟨by norm_num, by norm_num⟩))]
  norm_num

theorem round64_val_5 : round64 (-(8106479329266893 / 18014398509481984)) = -(8106479329266893 / 18014398509481984) := by
  rw [round64_eq _ (-2) (-8106479329266893) (le_abs.2 (Or.inr (by norm_num)))
    (abs_lt.2 ⟨by norm_num, by norm_num⟩)
    (roundHalfEven_of_near _ _ (abs_lt.2 ⟨by norm_num, by norm_num⟩))]
  norm_num

theorem round64_val_6 : round64 (3602879701896397 / 9007199254740992) = 3602879701896397 / 9007199254740992 := by
  rw [round64_eq _ (-2) 7205759403792794 (le_abs.2 (Or.inl (by norm_num)))
    (abs_lt.2 ⟨by norm_num, by norm_num⟩)
    (roundHalfEven_of_near _ _ (abs_lt.2 ⟨by norm_num, by norm_num⟩))]
  norm_num

theorem round64_val_7 : round64 (8106479329266893 / 18014398509481984) = 8106479329266893 / 18014398509481984 := by
  rw [round64_eq _ (-2) 8106479329266893 (le_abs.2 (Or.inl (by norm_num)))
    (abs_lt.2 ⟨by norm_num, by norm_num⟩)
    (roundHalfEven_of_near _ _ (abs_lt.2 ⟨by norm_num, by norm_num⟩))]
  norm_num

theorem round64_val_8 : round64 (19815838360430183 / 9007199254740992) = 2476979795053773 / 1125899906842624 := by
  rw [round64_eq _ (1) 4953959590107546 (le_abs.2 (Or.inl (by norm_num)))
    (abs_lt.2 ⟨by norm_num, by norm_num⟩)
    (roundHalfEven_of_near _ _ (abs_lt.2 ⟨by norm_num, by norm_num⟩))]
  norm_num

theorem round64_val_9 : round64 (-5) = -5 := by
  rw [round64_eq _ (2) (-5629499534213120) (le_abs.2 (Or.inr (by norm_num)))
    (abs_lt.2 ⟨by norm_num, by norm_num⟩)
    (roundHalfEven_of_near _ _ (abs_lt.2 ⟨by norm_num, by norm_num⟩))]
  norm_num

theorem round64_val_10 : round64 (-(1 / 2)) = -(1 / 2) := by
  rw [round64_eq _ (-1) (-4503599627370496) (le_abs.2 (Or.inr (by norm_num)))
    (abs_lt.2 ⟨by norm_num, by norm_num⟩)
    (roundHalfEven_of_near _ _ (abs_lt.2 ⟨by norm_num, by norm_num⟩))]
  norm_num

theorem round64_val_11 : round64 (5) = 5 := by
  rw [round64_eq _ (2) 5629499534213120 (le_abs.2 (Or.inl (by norm_num)))
    (abs_lt.2 ⟨by norm_num, by norm_num⟩)
    (roundHalfEven_of_near _ _ (abs_lt.2 ⟨by norm_num, by norm_num⟩))]
  norm_num

theorem round64_val_12 : round64 (1 / 2) = 1 / 2 := by
  rw [round64_eq _ (-1) 4503599627370496 (le_abs.2 (Or.inl (by norm_num)))
    (abs_lt.2 ⟨by norm_num, by norm_num⟩)
    (roundHalfEven_of_near _ _ (abs_lt.2 ⟨by norm_num, by norm_num⟩))]
  norm_num

theorem round64_val_13 : round64 (8106479329266893 / 9007199254740992) = 8106479329266893 / 9007199254740992 := by
  rw [round64_eq _ (-1) 8106479329266893 (le_abs.2 (Or.inl (by norm_num)))
    (abs_lt.2 ⟨by norm_num, by norm_num⟩)
    (roundHalfEven_of_near _ _ (abs_lt.2 ⟨by norm_num, by norm_num⟩))]
  norm_num

theorem round64_val_14 : round64 (900719925474099 / 9007199254740992) = 900719925474099 / 9007199254740992 := by
  rw [round64_eq _ (-4) 7205759403792792 (le_abs.2 (Or.inl (by norm_num)))
    (abs_lt.2 ⟨by norm_num, by norm_num⟩)
    (roundHalfEven_of_near _ _ (abs_lt.2 ⟨by norm_num, by norm_num⟩))]
  norm_num

theorem round64_val_15 : round64 (12610078956637389 / 9007199254740992) = 3152519739159347 / 2251799813685248 := by
  rw [round64_eq _ (0) 6305039478318694 (le_abs.2 (Or.inl (by norm_num)))
    (abs_lt.2 ⟨by norm_num, by norm_num⟩)
    (roundHalfEven_of_tie_even _ _ (by norm_num) (by norm_num))]
  norm_num

theorem round64_val_16 : round64 (4503599627370495 / 9007199254740992) = 4503599627370495 / 9007199254740992 := by
  rw [round64_eq _ (-2) 9007199254740990 (le_abs.2 (Or.inl (by norm_num)))
    (abs_lt.2 ⟨by norm_num, by norm_num⟩)
    (roundHalfEven_of_near _ _ (abs_lt.2 ⟨by norm_num, by norm_num⟩))]
  norm_num

theorem round64_val_17 : round64 (20716558285904281 / 9007199254740992) = 2589569785738035 / 1125899906842624 := by
  rw [round64_eq _ (1) 5179139571476070 (le_abs.2 (Or.inl (by norm_num)))
    (abs_lt.2 ⟨by norm_num, by norm_num⟩)
    (roundHalfEven_of_near _ _ (abs_lt.2 ⟨by norm_num, by norm_num⟩))]
  norm_num

theorem round64_val_18 : round64 (1 / 9007199254740992) = 1 / 9007199254740992 := by
  rw [round64_eq _ (-53) 4503599627370496 (le_abs.2 (Or.inl (by norm_num)))
    (abs_lt.2 ⟨by norm_num, by norm_num⟩)
    (roundHalfEven_of_near _ _ (abs_lt.2 ⟨by norm_num, by norm_num⟩))]
  norm_num

theorem round64_val_19 : round64 (1) = 1 := by
  rw [round64_eq _ (0) 4503599627370496 (le_abs.2 (Or.inl (by norm_num)))
    (abs_lt.2 ⟨by norm_num, by norm_num⟩)
    (roundHalfEven_of_near _ _ (abs_lt.2 ⟨by norm_num, by norm_num⟩))]
  norm_num

theorem round64_val_20 : round64 (4503599627370497 / 9007199254740992) = 4503599627370497 / 9007199254740992 := by
  rw [round64_eq _ (-1) 4503599627370497 (le_abs.2 (Or.inl (by norm_num)))
    (abs_lt.2 ⟨by norm_num, by norm_num⟩)
    (roundHalfEven_of_near _ _ (abs_lt.2 ⟨by norm_num, by norm_num⟩))]
  norm_num

theorem round64_val_21 : round64 (9907919180215091 / 18014398509481984) = 2476979795053773 / 4503599627370496 := by
  rw [round64_eq _ (-1) (4953959590107545 + 1) (le_abs.2 (Or.inl (by norm_num)))
    (abs_lt.2 ⟨by norm_num, by norm_num⟩)
    (roundHalfEven_of_tie_odd _ _ (by norm_num) (by norm_num))]
  norm_num

theorem round64_val_22 : round64 (-(900719925474099 / 2251799813685248)) = -(900719925474099 / 2251799813685248) := by
  rw [round64_eq _ (-2) (-7205759403792792) (le_abs.2 (Or.inr (by norm_num)))
    (abs_lt.2 ⟨by norm_num, by norm_num⟩)
    (roundHalfEven_of_near _ _ (abs_lt.2 ⟨by norm_num, by norm_num⟩))]
  norm_num

theorem round64_val_23 : round64 (26120877838748877 / 18014398509481984) = 6530219459687219 / 4503599627370496 := by
  rw [round64_eq _ (0) 6530219459687219 (le_abs.2 (Or.inl (by norm_num)))
    (abs_lt.2 ⟨by norm_num, by norm_num⟩)
    (roundHalfEven_of_near _ _ (abs_lt.2 ⟨by norm_num, by norm_num⟩))]
  norm_num

theorem round64_val_24 : round64 (6305039478318695 / 4503599627370496) = 6305039478318695 / 4503599627370496 := by
  rw [round64_eq _ (0) 6305039478318695 (le_abs.2 (Or.inl (by norm_num)))
    (abs_lt.2 ⟨by norm_num, by norm_num⟩)
    (roundHalfEven_of_near _ _ (abs_lt.2 ⟨by norm_num, by norm_num⟩))]
  norm_num

theorem round64_val_25 : round64 (2026619832316723 / 2251799813685248) = 2026619832316723 / 2251799813685248 := by
  rw [round64_eq _ (-1) 8106479329266892 (le_abs.2 (Or.inl (by norm_num)))
    (abs_lt.2 ⟨by norm_num, by norm_num⟩)
    (roundHalfEven_of_near _ _ (abs_lt.2 ⟨by norm_num, by norm_num⟩))]
  norm_num

theorem round64_val_26 : round64 (4278419646001971 / 2251799813685248) = 4278419646001971 / 2251799813685248 := by
  rw [round64_eq _ (0) 8556839292003942 (le_abs.2 (Or.inl (by norm_num)))
    (abs_lt.2 ⟨by norm_num, by norm_num⟩)
    (roundHalfEven_of_near _ _ (abs_lt.2 ⟨by norm_num, by norm_num⟩))]
  norm_num

theorem round64_val_27 : round64 (26120877838748875 / 18014398509481984) = 6530219459687219 / 4503599627370496 := by
  rw [round64_eq _ (0) 6530219459687219 (le_abs.2 (Or.inl (by norm_num)))
    (abs_lt.2 ⟨by norm_num, by norm_num⟩)
    (roundHalfEven_of_near _ _ (abs_lt.2 ⟨by norm_num, by norm_num⟩))]
  norm_num

theorem round64_val_28 : round64 (42333836497282661 / 18014398509481984) = 5291729562160333 / 2251799813685248 := by
  rw [round64_eq _ (1) 5291729562160333 (le_abs.2 (Or.inl (by norm_num)))
    (abs_lt.2 ⟨by norm_num, by norm_num⟩)
    (roundHalfEven_of_near _ _ (abs_lt.2 ⟨by norm_num, by norm_num⟩))]
  norm_num

theorem round64_val_29 : round64 (-(8106479329266893 / 9007199254740992)) = -(8106479329266893 / 9007199254740992) := by
  rw [round64_eq _ (-1) (-8106479329266893) (le_abs.2 (Or.inr (by norm_num)))
    (abs_lt.2 ⟨by norm_num, by norm_num⟩)
    (roundHalfEven_of_near _ _ (abs_lt.2 ⟨by norm_num, by norm_num⟩))]
  norm_num

theorem round64_val_30 : round64 (-1) = -1 := by
  rw [round64_eq _ (0) (-4503599627370496) (le_abs.2 (Or.inr (by norm_num)))
    (abs_lt.2 ⟨by norm_num, by norm_num⟩)
    (roundHalfEven_of_near _ _ (abs_lt.2 ⟨by norm_num, by norm_num⟩))]
  norm_num

theorem round64_val_31 : round64 (-(1 / 4)) = -(1 / 4) := by
  rw [round64_eq _ (-2) (-4503599627370496) (le_abs.2 (Or.inr (by norm_num)))
    (abs_lt.2 ⟨by norm_num, by norm_num⟩)
    (roundHalfEven_of_near _ _ (abs_lt.2 ⟨by norm_num, by norm_num⟩))]
  norm_num

theorem round64_val_32 : round64 (3602879701896397 / 18014398509481984) = 3602879701896397 / 18014398509481984 := by
  rw [round64_eq _ (-3) 7205759403792794 (le_abs.2 (Or.inl (by norm_num)))
    (abs_lt.2 ⟨by norm_num, by norm_num⟩)
    (roundHalfEven_of_near _ _ (abs_lt.2 ⟨by norm_num, by norm_num⟩))]
  norm_num

theorem round64_val_33 : round64 (8106479329266893 / 4503599627370496) = 8106479329266893 / 4503599627370496 := by
  rw [round64_eq _ (0) 8106479329266893 (le_abs.2 (Or.inl (by norm_num)))
    (abs_lt.2 ⟨by norm_num, by norm_num⟩)
    (roundHalfEven_of_near _ _ (abs_lt.2 ⟨by norm_num, by norm_num⟩))]
  norm_num

theorem round64_val_34 : round64 (5854679515581645 / 9007199254740992) = 5854679515581645 / 9007199254740992 := by
  rw [round64_eq _ (-1) 5854679515581645 (le_abs.2 (Or.inl (by norm_num)))
    (abs_lt.2 ⟨by norm_num, by norm_num⟩)
    (roundHalfEven_of_near _ _ (abs_lt.2 ⟨by norm_num, by norm_num⟩))]
  norm_num

theorem round64_val_35 : round64 (1 / 4) = 1 / 4 := by
  rw [round64_eq _ (-2) 4503599627370496 (le_abs.2 (Or.inl (by norm_num)))
    (abs_lt.2 ⟨by norm_num, by norm_num⟩)
    (roundHalfEven_of_near _ _ (abs_lt.2 ⟨by norm_num, by norm_num⟩))]
  norm_num

theorem round64_val_36 : round64 (3) = 3 := by
  rw [round64_eq _ (1) 6755399441055744 (le_abs.2 (Or.inl (by norm_num)))
    (abs_lt.2 ⟨by norm_num, by norm_num⟩)
    (roundHalfEven_of_near _ _ (abs_lt.2 ⟨by norm_num, by norm_num⟩))]
  norm_num

theorem round64_val_37 : round64 (-(3602879701896397 / 9007199254740992)) = -(3602879701896397 / 9007199254740992) := by
  rw [round64_eq _ (-2) (-7205759403792794) (le_abs.2 (Or.inr (by norm_num)))
    (abs_lt.2 ⟨by norm_num, by norm_num⟩)
    (roundHalfEven_of_near _ _ (abs_lt.2 ⟨by norm_num, by norm_num⟩))]
  norm_num

theorem round64_val_38 : round64 (-(3602879701896397 / 18014398509481984)) = -(3602879701896397 / 18014398509481984) := by
  rw [round64_eq _ (-3) (-7205759403792794) (le_abs.2 (Or.inr (by norm_num)))
    (abs_lt.2 ⟨by norm_num, by norm_num⟩)
    (roundHalfEven_of_near _ _ (abs_lt.2 ⟨by norm_num, by norm_num⟩))]
  norm_num

theorem round64_val_39 : round64 (-(5854679515581645 / 9007199254740992)) = -(5854679515581645 / 9007199254740992) := by
  rw [round64_eq _ (-1) (-5854679515581645) (le_abs.2 (Or.inr (by norm_num)))
    (abs_lt.2 ⟨by norm_num, by norm_num⟩)
    (roundHalfEven_of_near _ _ (abs_lt.2 ⟨by norm_num, by norm_num⟩))]
  norm_num

theorem round64_val_40 : round64 (24319437987800679 / 18014398509481984) = 3039929748475085 / 2251799813685248 := by
  rw [round64_eq _ (0) 6079859496950170 (le_abs.2 (Or.inl (by norm_num)))
    (abs_lt.2 ⟨by norm_num, by norm_num⟩)
    (roundHalfEven_of_near _ _ (abs_lt.2 ⟨by norm_num, by norm_num⟩))]
  norm_num

theorem round64_val_41 : round64 (16212958658533787 / 18014398509481984) = 4053239664633447 / 4503599627370496 := by
  rw [round64_eq _ (-1) (8106479329266893 + 1) (le_abs.2 (Or.inl (by norm_num)))
    (abs_lt.2 ⟨by norm_num, by norm_num⟩)
    (roundHalfEven_of_tie_odd _ _ (by norm_num) (by norm_num))]
  norm_num

theorem round64_val_42 : round64 (3 / 10) = 5404319552844595 / 18014398509481984 := by
  rw [round64_eq _ (-2) 5404319552844595 (le_abs.2 (Or.inl (by norm_num)))
    (abs_lt.2 ⟨by norm_num, by norm_num⟩)
    (roundHalfEven_of_near _ _ (abs_lt.2 ⟨by norm_num, by norm_num⟩))]
  norm_num

theorem round64_val_43 : round64 (-(1351079888211149 / 9007199254740992)) = -(1351079888211149 / 9007199254740992) := by
  rw [round64_eq _ (-3) (-5404319552844596) (le_abs.2 (Or.inr (by norm_num)))
    (abs_lt.2 ⟨by norm_num, by norm_num⟩)
    (roundHalfEven_of_near _ _ (abs_lt.2 ⟨by norm_num, by norm_num⟩))]
  norm_num

theorem round64_val_44 : round64 (3 / 4) = 3 / 4 := by
  rw [round64_eq _ (-1) 6755399441055744 (le_abs.2 (Or.inl (by norm_num)))
    (abs_lt.2 ⟨by norm_num, by norm_num⟩)
    (roundHalfEven_of_near _ _ (abs_lt.2 ⟨by norm_num, by norm_num⟩))]
  norm_num

theorem round64_val_45 : round64 (3 / 2) = 3 / 2 := by
  rw [round64_eq _ (0) 6755399441055744 (le_abs.2 (Or.inl (by norm_num)))
    (abs_lt.2 ⟨by norm_num, by norm_num⟩)
    (roundHalfEven_of_near _ _ (abs_lt.2 ⟨by norm_num, by norm_num⟩))]
  norm_num

theorem round64_val_46 : round64 (9 / 2) = 9 / 2 := by
  rw [round64_eq _ (2) 5066549580791808 (le_abs.2 (Or.inl (by norm_num)))
    (abs_lt.2 ⟨by norm_num, by norm_num⟩)
    (roundHalfEven_of_near _ _ (abs_lt.2 ⟨by norm_num, by norm_num⟩))]
  norm_num

theorem round64_val_47 : round64 (2026619832316723 / 1125899906842624) = 2026619832316723 / 1125899906842624 := by
  rw [round64_eq _ (0) 8106479329266892 (le_abs.2 (Or.inl (by norm_num)))
    (abs_lt.2 ⟨by norm_num, by norm_num⟩)
    (roundHalfEven_of_near _ _ (abs_lt.2 ⟨by norm_num, by norm_num⟩))]
  norm_num

theorem round64_val_48 : round64 (900719925474099 / 18014398509481984) = 900719925474099 / 18014398509481984 := by
  rw [round64_eq _ (-5) 7205759403792792 (le_abs.2 (Or.inl (by norm_num)))
    (abs_lt.2 ⟨by norm_num, by norm_num⟩)
    (roundHalfEven_of_near _ _ (abs_lt.2 ⟨by norm_num, by norm_num⟩))]
  norm_num

/-! ## C4 -/

theorem roundsWithin_le_of_fl_le {fl : K → K} {u : K} (h : RoundsWithin fl u)
    (hu : u ≤ 1 / 1024) {t b : K} (hb : 0 ≤ b) (ht : fl t ≤ b) : t ≤ b * (1024 / 1023) := by
  rcases le_or_lt t 0 with h0 | h0
  · have : 0 ≤ b * (1024 / 1023) := mul_nonneg hb (by norm_num)
    linarith
  · have h1 := abs_le.1 (h t)
    rw [abs_of_pos h0] at h1
    have h2 : u * t ≤ 1 / 1024 * t := mul_le_mul_of_nonneg_right hu h0.le
    linarith [h1.1]

theorem roundsWithin_ge_of_le_fl {fl : K → K} {u : K} (h : RoundsWithin fl u)
    (hu : u ≤ 1 / 1024) {t b : K} (hb : 0 ≤ b) (ht : -b ≤ fl t) : -(b * (1024 / 1023)) ≤ t := by
  rcases le_or_lt 0 t with h0 | h0
  · have : 0 ≤ b * (1024 / 1023) := mul_nonneg hb (by norm_num)
    linarith
  · have h1 := abs_le.1 (h t)
    rw [abs_of_neg h0] at h1
    have h2 : u * (-t) ≤ 1 / 1024 * (-t) := mul_le_mul_of_nonneg_right hu (by linarith)
    linarith [h1.2]

/-- The x (or z) depth of the landing scenario: the player's extent lies
inside the platform's, so the depth is the player's rounded width. -/
theorem landing_side_depth (fl : K → K) (u x : K) (hfl : RoundsWithin fl u) (hu : u ≤ 1 / 1024)
    (h1 : fl (-5) ≤ fl (x - fl 0.45)) (h2 : fl (x + fl 0.45) ≤ fl 5) :
    0.9 - 12 * u ≤ fl (Min.min (fl (x + fl 0.45)) (fl 5) - Max.max (fl (x - fl 0.45)) (fl (-5))) := by
  have hu0 := roundsWithin_nonneg hfl
  rw [min_eq_left h2, max_eq_left h1]
  obtain ⟨a1, a2⟩ := roundsWithin_bounds hfl (show |(0.45 : K)| ≤ 0.45 by
    rw [abs_of_pos (by norm_num)])
  obtain ⟨b1, b2⟩ := roundsWithin_bounds hfl (show |(5 : K)| ≤ 5 by
    rw [abs_of_pos (by norm_num)])
  obtain ⟨c1, c2⟩ := roundsWithin_bounds hfl (show |(-5 : K)| ≤ 5 by
    rw [abs_neg, abs_of_pos (by norm_num)])
  have e1 := roundsWithin_le_of_fl_le hfl hu (show (0 : K) ≤ 5 + u * 5 by linarith)
    (le_trans h2 b2)
  have e2 := roundsWithin_ge_of_le_fl hfl hu (show (0 : K) ≤ 5 + u * 5 by linarith)
    (show -(5 + u * 5) ≤ fl (x - fl 0.45) by linarith)
  norm_num at a1 a2 b1 b2 c1 c2 e1 e2 ⊢
  obtain ⟨f1, f2⟩ := roundsWithin_bounds hfl (show |x + fl (9 / 20)| ≤ 502 / 100 by
    rw [abs_le]; constructor <;> linarith)
  obtain ⟨g1, g2⟩ := roundsWithin_bounds hfl (show |x - fl (9 / 20)| ≤ 502 / 100 by
    rw [abs_le]; constructor <;> linarith)
  obtain ⟨k1, k2⟩ := roundsWithin_bounds hfl
    (show |fl (x + fl (9 / 20)) - fl (x - fl (9 / 20))| ≤ 1 by
      rw [abs_le]; constructor <;> linarith)
  linarith

/-- The y push of the landing scenario: the feet end within `5 u` of the
platform top `P`. -/
theorem landing_feet_error (fl : K → K) (u y d P : K) (hfl : RoundsWithin fl u)
    (hu : u ≤ 1 / 1024) (hP1 : 0.5 - u / 2 ≤ P) (hP2 : P ≤ 0.5 + u / 2)
    (hfeet : fl (y - fl 0.9) = P - d) (hd0 : 0 < d) (hd1 : d < 0.9) :
    |fl (fl (y + fl (fl d)) - fl 0.9) - P| ≤ 5 * u := by
  have hu0 := roundsWithin_nonneg hfl
  obtain ⟨a1, a2⟩ := roundsWithin_bounds hfl (show |(0.9 : K)| ≤ 0.9 by
    rw [abs_of_pos (by norm_num)])
  have e1 := roundsWithin_le_of_fl_le hfl hu (show (0 : K) ≤ 0.51 by norm_num)
    (show fl (y - fl 0.9) ≤ 0.51 by rw [hfeet]; norm_num at hd1 ⊢; linarith)
  have e2 := roundsWithin_ge_of_le_fl hfl hu (show (0 : K) ≤ 0.51 by norm_num)
    (show -0.51 ≤ fl (y - fl 0.9) by rw [hfeet]; norm_num at hd1 ⊢; linarith)
  norm_num at a1 a2 e1 e2 hP1 hP2 hd1 hfeet ⊢
  obtain ⟨b1, b2⟩ := roundsWithin_bounds hfl (show |y - fl (9 / 10)| ≤ 52 / 100 by
    rw [abs_le]; constructor <;> linarith)
  rw [hfeet] at b1 b2
  obtain ⟨c1, c2⟩ := roundsWithin_bounds hfl (show |d| ≤ 9 / 10 by
    rw [abs_of_pos hd0]; linarith)
  obtain ⟨f1, f2⟩ := roundsWithin_bounds hfl (show |fl d| ≤ 91 / 100 by
    rw [abs_le]; constructor <;> linarith)
  obtain ⟨g1, g2⟩ := roundsWithin_bounds hfl (show |y + fl (fl d)| ≤ 141 / 100 by
    rw [abs_le]; constructor <;> linarith)
  obtain ⟨k1, k2⟩ := roundsWithin_bounds hfl
    (show |fl (y + fl (fl d)) - fl (9 / 10)| ≤ 51 / 100 by
      rw [abs_le]; constructor <;> linarith)
  rw [abs_le]
  constructor <;> linarith

theorem resolveAxisFl_eq_y (fl : K → K) (p : Player K) (c : Collider K)
    (hx : 0 < (playerOverlapFl fl p c).ox) (hy : 0 < (playerOverlapFl fl p c).oy)
    (hz : 0 < (playerOverlapFl fl p c).oz)
    (hyx : (playerOverlapFl fl p c).oy < (playerOverlapFl fl p c).ox)
    (hyz : (playerOverlapFl fl p c).oy < (playerOverlapFl fl p c).oz) :
    resolveAxisFl fl p c = some .y := by
  have hh : (playerOverlapFl fl p c).hit = true :=
    (playerOverlapFl_hit_iff fl p c).2 ⟨hx, hy, hz⟩
  have h1 : ¬ ((playerOverlapFl fl p c).ox ≤ (playerOverlapFl fl p c).oy ∧
      (playerOverlapFl fl p c).ox ≤ (playerOverlapFl fl p c).oz) :=
    fun h => absurd h.1 (not_le.2 hyx)
  have h2 : ¬ ((playerOverlapFl fl p c).oz ≤ (playerOverlapFl fl p c).ox ∧
      (playerOverlapFl fl p c).oz ≤ (playerOverlapFl fl p c).oy) :=
    fun h => absurd h.2 (not_le.2 hyz)
  simp only [resolveAxisFl, hh, Bool.not_true, Bool.false_eq_true, if_false, if_neg h1,
    if_neg h2]

/-- C4, in arithmetic that rounds with relative error at most `u`
(`u = 2^-53` for JavaScript numbers, `u = 0` for exact arithmetic): landing
scenario.  One static platform with centre `(0,0,0)` and half extent
`(5, 0.5, 5)`; a player with half extent `(0.45, 0.9, 0.45)` as the
arithmetic stores it, centre above the platform centre, the x/z extent of
its rounded box inside the platform's, the min of its rounded box `d` below
the platform's rounded max with `0 < d < 0.9 - 13 u`.  One pass of
`_resolvePlayerCollisions` leaves the player's `min.y` within `5 u` of the
platform's `max.y`, itself within `u / 2` of `0.5` (so equal to it when
`u = 0`), zeroes the vertical velocity, sets `grounded`, and leaves x, z and
the horizontal velocity unchanged. -/
theorem landing_scenario_rounded (fl : K → K) (u : K) (g : Game K) (pl : Platform K)
    (p : Player K) (d : K) (hfl : RoundsWithin fl u) (hu : u ≤ 1 / 1024)
    (hpl : g.platforms = [pl]) (hbox : pl.aabb = ⟨⟨0, 0, 0⟩, ⟨5, 0.5, 5⟩⟩)
    (hmp : g.movingPlatforms = [])
    (hhalf : p.half = Vector3.round fl ⟨0.45, 0.9, 0.45⟩) (habove : pl.aabb.c.y < p.pos.y)
    (hx1 : (pl.aabb.minFl fl).x ≤ (AABB.minFl fl ⟨p.pos, p.half⟩).x)
    (hx2 : (AABB.maxFl fl ⟨p.pos, p.half⟩).x ≤ (pl.aabb.maxFl fl).x)
    (hz1 : (pl.aabb.minFl fl).z ≤ (AABB.minFl fl ⟨p.pos, p.half⟩).z)
    (hz2 : (AABB.maxFl fl ⟨p.pos, p.half⟩).z ≤ (pl.aabb.maxFl fl).z)
    (hd0 : 0 < d) (hd1 : d < 0.9 - 13 * u)
    (hfeet : (AABB.minFl fl ⟨p.pos, p.half⟩).y = (pl.aabb.maxFl fl).y - d) :
    |(AABB.minFl fl ⟨(_resolvePlayerCollisionsFl fl (colliders g) p).pos,
        (_resolvePlayerCollisionsFl fl (colliders g) p).half⟩).y - (pl.aabb.maxFl fl).y| ≤
      5 * u ∧
    |(pl.aabb.maxFl fl).y - 0.5| ≤ u / 2 ∧
    (_resolvePlayerCollisionsFl fl (colliders g) p).vel.y = 0 ∧
    (_resolvePlayerCollisionsFl fl (colliders g) p).grounded = true ∧
    (_resolvePlayerCollisionsFl fl (colliders g) p).pos.x = p.pos.x ∧
    (_resolvePlayerCollisionsFl fl (colliders g) p).pos.z = p.pos.z ∧
    (_resolvePlayerCollisionsFl fl (colliders g) p).vel.x = p.vel.x ∧
    (_resolvePlayerCollisionsFl fl (colliders g) p).vel.z = p.vel.z := by
  have hu0 := roundsWithin_nonneg hfl
  have hu1 : u < 1 := by linarith
  have hcs : colliders g = [landingPlatform] := by
    simp [colliders, hpl, hmp, hbox, landingPlatform]
  have hres : _resolvePlayerCollisionsFl fl (colliders g) p = resolveStepFl fl p landingPlatform := by
    rw [hcs]; rfl
  simp only [hbox, hhalf, AABB.minFl, AABB.maxFl, Vector3.round, zero_add, zero_sub] at habove hx1
  simp only [hbox, hhalf, AABB.minFl, AABB.maxFl, Vector3.round, zero_add, zero_sub] at hx2 hz1
  simp only [hbox, hhalf, AABB.minFl, AABB.maxFl, Vector3.round, zero_add, zero_sub] at hz2 hfeet
  -- the platform top
  obtain ⟨t1, t2⟩ := roundsWithin_bounds hfl (show |(0.5 : K)| ≤ 0.5 by
    rw [abs_of_pos (by norm_num)])
  obtain ⟨t3, t4⟩ := roundsWithin_bounds hfl (show |(-0.5 : K)| ≤ 0.5 by
    rw [abs_neg, abs_of_pos (by norm_num)])
  obtain ⟨t5, t6⟩ := roundsWithin_bounds hfl (show |(0.9 : K)| ≤ 0.9 by
    rw [abs_of_pos (by norm_num)])
  have hP1 : (0.5 : K) - u / 2 ≤ fl 0.5 := by norm_num at t1 ⊢; linarith
  have hP2 : fl (0.5 : K) ≤ 0.5 + u / 2 := by norm_num at t2 ⊢; linarith
  have hd1' : d < 0.9 := by linarith
  -- the three depths
  have hox : (playerOverlapFl fl p landingPlatform).ox =
      fl (Min.min (fl (p.pos.x + fl 0.45)) (fl 5) - Max.max (fl (p.pos.x - fl 0.45)) (fl (-5))) := by
    simp only [playerOverlapFl, aabbOverlapFl, AABB.minFl, AABB.maxFl, landingPlatform, hhalf,
      Vector3.round, zero_add, zero_sub]
  have hoz : (playerOverlapFl fl p landingPlatform).oz =
      fl (Min.min (fl (p.pos.z + fl 0.45)) (fl 5) - Max.max (fl (p.pos.z - fl 0.45)) (fl (-5))) := by
    simp only [playerOverlapFl, aabbOverlapFl, AABB.minFl, AABB.maxFl, landingPlatform, hhalf,
      Vector3.round, zero_add, zero_sub]
  have hymax : fl (0.5 : K) ≤ fl (p.pos.y + fl 0.9) := by
    have h1 : (0.8 : K) ≤ p.pos.y + fl 0.9 := by norm_num at t5 ⊢; linarith
    have h2 := abs_le.1 (hfl (p.pos.y + fl 0.9))
    rw [abs_of_pos (by linarith)] at h2
    have h3 : u * (p.pos.y + fl 0.9) ≤ 1 / 1024 * (p.pos.y + fl 0.9) :=
      mul_le_mul_of_nonneg_right hu (by linarith)
    norm_num at h1 hP2 ⊢
    linarith [h2.1]
  have hymin : fl (-0.5 : K) ≤ fl (p.pos.y - fl 0.9) := by
    rw [hfeet]; norm_num at t4 hP1 hd1 ⊢; linarith
  have hoy : (playerOverlapFl fl p landingPlatform).oy = fl d := by
    simp only [playerOverlapFl, aabbOverlapFl, AABB.minFl, AABB.maxFl, landingPlatform, hhalf,
      Vector3.round, zero_add, zero_sub]
    rw [min_eq_right hymax, max_eq_left hymin, hfeet]
    congr 1; ring
  have hxd := landing_side_depth fl u p.pos.x hfl hu hx1 hx2
  have hzd := landing_side_depth fl u p.pos.z hfl hu hz1 hz2
  rw [← hox] at hxd
  rw [← hoz] at hzd
  obtain ⟨_, hd2⟩ := roundsWithin_bounds hfl (show |d| ≤ 0.9 by
    rw [abs_of_pos hd0]; exact hd1'.le)
  have hyx : (playerOverlapFl fl p landingPlatform).oy <
      (playerOverlapFl fl p landingPlatform).ox := by
    rw [hoy]; norm_num at hd1 hd2 hxd ⊢; linarith only [hd1, hd2, hxd, hu0]
  have hyz : (playerOverlapFl fl p landingPlatform).oy <
      (playerOverlapFl fl p landingPlatform).oz := by
    rw [hoy]; norm_num at hd1 hd2 hzd ⊢; linarith only [hd1, hd2, hzd, hu0]
  have hypos : 0 < (playerOverlapFl fl p landingPlatform).oy := by
    rw [hoy]; exact roundsWithin_pos hfl hu1 hd0
  have hax := resolveAxisFl_eq_y fl p landingPlatform (lt_trans hypos hyx) hypos
    (lt_trans hypos hyz) hyx hyz
  have hny : ¬ (p.pos.y < (landingPlatform : Collider K).aabb.c.y) := by
    simpa [landingPlatform] using habove.le
  have hdir : pushDir .y p landingPlatform = 1 := by
    unfold pushDir; rw [if_neg (by simpa [Vector3.get] using hny)]
  rw [hres, resolveStepFl_of_y fl p landingPlatform hax, hdir, hoy, one_mul]
  simp only [hbox, hhalf, AABB.minFl, AABB.maxFl, Vector3.round, zero_add, if_neg hny]
  refine ⟨landing_feet_error fl u p.pos.y d (fl 0.5) hfl hu hP1 hP2 hfeet hd0 hd1', ?_, ?_⟩
  · rw [abs_le]; norm_num at t1 t2 ⊢; constructor <;> linarith only [t1, t2]
  · refine ⟨?_, ?_, ?_, ?_, ?_, ?_⟩ <;> first | rfl | trivial

/-- Counterexample to C4 as stated, in binary64 arithmetic.  (1) The player
at height `1.3` over the landing platform meets the conditions of the
scenario, its feet `d = 0.5 - 0.4000000000000000222 > 0` below the platform
top; the pass pushes it up, to rest with `min.y = 0.5 - 2^-53`, which is not
the platform's `max.y = 0.5`.  (2) The player at `(1, 0.5 + 2^-53, 0)` meets
the conditions with `d = 0.8999999999999999 < 0.9`; the rounded depths on x
and y are equal, so the pass pushes it along x: it is not grounded, its x
has changed, its vertical velocity is kept. -/
theorem landing_exact_rest_counterexample :
    (0 < landingPlayer64.pos.y ∧
      (landingPlatform.aabb.minFl round64).x ≤
        (AABB.minFl round64 ⟨landingPlayer64.pos, landingPlayer64.half⟩).x ∧
      (AABB.maxFl round64 ⟨landingPlayer64.pos, landingPlayer64.half⟩).x ≤
        (landingPlatform.aabb.maxFl round64).x ∧
      (landingPlatform.aabb.minFl round64).z ≤
        (AABB.minFl round64 ⟨landingPlayer64.pos, landingPlayer64.half⟩).z ∧
      (AABB.maxFl round64 ⟨landingPlayer64.pos, landingPlayer64.half⟩).z ≤
        (landingPlatform.aabb.maxFl round64).z ∧
      0 < (landingPlatform.aabb.maxFl round64).y -
        (AABB.minFl round64 ⟨landingPlayer64.pos, landingPlayer64.half⟩).y ∧
      (landingPlatform.aabb.maxFl round64).y -
        (AABB.minFl round64 ⟨landingPlayer64.pos, landingPlayer64.half⟩).y < 0.9 ∧
      (landingPlatform.aabb.maxFl round64).y = 1 / 2 ∧
      (AABB.minFl round64
        ⟨(_resolvePlayerCollisionsFl round64 (colliders (landingGame : Game ℚ))
            landingPlayer64).pos,
          (_resolvePlayerCollisionsFl round64 (colliders (landingGame : Game ℚ))
            landingPlayer64).half⟩).y = 1 / 2 - 1 / 2 ^ 53) ∧
    (0 < deepPlayer64.pos.y ∧
      (landingPlatform.aabb.minFl round64).x ≤
        (AABB.minFl round64 ⟨deepPlayer64.pos, deepPlayer64.half⟩).x ∧
      (AABB.maxFl round64 ⟨deepPlayer64.pos, deepPlayer64.half⟩).x ≤
        (landingPlatform.aabb.maxFl round64).x ∧
      (landingPlatform.aabb.minFl round64).z ≤
        (AABB.minFl round64 ⟨deepPlayer64.pos, deepPlayer64.half⟩).z ∧
      (AABB.maxFl round64 ⟨deepPlayer64.pos, deepPlayer64.half⟩).z ≤
        (landingPlatform.aabb.maxFl round64).z ∧
      0 < (landingPlatform.aabb.maxFl round64).y -
        (AABB.minFl round64 ⟨deepPlayer64.pos, deepPlayer64.half⟩).y ∧
      (landingPlatform.aabb.maxFl round64).y -
        (AABB.minFl round64 ⟨deepPlayer64.pos, deepPlayer64.half⟩).y < 0.9 ∧
      (_resolvePlayerCollisionsFl round64 (colliders (landingGame : Game ℚ))
        deepPlayer64).grounded = false ∧
      (_resolvePlayerCollisionsFl round64 (colliders (landingGame : Game ℚ))
        deepPlayer64).pos.x ≠ deepPlayer64.pos.x ∧
      (_resolvePlayerCollisionsFl round64 (colliders (landingGame : Game ℚ))
        deepPlayer64).vel.y = -3) := by
  refine ⟨⟨?_, ?_, ?_, ?_, ?_, ?_, ?_, ?_, ?_⟩, ⟨?_, ?_, ?_, ?_, ?_, ?_, ?_, ?_, ?_, ?_⟩⟩ <;>
    norm_num [_resolvePlayerCollisionsFl, colliders, landingGame, emptyGame, resolveStepFl,
      playerOverlapFl, aabbOverlapFl, landingPlayer64, deepPlayer64, playerAtFl, playerAt,
      Player.init, Vector3.round, AABB.minFl, AABB.maxFl, landingPlatform, round64_zero,
      round64_val_1, round64_val_2, round64_val_3, round64_val_4, round64_val_5, round64_val_6,
      round64_val_7, round64_val_8, round64_val_9, round64_val_10, round64_val_11,
      round64_val_12, round64_val_13, round64_val_14, round64_val_15, round64_val_16,
      round64_val_17, round64_val_18, round64_val_19, round64_val_20, round64_val_21,
      round64_val_22, round64_val_23, round64_val_24, round64_val_25, round64_val_26,
      round64_val_27, round64_val_28, round64_val_29, round64_val_30, round64_val_31,
      round64_val_32, round64_val_33, round64_val_34, round64_val_35, round64_val_36,
      round64_val_37, round64_val_38, round64_val_39, round64_val_40, round64_val_41,
      round64_val_42, round64_val_43, round64_val_44, round64_val_45, round64_val_46,
      round64_val_47, round64_val_48]

/-- Witness of C4: binary64 arithmetic, the player at height `1.3`, its
feet `0.09999999999999998` below the platform top. -/
theorem landing_scenario_rounded_witness :
    |(AABB.minFl round64
        ⟨(_resolvePlayerCollisionsFl round64 (colliders (landingGame : Game ℚ))
            landingPlayer64).pos,
          (_resolvePlayerCollisionsFl round64 (colliders (landingGame : Game ℚ))
            landingPlayer64).half⟩).y -
        (AABB.maxFl round64 (⟨⟨0, 0, 0⟩, ⟨5, 0.5, 5⟩⟩ : AABB ℚ)).y| ≤ 5 * 2 ^ (-53 : ℤ) ∧
      (_resolvePlayerCollisionsFl round64 (colliders (landingGame : Game ℚ))
        landingPlayer64).grounded = true := by
  have h := landing_scenario_rounded round64 (2 ^ (-53 : ℤ)) (landingGame : Game ℚ)
    ⟨⟨0, 0, 0⟩, ⟨⟨0, 0, 0⟩, ⟨5, 0.5, 5⟩⟩, ⟨10, 1, 10⟩⟩ landingPlayer64
    (900719925474099 / 2 ^ 53) round64_roundsWithin (by norm_num) rfl rfl rfl rfl
    (by norm_num [landingPlayer64, playerAtFl, playerAt, Player.init, Vector3.round,
      round64_val_1, round64_val_2, round64_val_3, round64_val_4, round64_val_5, round64_val_6,
      round64_val_7, round64_val_8, round64_val_9, round64_val_10, round64_val_11,
      round64_val_12, round64_val_13, round64_val_14, round64_val_15, round64_val_16,
      round64_val_17, round64_val_18, round64_val_19, round64_val_20, round64_val_21,
      round64_val_22, round64_val_23, round64_val_24, round64_val_25, round64_val_26,
      round64_val_27, round64_val_28, round64_val_29, round64_val_30, round64_val_31,
      round64_val_32, round64_val_33, round64_val_34, round64_val_35, round64_val_36,
      round64_val_37, round64_val_38, round64_val_39, round64_val_40, round64_val_41,
      round64_val_42, round64_val_43, round64_val_44, round64_val_45, round64_val_46,
      round64_val_47, round64_val_48])
    (by norm_num [landingPlayer64, playerAtFl, playerAt, Player.init, Vector3.round,
      AABB.minFl, AABB.maxFl, round64_zero,
      round64_val_1, round64_val_2, round64_val_3, round64_val_4, round64_val_5, round64_val_6,
      round64_val_7, round64_val_8, round64_val_9, round64_val_10, round64_val_11,
      round64_val_12, round64_val_13, round64_val_14, round64_val_15, round64_val_16,
      round64_val_17, round64_val_18, round64_val_19, round64_val_20, round64_val_21,
      round64_val_22, round64_val_23, round64_val_24, round64_val_25, round64_val_26,
      round64_val_27, round64_val_28, round64_val_29, round64_val_30, round64_val_31,
      round64_val_32, round64_val_33, round64_val_34, round64_val_35, round64_val_36,
      round64_val_37, round64_val_38, round64_val_39, round64_val_40, round64_val_41,
      round64_val_42, round64_val_43, round64_val_44, round64_val_45, round64_val_46,
      round64_val_47, round64_val_48])
    (by norm_num [landingPlayer64, playerAtFl, playerAt, Player.init, Vector3.round,
      AABB.minFl, AABB.maxFl, round64_zero,
      round64_val_1, round64_val_2, round64_val_3, round64_val_4, round64_val_5, round64_val_6,
      round64_val_7, round64_val_8, round64_val_9, round64_val_10, round64_val_11,
      round64_val_12, round64_val_13, round64_val_14, round64_val_15, round64_val_16,
      round64_val_17, round64_val_18, round64_val_19, round64_val_20, round64_val_21,
      round64_val_22, round64_val_23, round64_val_24, round64_val_25, round64_val_26,
      round64_val_27, round64_val_28, round64_val_29, round64_val_30, round64_val_31,
      round64_val_32, round64_val_33, round64_val_34, round64_val_35, round64_val_36,
      round64_val_37, round64_val_38, round64_val_39, round64_val_40, round64_val_41,
      round64_val_42, round64_val_43, round64_val_44, round64_val_45, round64_val_46,
      round64_val_47, round64_val_48])
    (by norm_num [landingPlayer64, playerAtFl, playerAt, Player.init, Vector3.round,
      AABB.minFl, AABB.maxFl, round64_zero,
      round64_val_1, round64_val_2, round64_val_3, round64_val_4, round64_val_5, round64_val_6,
      round64_val_7, round64_val_8, round64_val_9, round64_val_10, round64_val_11,
      round64_val_12, round64_val_13, round64_val_14, round64_val_15, round64_val_16,
      round64_val_17, round64_val_18, round64_val_19, round64_val_20, round64_val_21,
      round64_val_22, round64_val_23, round64_val_24, round64_val_25, round64_val_26,
      round64_val_27, round64_val_28, round64_val_29, round64_val_30, round64_val_31,
      round64_val_32, round64_val_33, round64_val_34, round64_val_35, round64_val_36,
      round64_val_37, round64_val_38, round64_val_39, round64_val_40, round64_val_41,
      round64_val_42, round64_val_43, round64_val_44, round64_val_45, round64_val_46,
      round64_val_47, round64_val_48])
    (by norm_num [landingPlayer64, playerAtFl, playerAt, Player.init, Vector3.round,
      AABB.minFl, AABB.maxFl, round64_zero,
      round64_val_1, round64_val_2, round64_val_3, round64_val_4, round64_val_5, round64_val_6,
      round64_val_7, round64_val_8, round64_val_9, round64_val_10, round64_val_11,
      round64_val_12, round64_val_13, round64_val_14, round64_val_15, round64_val_16,
      round64_val_17, round64_val_18, round64_val_19, round64_val_20, round64_val_21,
      round64_val_22, round64_val_23, round64_val_24, round64_val_25, round64_val_26,
      round64_val_27, round64_val_28, round64_val_29, round64_val_30, round64_val_31,
      round64_val_32, round64_val_33, round64_val_34, round64_val_35, round64_val_36,
      round64_val_37, round64_val_38, round64_val_39, round64_val_40, round64_val_41,
      round64_val_42, round64_val_43, round64_val_44, round64_val_45, round64_val_46,
      round64_val_47, round64_val_48])
    (by norm_num) (by norm_num)
    (by norm_num [landingPlayer64, playerAtFl, playerAt, Player.init, Vector3.round,
      AABB.minFl, AABB.maxFl, round64_zero,
      round64_val_1, round64_val_2, round64_val_3, round64_val_4, round64_val_5, round64_val_6,
      round64_val_7, round64_val_8, round64_val_9, round64_val_10, round64_val_11,
      round64_val_12, round64_val_13, round64_val_14, round64_val_15, round64_val_16,
      round64_val_17, round64_val_18, round64_val_19, round64_val_20, round64_val_21,
      round64_val_22, round64_val_23, round64_val_24, round64_val_25, round64_val_26,
      round64_val_27, round64_val_28, round64_val_29, round64_val_30, round64_val_31,
      round64_val_32, round64_val_33, round64_val_34, round64_val_35, round64_val_36,
      round64_val_37, round64_val_38, round64_val_39, round64_val_40, round64_val_41,
      round64_val_42, round64_val_43, round64_val_44, round64_val_45, round64_val_46,
      round64_val_47, round64_val_48])
  exact ⟨h.1, h.2.2.2.1⟩

/-! ## C5 -/

theorem playerOverlapFl_not_hit_of_depth (fl : K → K) (p : Player K) (c : Collider K)
    (a : Axis) (h : (playerOverlapFl fl p c).depth a ≤ 0) :
    (playerOverlapFl fl p c).hit = false := by
  cases hh : (playerOverlapFl fl p c).hit
  · rfl
  · exact absurd (playerOverlapFl_depth_pos fl p c a hh) (not_lt.2 h)

/-- The state of the pass right after collider `c`, with a bound `d` on how
far the player then reaches into `c` from side `s` on axis `a`. -/
theorem resolveStepFl_reach (fl : K → K) (u B : K) (q : Player K) (c : Collider K) (a : Axis)
    (s : K) (hfl : RoundsWithin fl u) (hu : u ≤ 1 / 1024) (hidem : ∀ x, fl (fl x) = fl x)
    (hB : 0 ≤ B)
    (hreach :
      ((s = 1 ∨ s = -1) ∧ fl (q.pos.get a) = q.pos.get a ∧ intrusionFl fl a s q c ≤ 0) ∨
      (resolveAxisFl fl q c = some a ∧ pushDir a q c = s ∧ partlyPenetratesFl fl a q c ∧
        |q.pos.get a| ≤ B ∧ |q.half.get a| ≤ B ∧ |c.aabb.c.get a| ≤ B ∧
        |c.aabb.h.get a| ≤ B)) :
    ∃ d, 0 ≤ d ∧ d ≤ 26 * (u * B) ∧ (u = 0 ∨ intrusionFl fl a s q c ≤ 0 → d = 0) ∧
      (s = 1 ∨ s = -1) ∧
      fl ((resolveStepFl fl q c).pos.get a) = (resolveStepFl fl q c).pos.get a ∧
      intrusionFl fl a s (resolveStepFl fl q c) c ≤ d := by
  have hu0 := roundsWithin_nonneg hfl
  have hu1 : u ≤ 1 := by linarith
  have huB : 0 ≤ u * B := mul_nonneg hu0 hB
  have hnot : intrusionFl fl a s q c ≤ 0 → resolveAxisFl fl q c = none := by
    intro h
    have := depth_le_of_intrusion fl u hfl hu1 q c a s 0 (le_refl _) h
    rw [mul_zero, add_zero] at this
    exact (resolveAxisFl_eq_none_iff fl q c).2 (playerOverlapFl_not_hit_of_depth fl q c a this)
  rcases hreach with ⟨hs, hrep, hin⟩ | ⟨hax, hdir, hpart, h1, h2, h3, h4⟩
  · refine ⟨0, le_refl _, by linarith, fun _ => rfl, hs, ?_, ?_⟩
    · rw [resolveStepFl_of_none fl q c (hnot hin)]; exact hrep
    · rw [resolveStepFl_of_none fl q c (hnot hin)]; exact hin
  · refine ⟨26 * (u * B), by linarith, le_refl _, ?_, ?_, ?_, ?_⟩
    · rintro (h | h)
      · rw [h]; ring
      · rw [hnot h] at hax; exact absurd hax (by simp)
    · rw [← hdir]; exact pushDir_eq a q c
    · rw [resolveStepFl_pos_axis fl q c a hax, hidem]
    · rw [← hdir]
      exact resolveStepFl_intrusion fl u B q c a hfl hu h1 h2 h3 h4 hax hpart

/-- C5, as the code has it, in arithmetic that rounds with relative error
at most `u` (`u = 2^-53` for JavaScript numbers, `u = 0` for exact
arithmetic).  The pass visits each collider once, in order.  Let the pass
over `pre ++ c :: post` reach `c` with the player either wholly on side `s`
of `c` on axis `a`, or hit by `c`, resolved on axis `a` with push direction
`s`, and penetrating `c` only partly on that axis, the coordinates on that
axis at most `B` in magnitude.  If no later collider of the list pushes the
player on axis `a` against the direction `s`, then after the full pass the
overlap test reports against `c` a depth of at most `27 u B` on axis `a`;
and it reports no hit when the arithmetic is exact or the player was wholly
on side `s`. -/
theorem resolve_pass_penetration_bound (fl : K → K) (u B : K) (pre post : List (Collider K))
    (c : Collider K) (p : Player K) (a : Axis) (s : K)
    (hfl : RoundsWithin fl u) (hu : u ≤ 1 / 1024) (hmono : Monotone fl)
    (hidem : ∀ x, fl (fl x) = fl x) (hB : 0 ≤ B)
    (hreach :
      ((s = 1 ∨ s = -1) ∧
        fl ((_resolvePlayerCollisionsFl fl pre p).pos.get a) =
          (_resolvePlayerCollisionsFl fl pre p).pos.get a ∧
        intrusionFl fl a s (_resolvePlayerCollisionsFl fl pre p) c ≤ 0) ∨
      (resolveAxisFl fl (_resolvePlayerCollisionsFl fl pre p) c = some a ∧
        pushDir a (_resolvePlayerCollisionsFl fl pre p) c = s ∧
        partlyPenetratesFl fl a (_resolvePlayerCollisionsFl fl pre p) c ∧
        |(_resolvePlayerCollisionsFl fl pre p).pos.get a| ≤ B ∧
        |(_resolvePlayerCollisionsFl fl pre p).half.get a| ≤ B ∧
        |c.aabb.c.get a| ≤ B ∧ |c.aabb.h.get a| ≤ B))
    (hpost : ∀ post1 c' post2, post = post1 ++ c' :: post2 →
      resolveAxisFl fl (_resolvePlayerCollisionsFl fl (pre ++ c :: post1) p) c' = some a →
        pushDir a (_resolvePlayerCollisionsFl fl (pre ++ c :: post1) p) c' = s) :
    (playerOverlapFl fl (_resolvePlayerCollisionsFl fl (pre ++ c :: post) p) c).depth a ≤
        27 * (u * B) ∧
    (u = 0 ∨ intrusionFl fl a s (_resolvePlayerCollisionsFl fl pre p) c ≤ 0 →
      (playerOverlapFl fl (_resolvePlayerCollisionsFl fl (pre ++ c :: post) p) c).hit = false) := by
  have hu0 := roundsWithin_nonneg hfl
  have hu1 : u ≤ 1 := by linarith
  have huB : 0 ≤ u * B := mul_nonneg hu0 hB
  obtain ⟨d, hd0, hd1, hd2, hs, hrep, hin⟩ :=
    resolveStepFl_reach fl u B (_resolvePlayerCollisionsFl fl pre p) c a s hfl hu hidem hB hreach
  have hmonoPass := resolvePass_intrusion_mono fl u hfl hu hmono hidem c a s hs post
    (resolveStepFl fl (_resolvePlayerCollisionsFl fl pre p) c) hrep
    (fun post1 c' post2 e h => by
      have := hpost post1 c' post2 e
      rw [resolvePlayerCollisionsFl_append] at this
      exact this h)
  rw [resolvePlayerCollisionsFl_append]
  have hdepth := depth_le_of_intrusion fl u hfl hu1
    (_resolvePlayerCollisionsFl fl post (resolveStepFl fl (_resolvePlayerCollisionsFl fl pre p) c))
    c a s d hd0 (le_trans hmonoPass hin)
  have hud : u * d ≤ d / 1024 := by
    have := mul_le_mul_of_nonneg_right hu hd0
    linarith
  constructor
  · linarith
  · intro h
    have hz := hd2 h
    rw [hz, mul_zero, add_zero] at hdepth
    exact playerOverlapFl_not_hit_of_depth fl _ c a hdepth

/-- Counterexample to C5 as stated, in binary64 arithmetic.  (1) Two blocks
that do not overlap each other, `0.5` apart, and the player between them
overlapping both: the pass pushes the player out of the left block, then out
of the right block back into the left one, and ends `0.4` deep in the left
block.  (2) One block and the player at its centre: the pass moves the
player by its own width and it is still inside.  (3) The landing platform
alone and the player at height `1.3`: the pass pushes the player up, and the
overlap test still reports a hit, with depth `2^-53` on y. -/
theorem resolve_pass_overlap_counterexample :
    (List.Pairwise (fun a b : Collider ℚ => ¬ collidersOverlap a b)
        [corridorLeft, corridorRight] ∧
      (playerOverlapFl round64
        (_resolvePlayerCollisionsFl round64 [corridorLeft, corridorRight] originPlayer64)
        corridorLeft).hit = true ∧
      39 / 100 < (playerOverlapFl round64
        (_resolvePlayerCollisionsFl round64 [corridorLeft, corridorRight] originPlayer64)
        corridorLeft).ox) ∧
    ((playerOverlapFl round64 (_resolvePlayerCollisionsFl round64 [bigBlock] originPlayer64)
        bigBlock).hit = true ∧
      9 / 10 < (playerOverlapFl round64
        (_resolvePlayerCollisionsFl round64 [bigBlock] originPlayer64) bigBlock).ox) ∧
    ((playerOverlapFl round64 (_resolvePlayerCollisionsFl round64 [landingPlatform]
        landingPlayer64) landingPlatform).hit = true ∧
      (playerOverlapFl round64 (_resolvePlayerCollisionsFl round64 [landingPlatform]
        landingPlayer64) landingPlatform).oy = 1 / 2 ^ 53) := by
  refine ⟨⟨?_, ?_, ?_⟩, ⟨?_, ?_⟩, ⟨?_, ?_⟩⟩
  · norm_num [collidersOverlap, aabbOverlap, corridorLeft, corridorRight, AABB.min, AABB.max,
      Vector3.sub, Vector3.add]
  all_goals
    norm_num [_resolvePlayerCollisionsFl, resolveStepFl, playerOverlapFl, aabbOverlapFl,
      landingPlayer64, originPlayer64, playerAtFl, playerAt, Player.init, Vector3.round,
      AABB.minFl, AABB.maxFl, landingPlatform, corridorLeft, corridorRight, bigBlock,
      round64_zero,
      round64_val_1, round64_val_2, round64_val_3, round64_val_4, round64_val_5, round64_val_6,
      round64_val_7, round64_val_8, round64_val_9, round64_val_10, round64_val_11,
      round64_val_12, round64_val_13, round64_val_14, round64_val_15, round64_val_16,
      round64_val_17, round64_val_18, round64_val_19, round64_val_20, round64_val_21,
      round64_val_22, round64_val_23, round64_val_24, round64_val_25, round64_val_26,
      round64_val_27, round64_val_28, round64_val_29, round64_val_30, round64_val_31,
      round64_val_32, round64_val_33, round64_val_34, round64_val_35, round64_val_36,
      round64_val_37, round64_val_38, round64_val_39, round64_val_40, round64_val_41,
      round64_val_42, round64_val_43, round64_val_44, round64_val_45, round64_val_46,
      round64_val_47, round64_val_48]

/-- Witness of C5: binary64 arithmetic, the landing platform, then a wall
standing on it, and the player in their corner.  The platform is resolved
upward on y, the wall afterwards on x, and after the pass the overlap test
reports against the platform a depth of at most `54 * 2^-53` on y. -/
theorem resolve_pass_penetration_bound_witness :
    resolveAxisFl round64 (_resolvePlayerCollisionsFl round64 [] cornerPlayer64)
        landingPlatform = some .y ∧
      resolveAxisFl round64
        (_resolvePlayerCollisionsFl round64 ([] ++ landingPlatform :: []) cornerPlayer64)
        sideWall = some .x ∧
      (playerOverlapFl round64
        (_resolvePlayerCollisionsFl round64 ([] ++ landingPlatform :: [sideWall])
          cornerPlayer64) landingPlatform).depth .y ≤ 27 * (2 ^ (-53 : ℤ) * 2) := by
  have hfloor : resolveAxisFl round64 (_resolvePlayerCollisionsFl round64 [] cornerPlayer64)
      landingPlatform = some .y := by
    norm_num [resolveAxisFl, _resolvePlayerCollisionsFl, resolveStepFl, playerOverlapFl,
      aabbOverlapFl, cornerPlayer64, playerAtFl, playerAt, Player.init, Vector3.round,
      AABB.minFl, AABB.maxFl, landingPlatform, sideWall, round64_zero,
      round64_val_1, round64_val_2, round64_val_3, round64_val_4, round64_val_5, round64_val_6,
      round64_val_7, round64_val_8, round64_val_9, round64_val_10, round64_val_11,
      round64_val_12, round64_val_13, round64_val_14, round64_val_15, round64_val_16,
      round64_val_17, round64_val_18, round64_val_19, round64_val_20, round64_val_21,
      round64_val_22, round64_val_23, round64_val_24, round64_val_25, round64_val_26,
      round64_val_27, round64_val_28, round64_val_29, round64_val_30, round64_val_31,
      round64_val_32, round64_val_33, round64_val_34, round64_val_35, round64_val_36,
      round64_val_37, round64_val_38, round64_val_39, round64_val_40, round64_val_41,
      round64_val_42, round64_val_43, round64_val_44, round64_val_45, round64_val_46,
      round64_val_47, round64_val_48]
  have hwall : resolveAxisFl round64
      (_resolvePlayerCollisionsFl round64 ([] ++ landingPlatform :: []) cornerPlayer64)
      sideWall = some .x := by
    norm_num [resolveAxisFl, _resolvePlayerCollisionsFl, resolveStepFl, playerOverlapFl,
      aabbOverlapFl, cornerPlayer64, playerAtFl, playerAt, Player.init, Vector3.round,
      AABB.minFl, AABB.maxFl, landingPlatform, sideWall, round64_zero,
      round64_val_1, round64_val_2, round64_val_3, round64_val_4, round64_val_5, round64_val_6,
      round64_val_7, round64_val_8, round64_val_9, round64_val_10, round64_val_11,
      round64_val_12, round64_val_13, round64_val_14, round64_val_15, round64_val_16,
      round64_val_17, round64_val_18, round64_val_19, round64_val_20, round64_val_21,
      round64_val_22, round64_val_23, round64_val_24, round64_val_25, round64_val_26,
      round64_val_27, round64_val_28, round64_val_29, round64_val_30, round64_val_31,
      round64_val_32, round64_val_33, round64_val_34, round64_val_35, round64_val_36,
      round64_val_37, round64_val_38, round64_val_39, round64_val_40, round64_val_41,
      round64_val_42, round64_val_43, round64_val_44, round64_val_45, round64_val_46,
      round64_val_47, round64_val_48]
  refine ⟨hfloor, hwall, (resolve_pass_penetration_bound round64 (2 ^ (-53 : ℤ)) 2 []
    [sideWall] landingPlatform cornerPlayer64 .y 1 round64_roundsWithin (by norm_num)
    round64_mono round64_idem (by norm_num) (Or.inr ⟨hfloor, ?_, ?_, ?_, ?_, ?_, ?_⟩) ?_).1⟩
  · norm_num [pushDir, Vector3.get, _resolvePlayerCollisionsFl, cornerPlayer64, playerAtFl,
      playerAt, Player.init, Vector3.round, landingPlatform,
      round64_val_1, round64_val_2, round64_val_3, round64_val_4, round64_val_5, round64_val_6,
      round64_val_7, round64_val_8, round64_val_9, round64_val_10, round64_val_11,
      round64_val_12, round64_val_13, round64_val_14, round64_val_15, round64_val_16,
      round64_val_17, round64_val_18, round64_val_19, round64_val_20, round64_val_21,
      round64_val_22, round64_val_23, round64_val_24, round64_val_25, round64_val_26,
      round64_val_27, round64_val_28, round64_val_29, round64_val_30, round64_val_31,
      round64_val_32, round64_val_33, round64_val_34, round64_val_35, round64_val_36,
      round64_val_37, round64_val_38, round64_val_39, round64_val_40, round64_val_41,
      round64_val_42, round64_val_43, round64_val_44, round64_val_45, round64_val_46,
      round64_val_47, round64_val_48]
  · norm_num [partlyPenetratesFl, Vector3.get, _resolvePlayerCollisionsFl, cornerPlayer64,
      playerAtFl, playerAt, Player.init, Vector3.round, AABB.minFl, AABB.maxFl,
      landingPlatform, round64_zero,
      round64_val_1, round64_val_2, round64_val_3, round64_val_4, round64_val_5, round64_val_6,
      round64_val_7, round64_val_8, round64_val_9, round64_val_10, round64_val_11,
      round64_val_12, round64_val_13, round64_val_14, round64_val_15, round64_val_16,
      round64_val_17, round64_val_18, round64_val_19, round64_val_20, round64_val_21,
      round64_val_22, round64_val_23, round64_val_24, round64_val_25, round64_val_26,
      round64_val_27, round64_val_28, round64_val_29, round64_val_30, round64_val_31,
      round64_val_32, round64_val_33, round64_val_34, round64_val_35, round64_val_36,
      round64_val_37, round64_val_38, round64_val_39, round64_val_40, round64_val_41,
      round64_val_42, round64_val_43, round64_val_44, round64_val_45, round64_val_46,
      round64_val_47, round64_val_48]
  · norm_num [abs_le, Vector3.get, _resolvePlayerCollisionsFl, cornerPlayer64, playerAtFl,
      playerAt, Player.init, Vector3.round,
      round64_val_1, round64_val_2, round64_val_3, round64_val_4, round64_val_5, round64_val_6,
      round64_val_7, round64_val_8, round64_val_9, round64_val_10, round64_val_11,
      round64_val_12, round64_val_13, round64_val_14, round64_val_15, round64_val_16,
      round64_val_17, round64_val_18, round64_val_19, round64_val_20, round64_val_21,
      round64_val_22, round64_val_23, round64_val_24, round64_val_25, round64_val_26,
      round64_val_27, round64_val_28, round64_val_29, round64_val_30, round64_val_31,
      round64_val_32, round64_val_33, round64_val_34, round64_val_35, round64_val_36,
      round64_val_37, round64_val_38, round64_val_39, round64_val_40, round64_val_41,
      round64_val_42, round64_val_43, round64_val_44, round64_val_45, round64_val_46,
      round64_val_47, round64_val_48]
  · norm_num [abs_le, Vector3.get, _resolvePlayerCollisionsFl, cornerPlayer64, playerAtFl,
      playerAt, Player.init, Vector3.round,
      round64_val_1, round64_val_2, round64_val_3, round64_val_4, round64_val_5, round64_val_6,
      round64_val_7, round64_val_8, round64_val_9, round64_val_10, round64_val_11,
      round64_val_12, round64_val_13, round64_val_14, round64_val_15, round64_val_16,
      round64_val_17, round64_val_18, round64_val_19, round64_val_20, round64_val_21,
      round64_val_22, round64_val_23, round64_val_24, round64_val_25, round64_val_26,
      round64_val_27, round64_val_28, round64_val_29, round64_val_30, round64_val_31,
      round64_val_32, round64_val_33, round64_val_34, round64_val_35, round64_val_36,
      round64_val_37, round64_val_38, round64_val_39, round64_val_40, round64_val_41,
      round64_val_42, round64_val_43, round64_val_44, round64_val_45, round64_val_46,
      round64_val_47, round64_val_48]
  · norm_num [abs_le, Vector3.get, landingPlatform]
  · norm_num [abs_le, Vector3.get, landingPlatform]
  · intro post1 c' post2 e h
    cases post1 with
    | nil =>
      simp only [List.nil_append, List.cons.injEq] at e
      obtain ⟨rfl, _⟩ := e
      rw [hwall] at h
      exact absurd h (by simp)
    | cons b t =>
      simp at e

/-! ## C6 -/

theorem resolveStep_grounded (p : Player K) (c : Collider K) :
    ((resolveStep p c).grounded = true ↔ p.grounded = true ∨ resolvesUp p c) ∧
    (resolveStep p c).groundPlatform =
      (if resolvesUp p c then
        match c.moving with
        | some i => some i
        | none => p.groundPlatform
      else p.groundPlatform) := by
  cases h : (playerOverlap p c).hit
  · have hn : ¬ resolvesUp p c := by
      intro hu
      exact hu.1 (by rw [resolveStep_of_not_hit p c h])
    rw [resolveStep_of_not_hit p c h, if_neg hn]
    simp [hn]
  · by_cases hx : (playerOverlap p c).ox ≤ (playerOverlap p c).oy ∧
        (playerOverlap p c).ox ≤ (playerOverlap p c).oz
    · have hn : ¬ resolvesUp p c := fun hu =>
        absurd ((resolvesOn_iff_x p c h hx _).1 hu.1) (by decide)
      rw [if_neg hn, resolveStep_x p c h hx]
      simp [hn]
    · by_cases hz : (playerOverlap p c).oz ≤ (playerOverlap p c).ox ∧
          (playerOverlap p c).oz ≤ (playerOverlap p c).oy
      · have hn : ¬ resolvesUp p c := fun hu =>
          absurd ((resolvesOn_iff_z p c h hx hz _).1 hu.1) (by decide)
        rw [if_neg hn, resolveStep_z p c h hx hz]
        simp [hn]
      · have hy : resolvesOn .y p c := (resolvesOn_iff_y p c h hx hz _).2 rfl
        rw [resolveStep_y p c h hx hz]
        by_cases hlt : p.pos.y < c.aabb.c.y
        · have hn : ¬ resolvesUp p c := fun hu => hu.2 hlt
          simp [hn, hlt]
        · have hu : resolvesUp p c := ⟨hy, hlt⟩
          simp [hu, hlt]

theorem resolve_grounded (cs : List (Collider K)) (p : Player K) :
    ((_resolvePlayerCollisions cs p).grounded = true ↔
      p.grounded = true ∨ ∃ qc ∈ passStates cs p, resolvesUp qc.1 qc.2) ∧
    (_resolvePlayerCollisions cs p).groundPlatform =
      (match (movingSupports cs p).getLast? with
      | some i => some i
      | none => p.groundPlatform) := by
  induction cs generalizing p with
  | nil => simp [_resolvePlayerCollisions, passStates, movingSupports]
  | cons c cs ih =>
    have ih := ih (resolveStep p c)
    have hs := resolveStep_grounded p c
    have e : _resolvePlayerCollisions (c :: cs) p =
        _resolvePlayerCollisions cs (resolveStep p c) := rfl
    rw [e]
    constructor
    · rw [ih.1, hs.1]
      simp only [passStates, List.mem_cons, exists_eq_or_imp, or_assoc]
    · rw [ih.2, hs.2]
      have em : movingSupports (c :: cs) p =
          (if resolvesUp p c then c.moving else none).elim (movingSupports cs (resolveStep p c))
            (fun i => i :: movingSupports cs (resolveStep p c)) := by
        simp only [movingSupports, passStates, List.filterMap_cons]
        cases (if resolvesUp p c then c.moving else none) <;> rfl
      rw [em]
      cases hl : (movingSupports cs (resolveStep p c)).getLast? with
      | some j =>
        by_cases hu : resolvesUp p c
        · cases hm : c.moving with
          | none => simp [hu, hm, hl]
          | some i =>
            simp only [hu, hm, if_true, Option.elim]
            rw [List.getLast?_cons, hl]
            rfl
        · simp [hu, hl]
      | none =>
        have hnil : movingSupports cs (resolveStep p c) = [] := List.getLast?_eq_none_iff.1 hl
        by_cases hu : resolvesUp p c
        · cases hm : c.moving with
          | none => simp [hu, hm, hl]
          | some i => simp [hu, hm, hnil]
        · simp [hu, hl]

theorem stepPlayer_player_of_not_respawns (M : JSMath K) (dt : K) (g : Game K)
    (h : respawns M dt g = false) : (_stepPlayer M dt g).player = (stepTrace M dt g).final := by
  simp only [respawns, Bool.or_eq_false_iff, decide_eq_false_iff_not] at h
  simp only [_stepPlayer, if_neg h.1, h.2]
  rfl

theorem stepPlayer_of_respawns (M : JSMath K) (dt : K) (g : Game K)
    (h : respawns M dt g = true) :
    _stepPlayer M dt g =
      _respawn { g with
        player := (stepTrace M dt g).final
        _prevDashHeld := (stepTrace M dt g).axes.dashHeld } := by
  simp only [respawns, Bool.or_eq_true, decide_eq_true_eq] at h
  by_cases h1 : (stepTrace M dt g).final.pos.y < -30
  · simp only [_stepPlayer, if_pos h1]
  · have h2 := h.resolve_left h1
    simp only [_stepPlayer, if_neg h1, h2, if_true]

theorem passStates_mem (cs : List (Collider K)) (p : Player K) (qc : Player K × Collider K)
    (h : qc ∈ passStates cs p) : qc.2 ∈ cs := by
  induction cs generalizing p with
  | nil => simp [passStates] at h
  | cons c cs ih =>
    simp only [passStates, List.mem_cons] at h
    rcases h with h | h
    · rw [h]; exact List.mem_cons_self _ _
    · exact List.mem_cons_of_mem _ (ih _ h)

theorem movingSupports_mem (cs : List (Collider K)) (p : Player K) (i : Nat)
    (h : i ∈ movingSupports cs p) : ∃ c ∈ cs, c.moving = some i := by
  simp only [movingSupports, List.mem_filterMap] at h
  obtain ⟨qc, hqc, hi⟩ := h
  refine ⟨qc.2, passStates_mem cs p qc hqc, ?_⟩
  by_cases hu : resolvesUp qc.1 qc.2
  · simpa [hu] using hi
  · simp [hu] at hi

omit [LinearOrderedField K] in
theorem colliders_moving (g : Game K) (c : Collider K) (i : Nat) (hc : c ∈ colliders g)
    (hm : c.moving = some i) :
    ∃ mp, g.movingPlatforms.get? i = some mp ∧ c.aabb = mp.aabb := by
  simp only [colliders, List.mem_append, List.mem_map] at hc
  rcases hc with ⟨pl, _, rfl⟩ | ⟨im, him, rfl⟩
  · simp at hm
  · simp only [Option.some.injEq] at hm
    have := List.mem_enum_iff_getElem?.1 him
    exact ⟨im.2, by rw [← hm, List.get?_eq_getElem?]; exact this, rfl⟩

/-- C6: at the end of a `_stepPlayer` call that does not respawn, `grounded`
is true exactly when the resolution pass of that call resolved some collider
on y with an upward push (player centre not below the collider centre), and
`groundPlatform` is the last moving platform, in collider order, that the
pass resolved so, and null when there is none; the index it holds is one of
`this.movingPlatforms`. -/
theorem stepPlayer_ground_state (M : JSMath K) (dt : K) (g : Game K)
    (h : respawns M dt g = false) :
    ((_stepPlayer M dt g).player.grounded = true ↔
      ∃ qc ∈ passStates (colliders g) (stepTrace M dt g).preResolve, resolvesUp qc.1 qc.2) ∧
    (_stepPlayer M dt g).player.groundPlatform =
      (movingSupports (colliders g) (stepTrace M dt g).preResolve).getLast? ∧
    (∀ i ∈ movingSupports (colliders g) (stepTrace M dt g).preResolve,
      i < g.movingPlatforms.length) := by
  rw [stepPlayer_player_of_not_respawns M dt g h]
  have hr := resolve_grounded (colliders g) (stepTrace M dt g).preResolve
  have hf : (stepTrace M dt g).final = restoreDash (stepTrace M dt g).resolved := rfl
  have hres : (stepTrace M dt g).resolved =
      _resolvePlayerCollisions (colliders g) (stepTrace M dt g).preResolve := rfl
  have hpre : (stepTrace M dt g).preResolve.grounded = false ∧
      (stepTrace M dt g).preResolve.groundPlatform = none := ⟨rfl, rfl⟩
  have hg : (restoreDash (stepTrace M dt g).resolved).grounded =
      (stepTrace M dt g).resolved.grounded := by
    unfold restoreDash; split_ifs <;> rfl
  have hgp : (restoreDash (stepTrace M dt g).resolved).groundPlatform =
      (stepTrace M dt g).resolved.groundPlatform := by
    unfold restoreDash; split_ifs <;> rfl
  rw [hf, hg, hgp, hres, hr.1, hr.2, hpre.1, hpre.2]
  refine ⟨by simp, ?_, ?_⟩
  · cases (movingSupports (colliders g) (stepTrace M dt g).preResolve).getLast? <;> rfl
  · intro i hi
    obtain ⟨c, hc, hm⟩ := movingSupports_mem (colliders g) _ i hi
    obtain ⟨mp, hmp, _⟩ := colliders_moving g c i hc hm
    exact (List.get?_eq_some.1 hmp).1

/-- Witness of C6: the player lands on the platform within one step of
`1/30` s; the call does not respawn and the pass resolves the platform upward
on y. -/
theorem stepPlayer_ground_state_witness :
    respawns coarseMath (1 / 30) fallingGame = false ∧
      (_stepPlayer coarseMath (1 / 30) fallingGame).player.grounded = true ∧
      ∃ qc ∈ passStates (colliders fallingGame)
          (stepTrace coarseMath (1 / 30) fallingGame).preResolve,
        resolvesUp qc.1 qc.2 := by
  have h : respawns coarseMath (1 / 30) fallingGame = false := by
    norm_num [respawns, hitsEnemy, stepTrace, fallingGame, landingGame, emptyGame, playerAt,
      Player.init, coarseMath, stepCarry, _inputAxes, stepTimers, _cameraRelativeAxes, rawWish,
      wishVector, stepFacing, stepDash, dashFires, dashSpeed, maxSpeed, stepDashTimer,
      stepGravity, stepHorizontal, stepJump, jumpFires, stepIntegrate, clearGround, restoreDash,
      _resolvePlayerCollisions, colliders, resolveStep, playerOverlap, aabbOverlap, AABB.min,
      AABB.max, Vector3.sub, Vector3.add, Vector3.zero, Vector3.addScaledVector,
      Vector3.multiplyScalar, Vector3.lengthSq, Vector3.length, Vector3.normalize,
      Vector3.cross, Vector3.lerp]
  have hg : (_stepPlayer coarseMath (1 / 30) fallingGame).player.grounded = true := by
    norm_num [_stepPlayer, _respawn, hitsEnemy, stepTrace, fallingGame, landingGame, emptyGame,
      playerAt, Player.init, coarseMath, stepCarry, _inputAxes, stepTimers, _cameraRelativeAxes,
      rawWish, wishVector, stepFacing, stepDash, dashFires, dashSpeed, maxSpeed, stepDashTimer,
      stepGravity, stepHorizontal, stepJump, jumpFires, stepIntegrate, clearGround, restoreDash,
      _resolvePlayerCollisions, colliders, resolveStep, playerOverlap, aabbOverlap, AABB.min,
      AABB.max, Vector3.sub, Vector3.add, Vector3.zero, Vector3.addScaledVector,
      Vector3.multiplyScalar, Vector3.lengthSq, Vector3.length, Vector3.normalize,
      Vector3.cross, Vector3.lerp]
  exact ⟨h, hg, (stepPlayer_ground_state coarseMath (1 / 30) fallingGame h).1.1 hg⟩

/-! ## Lemmas on the phases of the player step -/

theorem stepCarry_fields (mps : List (MovingPlatform K)) (p : Player K) :
    (stepCarry mps p).dashAvailable = p.dashAvailable ∧ (stepCarry mps p).dashing = p.dashing ∧
      (stepCarry mps p).grounded = p.grounded ∧ (stepCarry mps p).facing = p.facing := by
  unfold stepCarry
  split_ifs
  · split
    · split <;> exact ⟨rfl, rfl, rfl, rfl⟩
    · exact ⟨rfl, rfl, rfl, rfl⟩
  · exact ⟨rfl, rfl, rfl, rfl⟩

theorem stepTimers_fields (jumpHeld : Bool) (dt : K) (p : Player K) :
    (stepTimers jumpHeld dt p).dashAvailable = p.dashAvailable ∧
      (stepTimers jumpHeld dt p).dashing = p.dashing ∧
      (stepTimers jumpHeld dt p).grounded = p.grounded ∧
      (stepTimers jumpHeld dt p).facing = p.facing := by
  unfold stepTimers
  cases jumpHeld <;> cases hg : p.grounded <;> simp [hg]

theorem stepFacing_fields (M : JSMath K) (raw : Vector3 K) (p : Player K) :
    (stepFacing M raw p).dashAvailable = p.dashAvailable ∧
      (stepFacing M raw p).dashing = p.dashing ∧
      (stepFacing M raw p).jumpBuffer = p.jumpBuffer ∧
      (stepFacing M raw p).grounded = p.grounded ∧
      (stepFacing M raw p).coyote = p.coyote ∧
      (stepFacing M raw p).groundPlatform = p.groundPlatform := by
  unfold stepFacing
  split_ifs <;> exact ⟨rfl, rfl, rfl, rfl, rfl, rfl⟩

theorem stepDash_fields (dashPressed : Bool) (wish away : Vector3 K) (ds : K) (p : Player K) :
    (stepDash dashPressed wish away ds p).jumpBuffer = p.jumpBuffer ∧
      (stepDash dashPressed wish away ds p).grounded = p.grounded ∧
      (stepDash dashPressed wish away ds p).coyote = p.coyote ∧
      (stepDash dashPressed wish away ds p).groundPlatform = p.groundPlatform := by
  unfold stepDash
  split_ifs <;> exact ⟨rfl, rfl, rfl, rfl⟩

theorem stepDashTimer_fields (dt : K) (p : Player K) :
    (stepDashTimer dt p).jumpBuffer = p.jumpBuffer ∧
      (stepDashTimer dt p).grounded = p.grounded ∧
      (stepDashTimer dt p).coyote = p.coyote ∧
      (stepDashTimer dt p).groundPlatform = p.groundPlatform ∧
      (stepDashTimer dt p).dashAvailable = p.dashAvailable := by
  simp only [stepDashTimer]
  split_ifs <;> exact ⟨rfl, rfl, rfl, rfl, rfl⟩

theorem stepGravity_fields (dt : K) (p : Player K) :
    (stepGravity dt p).jumpBuffer = p.jumpBuffer ∧
      (stepGravity dt p).grounded = p.grounded ∧
      (stepGravity dt p).coyote = p.coyote ∧
      (stepGravity dt p).groundPlatform = p.groundPlatform ∧
      (stepGravity dt p).dashAvailable = p.dashAvailable := by
  unfold stepGravity
  split_ifs <;> exact ⟨rfl, rfl, rfl, rfl, rfl⟩

theorem stepHorizontal_fields (M : JSMath K) (dt : K) (wish : Vector3 K) (ms accel : K)
    (p : Player K) :
    (stepHorizontal M dt wish ms accel p).jumpBuffer = p.jumpBuffer ∧
      (stepHorizontal M dt wish ms accel p).grounded = p.grounded ∧
      (stepHorizontal M dt wish ms accel p).coyote = p.coyote ∧
      (stepHorizontal M dt wish ms accel p).groundPlatform = p.groundPlatform ∧
      (stepHorizontal M dt wish ms accel p).dashAvailable = p.dashAvailable ∧
      (stepHorizontal M dt wish ms accel p).vel.y = p.vel.y := by
  simp only [stepHorizontal]
  split_ifs <;> exact ⟨rfl, rfl, rfl, rfl, rfl, rfl⟩

theorem stepJump_fields (p : Player K) :
    (stepJump p).dashAvailable = p.dashAvailable ∧ (stepJump p).vel.x = p.vel.x ∧
      (stepJump p).vel.z = p.vel.z := by
  unfold stepJump
  split_ifs <;> exact ⟨rfl, rfl, rfl⟩

theorem resolveStep_fields (p : Player K) (c : Collider K) :
    (resolveStep p c).dashAvailable = p.dashAvailable ∧
      (resolveStep p c).jumpBuffer = p.jumpBuffer := by
  cases h : (playerOverlap p c).hit
  · rw [resolveStep_of_not_hit p c h]; exact ⟨rfl, rfl⟩
  · by_cases hx : (playerOverlap p c).ox ≤ (playerOverlap p c).oy ∧
        (playerOverlap p c).ox ≤ (playerOverlap p c).oz
    · rw [resolveStep_x p c h hx]; exact ⟨rfl, rfl⟩
    · by_cases hz : (playerOverlap p c).oz ≤ (playerOverlap p c).ox ∧
          (playerOverlap p c).oz ≤ (playerOverlap p c).oy
      · rw [resolveStep_z p c h hx hz]; exact ⟨rfl, rfl⟩
      · rw [resolveStep_y p c h hx hz]; exact ⟨rfl, rfl⟩

theorem resolve_fields (cs : List (Collider K)) (p : Player K) :
    (_resolvePlayerCollisions cs p).dashAvailable = p.dashAvailable ∧
      (_resolvePlayerCollisions cs p).jumpBuffer = p.jumpBuffer := by
  induction cs generalizing p with
  | nil => exact ⟨rfl, rfl⟩
  | cons c cs ih =>
    have e : _resolvePlayerCollisions (c :: cs) p =
        _resolvePlayerCollisions cs (resolveStep p c) := rfl
    rw [e, (ih _).1, (ih _).2]
    exact resolveStep_fields p c

omit [LinearOrderedField K] in
theorem restoreDash_fields (p : Player K) :
    (restoreDash p).grounded = p.grounded ∧ (restoreDash p).jumpBuffer = p.jumpBuffer ∧
      (restoreDash p).dashAvailable = (p.grounded || p.dashAvailable) := by
  unfold restoreDash
  cases hg : p.grounded <;> simp [hg]

theorem respawn_player (g : Game K) :
    (_respawn g).player.pos = g.player.spawn ∧ (_respawn g).player.vel = ⟨0, 0, 0⟩ ∧
      (_respawn g).player.grounded = false ∧ (_respawn g).player.groundPlatform = none ∧
      (_respawn g).player.dashAvailable = true ∧ (_respawn g).player.jumpBuffer = 0 ∧
      (_respawn g).player.dashing = false ∧ (_respawn g).player.dashTime = 0 :=
  ⟨rfl, rfl, rfl, rfl, rfl, rfl, rfl, rfl⟩

/-! ## C7 -/

/-- C7: in every `_stepPlayer` call the jump block fires exactly when, after
the timer updates of that call, `jumpBuffer > 0` and (`grounded` or
`coyote > 0`); when it fires, the vertical velocity becomes `9.2` and
`jumpBuffer`, `coyote`, `grounded`, `groundPlatform` are cleared, and
`jumpBuffer` is still 0 when the call ends; when it does not fire, the block
leaves the player as it was. -/
theorem stepPlayer_jump_rule (M : JSMath K) (dt : K) (g : Game K) :
    (jumpFires (stepTrace M dt g).preJump = true ↔
      0 < (stepTrace M dt g).timed.jumpBuffer ∧
        ((stepTrace M dt g).timed.grounded = true ∨ 0 < (stepTrace M dt g).timed.coyote)) ∧
    (jumpFires (stepTrace M dt g).preJump = true →
      (stepTrace M dt g).jumped.vel.y = 9.2 ∧ (stepTrace M dt g).jumped.jumpBuffer = 0 ∧
        (stepTrace M dt g).jumped.coyote = 0 ∧ (stepTrace M dt g).jumped.grounded = false ∧
        (stepTrace M dt g).jumped.groundPlatform = none ∧
        (_stepPlayer M dt g).player.jumpBuffer = 0) ∧
    (jumpFires (stepTrace M dt g).preJump = false →
      (stepTrace M dt g).jumped = (stepTrace M dt g).preJump) := by
  have hj : (stepTrace M dt g).jumped = stepJump (stepTrace M dt g).preJump := rfl
  have hpre : (stepTrace M dt g).preJump.jumpBuffer = (stepTrace M dt g).timed.jumpBuffer ∧
      (stepTrace M dt g).preJump.grounded = (stepTrace M dt g).timed.grounded ∧
      (stepTrace M dt g).preJump.coyote = (stepTrace M dt g).timed.coyote := by
    simp only [stepTrace]
    refine ⟨?_, ?_, ?_⟩
    · rw [(stepHorizontal_fields _ _ _ _ _ _).1, (stepGravity_fields _ _).1,
        (stepDashTimer_fields _ _).1, (stepDash_fields _ _ _ _ _).1,
        (stepFacing_fields _ _ _).2.2.1]
    · rw [(stepHorizontal_fields _ _ _ _ _ _).2.1, (stepGravity_fields _ _).2.1,
        (stepDashTimer_fields _ _).2.1, (stepDash_fields _ _ _ _ _).2.1,
        (stepFacing_fields _ _ _).2.2.2.1]
    · rw [(stepHorizontal_fields _ _ _ _ _ _).2.2.1, (stepGravity_fields _ _).2.2.1,
        (stepDashTimer_fields _ _).2.2.1, (stepDash_fields _ _ _ _ _).2.2.1,
        (stepFacing_fields _ _ _).2.2.2.2.1]
  refine ⟨?_, ?_, ?_⟩
  · rw [← hpre.1, ← hpre.2.1, ← hpre.2.2]
    simp [jumpFires]
  · intro hf
    have hjb : (stepTrace M dt g).jumped.jumpBuffer = 0 := by
      rw [hj]; simp [stepJump, hf]
    refine ⟨by rw [hj]; simp [stepJump, hf], hjb, by rw [hj]; simp [stepJump, hf],
      by rw [hj]; simp [stepJump, hf], by rw [hj]; simp [stepJump, hf], ?_⟩
    cases hr : respawns M dt g
    · rw [stepPlayer_player_of_not_respawns M dt g hr]
      have hfin : (stepTrace M dt g).final =
          restoreDash (_resolvePlayerCollisions (colliders g)
            (clearGround (stepIntegrate dt (stepTrace M dt g).jumped))) := rfl
      rw [hfin, (restoreDash_fields _).2.1, (resolve_fields _ _).2]
      exact hjb
    · rw [stepPlayer_of_respawns M dt g hr]
      rfl
  · intro hf
    rw [hj]
    simp [stepJump, hf]

/-! ## C8 -/

theorem stepTrace_faced_fields (M : JSMath K) (dt : K) (g : Game K) :
    (stepTrace M dt g).faced.dashAvailable = g.player.dashAvailable ∧
      (stepTrace M dt g).faced.dashing = g.player.dashing := by
  simp only [stepTrace]
  constructor
  · rw [(stepFacing_fields _ _ _).1, (stepTimers_fields _ _ _).1, (stepCarry_fields _ _).1]
  · rw [(stepFacing_fields _ _ _).2.1, (stepTimers_fields _ _ _).2.1, (stepCarry_fields _ _).2.1]

theorem stepTrace_dashed_dashAvailable (M : JSMath K) (dt : K) (g : Game K) :
    (stepTrace M dt g).dashed.dashAvailable =
      (g.player.dashAvailable &&
        !dashFires (stepTrace M dt g).dashPressed (stepTrace M dt g).faced) := by
  have hd : (stepTrace M dt g).dashed =
      stepDash (stepTrace M dt g).dashPressed (stepTrace M dt g).wish (stepTrace M dt g).away
        (dashSpeed g.difficulty) (stepTrace M dt g).faced := rfl
  rw [hd, ← (stepTrace_faced_fields M dt g).1]
  unfold stepDash
  cases hf : dashFires (stepTrace M dt g).dashPressed (stepTrace M dt g).faced
  · simp
  · simp

theorem stepTrace_final_dashAvailable (M : JSMath K) (dt : K) (g : Game K) :
    (stepTrace M dt g).final.dashAvailable =
      ((stepTrace M dt g).final.grounded || (stepTrace M dt g).dashed.dashAvailable) := by
  have hfin : (stepTrace M dt g).final =
      restoreDash (_resolvePlayerCollisions (colliders g)
        (clearGround (stepIntegrate dt (stepJump
          (stepHorizontal M dt (stepTrace M dt g).wish (maxSpeed g.difficulty)
            (if (stepTrace M dt g).faced.grounded then 36.0 else 18.0)
            (stepGravity dt (stepDashTimer dt (stepTrace M dt g).dashed))))))) := rfl
  rw [hfin, (restoreDash_fields _).2.2, (restoreDash_fields _).1, (resolve_fields _ _).1]
  have e : (clearGround (stepIntegrate dt (stepJump
      (stepHorizontal M dt (stepTrace M dt g).wish (maxSpeed g.difficulty)
        (if (stepTrace M dt g).faced.grounded then 36.0 else 18.0)
        (stepGravity dt (stepDashTimer dt (stepTrace M dt g).dashed)))))).dashAvailable =
      (stepTrace M dt g).dashed.dashAvailable := by
    show (stepJump _).dashAvailable = _
    rw [(stepJump_fields _).1, (stepHorizontal_fields _ _ _ _ _ _).2.2.2.2.1,
      (stepGravity_fields _ _).2.2.2.2, (stepDashTimer_fields _ _).2.2.2.2]
  rw [e]

/-- C8, as the code has it.  In a `_stepPlayer` call in which a dash fires,
`dashAvailable` is false right after the dash block, and at the end of the
call, unless the call respawns, it equals `grounded`: it is false unless the
resolution pass of that same call grounds the player.  A call that starts
with `dashAvailable` false and ends with it true either ends with `grounded`
true or has respawned; a respawning call ends with `dashAvailable` true and
`grounded` false. -/
theorem stepPlayer_dash_availability (M : JSMath K) (dt : K) (g : Game K) :
    (dashFires (stepTrace M dt g).dashPressed (stepTrace M dt g).faced = true →
      (stepTrace M dt g).dashed.dashAvailable = false ∧
        (respawns M dt g = false →
          (_stepPlayer M dt g).player.dashAvailable = (_stepPlayer M dt g).player.grounded)) ∧
    (g.player.dashAvailable = false → (_stepPlayer M dt g).player.dashAvailable = true →
      (_stepPlayer M dt g).player.grounded = true ∨ respawns M dt g = true) ∧
    (respawns M dt g = true →
      (_stepPlayer M dt g).player.dashAvailable = true ∧
        (_stepPlayer M dt g).player.grounded = false) := by
  have hd := stepTrace_dashed_dashAvailable M dt g
  have hf := stepTrace_final_dashAvailable M dt g
  refine ⟨?_, ?_, ?_⟩
  · intro hfire
    have hda : (stepTrace M dt g).dashed.dashAvailable = false := by
      rw [hd, hfire]; simp
    refine ⟨hda, fun hr => ?_⟩
    rw [stepPlayer_player_of_not_respawns M dt g hr, hf, hda]
    simp
  · intro h0 h1
    cases hr : respawns M dt g
    · left
      rw [stepPlayer_player_of_not_respawns M dt g hr] at h1 ⊢
      rw [hf, hd, h0] at h1
      simpa using h1
    · right; rfl
  · intro hr
    rw [stepPlayer_of_respawns M dt g hr]
    exact ⟨rfl, rfl⟩

/-- Counterexample to C8 as stated.  (1) The airborne player dashes onto a
ledge whose top is `0.05` above its feet: the dash fires, the call does not
respawn, the pass pushes the player up onto the ledge, and `dashAvailable` is
true again at the end of that same call.  (2) The player, its dash used,
falls below the death plane: the call starts with `dashAvailable` false and
ends with it true while `grounded` is false. -/
theorem stepPlayer_dash_availability_counterexample :
    (dashFires (stepTrace coarseMath (1 / 30) ledgeGame).dashPressed
        (stepTrace coarseMath (1 / 30) ledgeGame).faced = true ∧
      respawns coarseMath (1 / 30) ledgeGame = false ∧
      (_stepPlayer coarseMath (1 / 30) ledgeGame).player.pos = ⟨0, 1.4, 2 / 3⟩ ∧
      (_stepPlayer coarseMath (1 / 30) ledgeGame).player.dashAvailable = true) ∧
    (fallOutGame.player.dashAvailable = false ∧
      respawns coarseMath (1 / 30) fallOutGame = true ∧
      (_stepPlayer coarseMath (1 / 30) fallOutGame).player.dashAvailable = true ∧
      (_stepPlayer coarseMath (1 / 30) fallOutGame).player.grounded = false) := by
  have hr : respawns coarseMath (1 / 30) fallOutGame = true := by
    norm_num [respawns, hitsEnemy, stepTrace, fallOutGame, emptyGame, playerAt, Player.init,
      coarseMath, stepCarry, _inputAxes, stepTimers, _cameraRelativeAxes, rawWish, wishVector,
      stepFacing, stepDash, dashFires, dashSpeed, maxSpeed, stepDashTimer, stepGravity,
      stepHorizontal, stepJump, jumpFires, stepIntegrate, clearGround, restoreDash,
      _resolvePlayerCollisions, colliders, resolveStep, playerOverlap, aabbOverlap, AABB.min,
      AABB.max, Vector3.sub, Vector3.add, Vector3.zero, Vector3.addScaledVector,
      Vector3.multiplyScalar, Vector3.lengthSq, Vector3.length, Vector3.normalize,
      Vector3.cross, Vector3.lerp]
  refine ⟨⟨?_, ?_, ?_, ?_⟩, ?_, hr, ?_, ?_⟩
  · norm_num [stepTrace, ledgeGame, emptyGame, playerAt, Player.init, coarseMath,
      stepCarry, _inputAxes, stepTimers, _cameraRelativeAxes, rawWish, wishVector, stepFacing,
      dashFires, Vector3.sub, Vector3.zero, Vector3.addScaledVector, Vector3.multiplyScalar,
      Vector3.lengthSq, Vector3.length, Vector3.normalize, Vector3.cross]
  · norm_num [respawns, hitsEnemy, stepTrace, ledgeGame, emptyGame, playerAt, Player.init,
      coarseMath, stepCarry, _inputAxes, stepTimers, _cameraRelativeAxes, rawWish, wishVector,
      stepFacing, stepDash, dashFires, dashSpeed, maxSpeed, stepDashTimer, stepGravity,
      stepHorizontal, stepJump, jumpFires, stepIntegrate, clearGround, restoreDash,
      _resolvePlayerCollisions, colliders, resolveStep, playerOverlap, aabbOverlap, AABB.min,
      AABB.max, Vector3.sub, Vector3.add, Vector3.zero, Vector3.addScaledVector,
      Vector3.multiplyScalar, Vector3.lengthSq, Vector3.length, Vector3.normalize,
      Vector3.cross, Vector3.lerp]
  · norm_num [_stepPlayer, _respawn, hitsEnemy, stepTrace, ledgeGame, emptyGame, playerAt,
      Player.init, coarseMath, stepCarry, _inputAxes, stepTimers, _cameraRelativeAxes, rawWish,
      wishVector, stepFacing, stepDash, dashFires, dashSpeed, maxSpeed, stepDashTimer,
      stepGravity, stepHorizontal, stepJump, jumpFires, stepIntegrate, clearGround, restoreDash,
      _resolvePlayerCollisions, colliders, resolveStep, playerOverlap, aabbOverlap, AABB.min,
      AABB.max, Vector3.sub, Vector3.add, Vector3.zero, Vector3.addScaledVector,
      Vector3.multiplyScalar, Vector3.lengthSq, Vector3.length, Vector3.normalize,
      Vector3.cross, Vector3.lerp]
  · norm_num [_stepPlayer, _respawn, hitsEnemy, stepTrace, ledgeGame, emptyGame, playerAt,
      Player.init, coarseMath, stepCarry, _inputAxes, stepTimers, _cameraRelativeAxes, rawWish,
      wishVector, stepFacing, stepDash, dashFires, dashSpeed, maxSpeed, stepDashTimer,
      stepGravity, stepHorizontal, stepJump, jumpFires, stepIntegrate, clearGround, restoreDash,
      _resolvePlayerCollisions, colliders, resolveStep, playerOverlap, aabbOverlap, AABB.min,
      AABB.max, Vector3.sub, Vector3.add, Vector3.zero, Vector3.addScaledVector,
      Vector3.multiplyScalar, Vector3.lengthSq, Vector3.length, Vector3.normalize,
      Vector3.cross, Vector3.lerp]
  · rfl
  · rw [stepPlayer_of_respawns _ _ _ hr]; rfl
  · rw [stepPlayer_of_respawns _ _ _ hr]; rfl

/-! ## C9 -/

theorem lengthSq_pos_iff (v : Vector3 K) : 0 < v.lengthSq ↔ v ≠ Vector3.zero := by
  constructor
  · intro h hv
    rw [hv] at h
    simp [Vector3.lengthSq, Vector3.zero] at h
  · intro hv
    have h0 : 0 ≤ v.lengthSq := by
      unfold Vector3.lengthSq
      nlinarith [mul_self_nonneg v.x, mul_self_nonneg v.y, mul_self_nonneg v.z]
    rcases h0.lt_or_eq with h | h
    · exact h
    · exfalso
      apply hv
      have hx := mul_self_nonneg v.x
      have hy := mul_self_nonneg v.y
      have hz := mul_self_nonneg v.z
      unfold Vector3.lengthSq at h
      have ex : v.x * v.x = 0 := by linarith
      have ey : v.y * v.y = 0 := by linarith
      have ez : v.z * v.z = 0 := by linarith
      cases v
      simp only [Vector3.zero, Vector3.mk.injEq]
      exact ⟨mul_self_eq_zero.1 ex, mul_self_eq_zero.1 ey, mul_self_eq_zero.1 ez⟩

/-- C9, as the code has it.  A dash fires in a `_stepPlayer` call exactly
when dash is held this frame and was not held the previous frame,
`dashAvailable` is true and `dashing` is false.  When it fires, the velocity
is set to `dashSpeed` times the wish direction if the wish vector is
non-zero, and otherwise to `dashSpeed` times the camera axis `away` of
`_cameraRelativeAxes` (the horizontal direction from the camera to the
player, `(0,0,1)` when degenerate), not the facing vector; the vertical
component is 0 in both cases. -/
theorem stepPlayer_dash_rule (M : JSMath K) (dt : K) (g : Game K) :
    (dashFires (stepTrace M dt g).dashPressed (stepTrace M dt g).faced = true ↔
      (_inputAxes g).dashHeld = true ∧ g._prevDashHeld = false ∧
        g.player.dashAvailable = true ∧ g.player.dashing = false) ∧
    (dashFires (stepTrace M dt g).dashPressed (stepTrace M dt g).faced = true →
      ((stepTrace M dt g).wish ≠ Vector3.zero →
        (stepTrace M dt g).dashed.vel =
          ⟨(stepTrace M dt g).wish.x * dashSpeed g.difficulty, 0,
            (stepTrace M dt g).wish.z * dashSpeed g.difficulty⟩) ∧
      ((stepTrace M dt g).wish = Vector3.zero →
        (stepTrace M dt g).dashed.vel =
          ⟨(stepTrace M dt g).away.x * dashSpeed g.difficulty, 0,
            (stepTrace M dt g).away.z * dashSpeed g.difficulty⟩)) ∧
    (stepTrace M dt g).away =
      (_cameraRelativeAxes M (stepTrace M dt g).carried.pos g.cameraPosition).1 ∧
    (stepTrace M dt g).wish =
      wishVector M (rawWish (_inputAxes g) (stepTrace M dt g).away
        (_cameraRelativeAxes M (stepTrace M dt g).carried.pos g.cameraPosition).2) := by
  have hd : (stepTrace M dt g).dashed =
      stepDash (stepTrace M dt g).dashPressed (stepTrace M dt g).wish (stepTrace M dt g).away
        (dashSpeed g.difficulty) (stepTrace M dt g).faced := rfl
  have hp : (stepTrace M dt g).dashPressed = ((_inputAxes g).dashHeld && !g._prevDashHeld) := rfl
  have hpos : (stepTrace M dt g).timed.pos = (stepTrace M dt g).carried.pos := by
    simp only [stepTrace, stepTimers]
    split_ifs <;> rfl
  have ha : (stepTrace M dt g).away =
      (_cameraRelativeAxes M (stepTrace M dt g).carried.pos g.cameraPosition).1 := by
    show (_cameraRelativeAxes M (stepTrace M dt g).timed.pos g.cameraPosition).1 = _
    rw [hpos]
  refine ⟨?_, ?_, ?_, ?_⟩
  · unfold dashFires
    rw [hp, (stepTrace_faced_fields M dt g).1, (stepTrace_faced_fields M dt g).2]
    simp [and_assoc]
  · intro hf
    constructor
    · intro hw
      have hw' := (lengthSq_pos_iff _).2 hw
      rw [hd]
      simp only [stepDash, hf, hw', Vector3.multiplyScalar, if_true]
      norm_num
    · intro hw
      have hw' : ¬ (0 < (stepTrace M dt g).wish.lengthSq) := by
        rw [lengthSq_pos_iff]; exact fun h => h hw
      rw [hd]
      simp only [stepDash, hf, hw', Vector3.multiplyScalar, if_true, if_false]
      norm_num
  · exact ha
  · rw [ha]
    show wishVector M (rawWish (_inputAxes g)
        (_cameraRelativeAxes M (stepTrace M dt g).timed.pos g.cameraPosition).1
        (_cameraRelativeAxes M (stepTrace M dt g).timed.pos g.cameraPosition).2) = _
    rw [hpos]

/-- Counterexample to C9 as stated: the player faces along x, the camera is
right below the player so that `away = (0,0,1)`, no direction is held and the
dash fires.  The velocity becomes `(0,0,20)`, `dashSpeed` times `away`, and
not `dashSpeed` times the facing vector, `(20,0,0)`. -/
theorem stepPlayer_dash_rule_counterexample :
    dashFires (stepTrace coarseMath (1 / 30) sideFacingGame).dashPressed
        (stepTrace coarseMath (1 / 30) sideFacingGame).faced = true ∧
      (stepTrace coarseMath (1 / 30) sideFacingGame).wish = ⟨0, 0, 0⟩ ∧
      (stepTrace coarseMath (1 / 30) sideFacingGame).faced.facing = ⟨1, 0, 0⟩ ∧
      (stepTrace coarseMath (1 / 30) sideFacingGame).away = ⟨0, 0, 1⟩ ∧
      (stepTrace coarseMath (1 / 30) sideFacingGame).dashed.vel = ⟨0, 0, 20⟩ ∧
      (stepTrace coarseMath (1 / 30) sideFacingGame).dashed.vel ≠
        { Vector3.multiplyScalar (stepTrace coarseMath (1 / 30) sideFacingGame).faced.facing
            (dashSpeed sideFacingGame.difficulty) with y := 0 } := by
  refine ⟨?_, ?_, ?_, ?_, ?_, ?_⟩ <;>
  norm_num [stepTrace, sideFacingGame, emptyGame, playerAt, Player.init, coarseMath,
    stepCarry, _inputAxes, stepTimers, _cameraRelativeAxes, rawWish, wishVector, stepFacing,
    stepDash, dashFires, dashSpeed, Vector3.sub, Vector3.zero, Vector3.addScaledVector,
    Vector3.multiplyScalar, Vector3.lengthSq, Vector3.length, Vector3.normalize, Vector3.cross]

/-! ## C10 -/

theorem LEVEL_COUNT_eq : LEVEL_COUNT = 7 := rfl

theorem LEVELS_length : (LEVELS K).length = 7 := rfl

theorem tmod_wrap (index : Int) : Int.tmod (Int.tmod index 7 + 7) 7 = index % 7 := by
  have hb : -7 < Int.tmod index 7 ∧ Int.tmod index 7 < 7 ∧
      (Int.tmod index 7 - index) % 7 = 0 := by
    cases index with
    | ofNat n =>
      have : Int.tmod (Int.ofNat n) 7 = ((n % 7 : Nat) : Int) := rfl
      rw [this]
      simp only [Int.ofNat_eq_coe]
      omega
    | negSucc n =>
      have : Int.tmod (Int.negSucc n) 7 = -(((n + 1) % 7 : Nat) : Int) := rfl
      rw [this, Int.negSucc_eq]
      omega
  rw [Int.tmod_eq_emod (by omega) (by omega)]
  omega

theorem loadLevel_levelIndex (g : Game K) (h0 : 0 ≤ g.levelIndex) (h1 : g.levelIndex < 7) :
    ∃ g', _loadLevel g = some g' ∧ g'.levelIndex = g.levelIndex := by
  unfold _loadLevel
  rw [if_neg (not_lt.2 h0)]
  cases hl : (LEVELS K).get? g.levelIndex.toNat with
  | none =>
    rw [List.get?_eq_none] at hl
    rw [LEVELS_length] at hl
    omega
  | some lvl => exact ⟨_, rfl, rfl⟩

theorem goToLevel_spec (index : Int) (g : Game K) :
    ∃ g', goToLevel index g = some g' ∧ g'.levelIndex = index % 7 := by
  unfold goToLevel _rebuildWorld
  simp only [LEVEL_COUNT_eq, tmod_wrap]
  have h0 : 0 ≤ index % 7 := Int.emod_nonneg _ (by decide)
  have h1 : index % 7 < 7 := Int.emod_lt_of_pos _ (by decide)
  exact loadLevel_levelIndex (_clearWorld { g with levelIndex := index % 7 }) h0 h1

/-- C10: for every integer `index`, `goToLevel(index)` completes and sets
`levelIndex` to the unique `r` with `0 ≤ r < LEVEL_COUNT` congruent to
`index` modulo `LEVEL_COUNT`, where `LEVEL_COUNT = 7`; `nextLevel()` from the
last level, `levelIndex = 6`, sets `levelIndex` to 0, and from any other
level `i` sets it to `i + 1`. -/
theorem goToLevel_nextLevel_levelIndex (index : Int) (g : Game K) :
    LEVEL_COUNT = 7 ∧
    (∃ g', goToLevel index g = some g' ∧
      0 ≤ g'.levelIndex ∧ g'.levelIndex < LEVEL_COUNT ∧
      g'.levelIndex ≡ index [ZMOD LEVEL_COUNT] ∧
      ∀ r : Int, 0 ≤ r → r < LEVEL_COUNT → r ≡ index [ZMOD LEVEL_COUNT] → r = g'.levelIndex) ∧
    (g.levelIndex = LEVEL_COUNT - 1 → ∃ g', nextLevel g = some g' ∧ g'.levelIndex = 0) ∧
    (0 ≤ g.levelIndex → g.levelIndex < LEVEL_COUNT - 1 →
      ∃ g', nextLevel g = some g' ∧ g'.levelIndex = g.levelIndex + 1) := by
  refine ⟨rfl, ?_, ?_, ?_⟩
  · obtain ⟨g', hg, hi⟩ := goToLevel_spec index g
    refine ⟨g', hg, ?_, ?_, ?_, ?_⟩
    · rw [hi]; exact Int.emod_nonneg _ (by decide)
    · rw [hi, LEVEL_COUNT_eq]; exact Int.emod_lt_of_pos _ (by decide)
    · rw [hi, LEVEL_COUNT_eq]; exact Int.mod_modEq _ _
    · intro r hr0 hr1 hr
      rw [hi]
      rw [LEVEL_COUNT_eq] at hr1 hr
      unfold Int.ModEq at hr
      omega
  · intro hl
    rw [LEVEL_COUNT_eq] at hl
    obtain ⟨g', hg, hi⟩ := goToLevel_spec (Int.tmod (g.levelIndex + 1) LEVEL_COUNT) g
    refine ⟨g', hg, ?_⟩
    rw [hi, hl, LEVEL_COUNT_eq]
    decide
  · intro h0 h1
    rw [LEVEL_COUNT_eq] at h1
    obtain ⟨g', hg, hi⟩ := goToLevel_spec (Int.tmod (g.levelIndex + 1) LEVEL_COUNT) g
    refine ⟨g', hg, ?_⟩
    rw [hi, LEVEL_COUNT_eq, Int.tmod_eq_emod (by omega) (by decide)]
    omega

/-! ## C11 -/

theorem respawn_levelFlags (g : Game K) : levelFlags (_respawn g) = levelFlags g := rfl

theorem stepPlayer_levelFlags (M : JSMath K) (dt : K) (g : Game K) :
    levelFlags (_stepPlayer M dt g) = levelFlags g := by
  unfold _stepPlayer
  simp only []
  split_ifs <;> rfl

theorem stepPlayer_goal (M : JSMath K) (dt : K) (g : Game K) :
    (_stepPlayer M dt g).goal = g.goal := by
  unfold _stepPlayer
  simp only []
  split_ifs <;> rfl

theorem updateGoal_eq (M : JSMath K) (g : Game K) :
    _updateGoal M g =
      if inGoal M g = true ∧ g._pendingAdvance = false ∧ g._advancing = false then
        { g with _pendingAdvance := true, _pendingIndex := Int.tmod (g.levelIndex + 1) LEVEL_COUNT }
      else g := by
  unfold _updateGoal inGoal
  cases hg : g.goal with
  | none => simp
  | some goal =>
    by_cases hd : Vector3.distanceTo M g.player.pos goal.pos < goal.radius
    · cases hp : g._pendingAdvance <;> cases ha : g._advancing <;> simp [hd]
    · simp [hd]

theorem updateGoal_levelFlags (M : JSMath K) (g : Game K) :
    (_updateGoal M g).levelIndex = g.levelIndex ∧ (_updateGoal M g)._advancing = g._advancing := by
  rw [updateGoal_eq]
  split_ifs <;> exact ⟨rfl, rfl⟩

theorem updateBody_eq (M : JSMath K) (inp : FrameInput K) (g : Game K) :
    levelFlags (updateBody M inp g) =
      levelFlags (_updateGoal M
        (_updateCollectibles M inp.now
          (_updateEnemies M (Min.min inp.delta (1 / 30))
            (_updateMovingPlatforms M (Min.min inp.delta (1 / 30)) g)))) := by
  unfold updateBody
  simp only []
  exact stepPlayer_levelFlags M _ _

theorem updateBody_flags (M : JSMath K) (inp : FrameInput K) (g : Game K) :
    levelFlags (updateBody M inp g) =
      if inGoal M g = true ∧ g._pendingAdvance = false ∧ g._advancing = false then
        (g.levelIndex, false, true, Int.tmod (g.levelIndex + 1) LEVEL_COUNT)
      else levelFlags g := by
  rw [updateBody_eq, updateGoal_eq]
  have hin : inGoal M (_updateCollectibles M inp.now
      (_updateEnemies M (Min.min inp.delta (1 / 30))
        (_updateMovingPlatforms M (Min.min inp.delta (1 / 30)) g))) = inGoal M g := rfl
  rw [hin]
  by_cases h : inGoal M g = true ∧ g._pendingAdvance = false ∧ g._advancing = false
  · rw [if_pos h, if_pos]
    · simp only [levelFlags, _updateCollectibles, _updateEnemies, _updateMovingPlatforms]
      rw [h.2.2]
    · exact h
  · rw [if_neg h, if_neg]
    · rfl
    · exact h

omit [LinearOrderedField K] in
theorem updateTail_flags (g : Game K) :
    levelFlags (updateTail g) =
      if startsRebuild g = true then
        (Int.tmod (Int.tmod g._pendingIndex LEVEL_COUNT + LEVEL_COUNT) LEVEL_COUNT,
          true, false, g._pendingIndex)
      else levelFlags g := by
  unfold updateTail
  split_ifs <;> rfl

theorem rebuildsStarted_of_advancing (M : JSMath K) (inps : List (FrameInput K)) (g : Game K)
    (h : g._advancing = true) : rebuildsStarted M inps g = 0 := by
  induction inps generalizing g with
  | nil => rfl
  | cons inp inps ih =>
    have hb := updateBody_flags M inp g
    rw [if_neg (by simp [h])] at hb
    have ha : (updateBody M inp g)._advancing = true := by
      have := congrArg (fun f => f.2.1) hb
      simpa [levelFlags, h] using this
    have hs : startsRebuild (updateBody M inp g) = false := by
      simp [startsRebuild, ha]
    have hu : update M inp g = updateBody M inp g := by
      simp [update, updateTail, hs]
    simp only [rebuildsStarted, hs, hu]
    simpa using ih _ ha

theorem update_advancing_of_starts (M : JSMath K) (inp : FrameInput K) (g : Game K)
    (h : startsRebuild (updateBody M inp g) = true) : (update M inp g)._advancing = true := by
  have := updateTail_flags (updateBody M inp g)
  rw [if_pos h] at this
  exact congrArg (fun f => f.2.1) this

theorem rebuildsStarted_le_one (M : JSMath K) (inps : List (FrameInput K)) (g : Game K) :
    rebuildsStarted M inps g ≤ 1 := by
  induction inps generalizing g with
  | nil => exact Nat.zero_le _
  | cons inp inps ih =>
    cases hs : startsRebuild (updateBody M inp g)
    · simp only [rebuildsStarted, hs]
      simpa using ih _
    · simp only [rebuildsStarted, hs, if_true,
        rebuildsStarted_of_advancing M inps _ (update_advancing_of_starts M inp g hs)]
      exact le_refl _

theorem loadLevel_levelFlags (g g1 : Game K) (h : _loadLevel g = some g1) :
    levelFlags g1 = levelFlags g := by
  unfold _loadLevel at h
  split_ifs at h
  split at h
  · exact absurd h (by simp)
  · rw [← Option.some.inj h]; rfl

theorem rebuildComplete_pending (g : Game K) :
    (rebuildComplete g)._pendingIndex = g._pendingIndex ∧
      (rebuildComplete g)._pendingAdvance = g._pendingAdvance := by
  unfold rebuildComplete
  cases h : _loadLevel g with
  | none => exact ⟨rfl, rfl⟩
  | some g1 =>
    have hf := loadLevel_levelFlags g g1 h
    exact ⟨congrArg (fun f => f.2.2.2) hf, congrArg (fun f => f.2.2.1) hf⟩

/-- C11: over runs made of `update()` calls (goal check, then the pending
change is taken at the end of the call) and rebuild completions.  The
pending target is set by `_updateGoal` only when no request is pending and no
rebuild is in flight; `update()` does not overwrite it while one is pending
or in flight, nor does a completion; a run of `update()` calls with no
completion in between starts at most one rebuild; and when the player is
within the goal radius at the first call, with nothing pending or in flight,
such a run starts exactly one, whatever the later calls see. -/
theorem update_single_rebuild (M : JSMath K) :
    (∀ g : Game K,
      (_updateGoal M g)._pendingAdvance ≠ g._pendingAdvance ∨
          (_updateGoal M g)._pendingIndex ≠ g._pendingIndex →
        g._pendingAdvance = false ∧ g._advancing = false) ∧
    (∀ (inp : FrameInput K) (g : Game K), g._pendingAdvance = true ∨ g._advancing = true →
      (update M inp g)._pendingIndex = g._pendingIndex) ∧
    (∀ g : Game K, (rebuildComplete g)._pendingIndex = g._pendingIndex ∧
      (rebuildComplete g)._pendingAdvance = g._pendingAdvance) ∧
    (∀ (inps : List (FrameInput K)) (g : Game K), rebuildsStarted M inps g ≤ 1) ∧
    (∀ (inp : FrameInput K) (inps : List (FrameInput K)) (g : Game K),
      g._pendingAdvance = false → g._advancing = false → inGoal M g = true →
        rebuildsStarted M (inp :: inps) g = 1 ∧
          (update M inp g)._pendingIndex = Int.tmod (g.levelIndex + 1) LEVEL_COUNT ∧
          (update M inp g)._advancing = true ∧ (update M inp g)._pendingAdvance = false) := by
  refine ⟨?_, ?_, rebuildComplete_pending, rebuildsStarted_le_one M, ?_⟩
  · intro g h
    rw [updateGoal_eq] at h
    by_cases hc : inGoal M g = true ∧ g._pendingAdvance = false ∧ g._advancing = false
    · exact hc.2
    · rw [if_neg hc] at h
      simp at h
  · intro inp g h
    have hb := updateBody_flags M inp g
    have hn : ¬ (inGoal M g = true ∧ g._pendingAdvance = false ∧ g._advancing = false) := by
      rintro ⟨_, h1, h2⟩
      rcases h with h | h
      · rw [h1] at h; exact Bool.noConfusion h
      · rw [h2] at h; exact Bool.noConfusion h
    rw [if_neg hn] at hb
    have ht := updateTail_flags (updateBody M inp g)
    have hpi : (updateBody M inp g)._pendingIndex = g._pendingIndex :=
      congrArg (fun f => f.2.2.2) hb
    have : (update M inp g)._pendingIndex = (updateBody M inp g)._pendingIndex := by
      have h4 := congrArg (fun f => f.2.2.2) ht
      unfold update
      split_ifs at h4 <;> exact h4
    rw [this, hpi]
  · intro inp inps g hp ha hin
    have hb := updateBody_flags M inp g
    rw [if_pos ⟨hin, hp, ha⟩] at hb
    have hs : startsRebuild (updateBody M inp g) = true := by
      have h2 : (updateBody M inp g)._advancing = false := congrArg (fun f => f.2.1) hb
      have h3 : (updateBody M inp g)._pendingAdvance = true := congrArg (fun f => f.2.2.1) hb
      simp [startsRebuild, h2, h3]
    have ht := updateTail_flags (updateBody M inp g)
    rw [if_pos hs] at ht
    have hpi : (updateBody M inp g)._pendingIndex = Int.tmod (g.levelIndex + 1) LEVEL_COUNT :=
      congrArg (fun f => f.2.2.2) hb
    refine ⟨?_, ?_, congrArg (fun f => f.2.1) ht, congrArg (fun f => f.2.2.1) ht⟩
    · simp only [rebuildsStarted, hs, if_true,
        rebuildsStarted_of_advancing M inps _ (update_advancing_of_starts M inp g hs)]
    · have h4 : (update M inp g)._pendingIndex = (updateBody M inp g)._pendingIndex :=
        congrArg (fun f => f.2.2.2) ht
      rw [h4, hpi]

/-- Witness of C11: the player stands in the goal for three `update()`
calls; exactly one rebuild is started. -/
theorem update_single_rebuild_witness :
    inGoal coarseMath goalGame = true ∧
      rebuildsStarted coarseMath [frameInput, frameInput, frameInput] goalGame = 1 :=
  have h : inGoal coarseMath goalGame = true := by
    norm_num [inGoal, goalGame, emptyGame, coarseMath, Player.init, Vector3.distanceTo,
      Vector3.lengthSq, Vector3.sub, Vector3.zero]
  ⟨h, ((update_single_rebuild coarseMath).2.2.2.2 frameInput [frameInput, frameInput] goalGame
    rfl rfl h).1⟩

/-! ## C12 -/

/-- C12, as the code has it: while `_advancing` is true the enqueue attempts
of the frame loop are dropped: `_updateGoal` and `update()` leave
`levelIndex`, `_advancing`, `_pendingAdvance` and `_pendingIndex` unchanged
and `update()` starts no rebuild.  `goToLevel` and `nextLevel` carry no such
guard: called while `_advancing` is true, `goToLevel(index)` stores the
normalised index in `levelIndex` and clears the world at once, and run to
completion it loads that level (`update()` itself calls it with `_advancing`
already set). -/
theorem advancing_drops_frame_requests (M : JSMath K) (inp : FrameInput K) (index : Int)
    (g : Game K) (h : g._advancing = true) :
    levelFlags (_updateGoal M g) = levelFlags g ∧
    levelFlags (update M inp g) = levelFlags g ∧
    startsRebuild (updateBody M inp g) = false ∧
    update M inp g = updateBody M inp g ∧
    (goToLevelStart index g).levelIndex = index % 7 ∧
    (goToLevelStart index g).platforms = [] ∧
    (∃ g', goToLevel index g = some g' ∧ g'.levelIndex = index % 7) := by
  have hb := updateBody_flags M inp g
  rw [if_neg (by simp [h])] at hb
  have ha : (updateBody M inp g)._advancing = true := by
    have := congrArg (fun f => f.2.1) hb
    simpa [levelFlags, h] using this
  have hs : startsRebuild (updateBody M inp g) = false := by
    simp [startsRebuild, ha]
  have hu : update M inp g = updateBody M inp g := by
    simp [update, updateTail, hs]
  refine ⟨?_, ?_, hs, hu, ?_, rfl, goToLevel_spec index g⟩
  · rw [updateGoal_eq, if_neg (by simp [h])]
  · rw [hu, hb]
  · show Int.tmod (Int.tmod index LEVEL_COUNT + LEVEL_COUNT) LEVEL_COUNT = index % 7
    rw [LEVEL_COUNT_eq, tmod_wrap]

/-- Witness of C12: a game with a rebuild in flight. -/
theorem advancing_drops_frame_requests_witness :
    (advancingGame : Game ℚ)._advancing = true ∧
      levelFlags (update coarseMath frameInput advancingGame) = levelFlags advancingGame :=
  ⟨rfl, (advancing_drops_frame_requests coarseMath frameInput 3 advancingGame rfl).2.1⟩

/-- Counterexample to C12 as stated: with a rebuild in flight on level 0,
`goToLevel(3)` sets `levelIndex` to 3 and `nextLevel()` sets it to 1, and the
call clears the world, that is, starts a second rebuild. -/
theorem goToLevel_while_advancing_counterexample :
    (advancingGame : Game ℚ)._advancing = true ∧ (advancingGame : Game ℚ).levelIndex = 0 ∧
      (goToLevelStart 3 (advancingGame : Game ℚ)).levelIndex = 3 ∧
      (∃ g', goToLevel 3 (advancingGame : Game ℚ) = some g' ∧ g'.levelIndex = 3 ∧
        g'.levelIndex ≠ (advancingGame : Game ℚ).levelIndex) ∧
      (∃ g', nextLevel (advancingGame : Game ℚ) = some g' ∧ g'.levelIndex = 1) := by
  refine ⟨rfl, rfl, by decide, ?_, ?_⟩
  · obtain ⟨g', hg, hi⟩ := goToLevel_spec 3 (advancingGame : Game ℚ)
    refine ⟨g', hg, by rw [hi]; decide, ?_⟩
    rw [hi]
    show (3 : Int) % 7 ≠ 0
    decide
  · obtain ⟨g', hg, hi⟩ :=
      goToLevel_spec (Int.tmod ((advancingGame : Game ℚ).levelIndex + 1) LEVEL_COUNT)
        (advancingGame : Game ℚ)
    refine ⟨g', hg, ?_⟩
    rw [hi]
    decide

/-! ## C13 -/

theorem stepCarry_keeps (mps : List (MovingPlatform K)) (p : Player K) :
    (stepCarry mps p).spawn = p.spawn ∧ (stepCarry mps p).dashTime = p.dashTime ∧
      (stepCarry mps p).vel = p.vel ∧ (stepCarry mps p).coyote = p.coyote ∧
      (stepCarry mps p).jumpBuffer = p.jumpBuffer := by
  unfold stepCarry
  split_ifs
  · split
    · split <;> exact ⟨rfl, rfl, rfl, rfl, rfl⟩
    · exact ⟨rfl, rfl, rfl, rfl, rfl⟩
  · exact ⟨rfl, rfl, rfl, rfl, rfl⟩

theorem stepTimers_keeps (jumpHeld : Bool) (dt : K) (p : Player K) :
    (stepTimers jumpHeld dt p).spawn = p.spawn ∧ (stepTimers jumpHeld dt p).dashTime = p.dashTime ∧
      (stepTimers jumpHeld dt p).vel = p.vel ∧ (stepTimers jumpHeld dt p).pos = p.pos := by
  unfold stepTimers
  cases jumpHeld <;> cases hg : p.grounded <;> simp [hg]

theorem stepFacing_keeps (M : JSMath K) (raw : Vector3 K) (p : Player K) :
    (stepFacing M raw p).spawn = p.spawn ∧ (stepFacing M raw p).dashTime = p.dashTime ∧
      (stepFacing M raw p).vel = p.vel ∧ (stepFacing M raw p).pos = p.pos := by
  unfold stepFacing
  split_ifs <;> exact ⟨rfl, rfl, rfl, rfl⟩

theorem stepDash_keeps (dashPressed : Bool) (wish away : Vector3 K) (ds : K) (p : Player K) :
    (stepDash dashPressed wish away ds p).spawn = p.spawn ∧
      (stepDash dashPressed wish away ds p).pos = p.pos := by
  unfold stepDash
  split_ifs <;> exact ⟨rfl, rfl⟩

theorem stepDashTimer_keeps (dt : K) (p : Player K) :
    (stepDashTimer dt p).spawn = p.spawn ∧ (stepDashTimer dt p).vel = p.vel ∧
      (stepDashTimer dt p).pos = p.pos := by
  simp only [stepDashTimer]
  split_ifs <;> exact ⟨rfl, rfl, rfl⟩

theorem stepGravity_keeps (dt : K) (p : Player K) :
    (stepGravity dt p).spawn = p.spawn ∧ (stepGravity dt p).dashing = p.dashing ∧
      (stepGravity dt p).dashTime = p.dashTime ∧ (stepGravity dt p).vel.x = p.vel.x ∧
      (stepGravity dt p).vel.z = p.vel.z ∧ (stepGravity dt p).pos = p.pos := by
  unfold stepGravity
  split_ifs <;> exact ⟨rfl, rfl, rfl, rfl, rfl, rfl⟩

theorem stepHorizontal_keeps (M : JSMath K) (dt : K) (wish : Vector3 K) (ms accel : K)
    (p : Player K) :
    (stepHorizontal M dt wish ms accel p).spawn = p.spawn ∧
      (stepHorizontal M dt wish ms accel p).dashing = p.dashing ∧
      (stepHorizontal M dt wish ms accel p).dashTime = p.dashTime ∧
      (stepHorizontal M dt wish ms accel p).pos = p.pos := by
  simp only [stepHorizontal]
  split_ifs <;> exact ⟨rfl, rfl, rfl, rfl⟩

theorem stepJump_keeps (p : Player K) :
    (stepJump p).spawn = p.spawn ∧ (stepJump p).dashing = p.dashing ∧
      (stepJump p).dashTime = p.dashTime ∧ (stepJump p).pos = p.pos := by
  unfold stepJump
  split_ifs <;> exact ⟨rfl, rfl, rfl, rfl⟩

theorem resolveStep_keeps (p : Player K) (c : Collider K) :
    (resolveStep p c).spawn = p.spawn ∧ (resolveStep p c).dashing = p.dashing ∧
      (resolveStep p c).dashTime = p.dashTime ∧ (resolveStep p c).coyote = p.coyote ∧
      ((resolveStep p c).vel.x = p.vel.x ∨ (resolveStep p c).vel.x = 0) ∧
      ((resolveStep p c).vel.z = p.vel.z ∨ (resolveStep p c).vel.z = 0) := by
  cases h : (playerOverlap p c).hit
  · rw [resolveStep_of_not_hit p c h]; exact ⟨rfl, rfl, rfl, rfl, Or.inl rfl, Or.inl rfl⟩
  · by_cases hx : (playerOverlap p c).ox ≤ (playerOverlap p c).oy ∧
        (playerOverlap p c).ox ≤ (playerOverlap p c).oz
    · rw [resolveStep_x p c h hx]; exact ⟨rfl, rfl, rfl, rfl, Or.inr rfl, Or.inl rfl⟩
    · by_cases hz : (playerOverlap p c).oz ≤ (playerOverlap p c).ox ∧
          (playerOverlap p c).oz ≤ (playerOverlap p c).oy
      · rw [resolveStep_z p c h hx hz]; exact ⟨rfl, rfl, rfl, rfl, Or.inl rfl, Or.inr rfl⟩
      · rw [resolveStep_y p c h hx hz]; exact ⟨rfl, rfl, rfl, rfl, Or.inl rfl, Or.inl rfl⟩

theorem resolve_keeps (cs : List (Collider K)) (p : Player K) :
    (_resolvePlayerCollisions cs p).spawn = p.spawn ∧
      (_resolvePlayerCollisions cs p).dashing = p.dashing ∧
      (_resolvePlayerCollisions cs p).dashTime = p.dashTime ∧
      (_resolvePlayerCollisions cs p).coyote = p.coyote ∧
      ((_resolvePlayerCollisions cs p).vel.x = p.vel.x ∨
        (_resolvePlayerCollisions cs p).vel.x = 0) ∧
      ((_resolvePlayerCollisions cs p).vel.z = p.vel.z ∨
        (_resolvePlayerCollisions cs p).vel.z = 0) := by
  induction cs generalizing p with
  | nil => exact ⟨rfl, rfl, rfl, rfl, Or.inl rfl, Or.inl rfl⟩
  | cons c cs ih =>
    have e : _resolvePlayerCollisions (c :: cs) p =
        _resolvePlayerCollisions cs (resolveStep p c) := rfl
    have h1 := ih (resolveStep p c)
    have h2 := resolveStep_keeps p c
    rw [e, h1.1, h1.2.1, h1.2.2.1, h1.2.2.2.1]
    refine ⟨h2.1, h2.2.1, h2.2.2.1, h2.2.2.2.1, ?_, ?_⟩
    · rcases h1.2.2.2.2.1 with h | h
      · rw [h]; exact h2.2.2.2.2.1
      · exact Or.inr h
    · rcases h1.2.2.2.2.2 with h | h
      · rw [h]; exact h2.2.2.2.2.2
      · exact Or.inr h

omit [LinearOrderedField K] in
theorem restoreDash_keeps (p : Player K) :
    (restoreDash p).spawn = p.spawn ∧ (restoreDash p).dashing = p.dashing ∧
      (restoreDash p).dashTime = p.dashTime ∧ (restoreDash p).vel = p.vel ∧
      (restoreDash p).coyote = p.coyote ∧ (restoreDash p).pos = p.pos := by
  unfold restoreDash
  split_ifs <;> exact ⟨rfl, rfl, rfl, rfl, rfl, rfl⟩

theorem stepTrace_final_spawn (M : JSMath K) (dt : K) (g : Game K) :
    (stepTrace M dt g).final.spawn = g.player.spawn := by
  simp only [stepTrace]
  rw [(restoreDash_keeps _).1, (resolve_keeps _ _).1]
  show (stepJump _).spawn = _
  rw [(stepJump_keeps _).1, (stepHorizontal_keeps _ _ _ _ _ _).1, (stepGravity_keeps _ _).1,
    (stepDashTimer_keeps _ _).1, (stepDash_keeps _ _ _ _ _).1, (stepFacing_keeps _ _ _).1,
    (stepTimers_keeps _ _ _).1, (stepCarry_keeps _ _).1]

/-- C13: when, after movement and collision resolution in `_stepPlayer`, the
player's box overlaps the box of some hazard (whether or not the player is
below the death plane, which respawns as well), the call ends with the player at the spawn position, velocity
`(0,0,0)`, `dashAvailable` true, `grounded` false, every collectible's
`taken` flag false (none picked up in that frame), and the level index and
the pending and advancing flags unchanged. -/
theorem stepPlayer_hazard_respawn (M : JSMath K) (dt : K) (g : Game K)
    (hhit : hitsEnemy g.enemies (stepTrace M dt g).final = true) :
    (_stepPlayer M dt g).player.pos = g.player.spawn ∧
    (_stepPlayer M dt g).player.spawn = g.player.spawn ∧
    (_stepPlayer M dt g).player.vel = ⟨0, 0, 0⟩ ∧
    (_stepPlayer M dt g).player.dashAvailable = true ∧
    (_stepPlayer M dt g).player.grounded = false ∧
    (∀ c ∈ (_stepPlayer M dt g).collectibles, c.taken = false) ∧
    (_stepPlayer M dt g).collectibles.map (fun c => c.position) =
      g.collectibles.map (fun c => c.position) ∧
    (_stepPlayer M dt g).levelIndex = g.levelIndex ∧
    (_stepPlayer M dt g)._pendingAdvance = g._pendingAdvance ∧
    (_stepPlayer M dt g)._pendingIndex = g._pendingIndex ∧
    (_stepPlayer M dt g)._advancing = g._advancing := by
  have hr : respawns M dt g = true := by
    simp [respawns, hhit]
  have hf := stepPlayer_levelFlags M dt g
  rw [stepPlayer_of_respawns M dt g hr]
  refine ⟨?_, ?_, rfl, rfl, rfl, ?_, ?_, ?_⟩
  · exact stepTrace_final_spawn M dt g
  · exact stepTrace_final_spawn M dt g
  · intro c hc
    simp only [_respawn, List.mem_map] at hc
    obtain ⟨c0, _, rfl⟩ := hc
    rfl
  · simp [_respawn, List.map_map, Function.comp_def]
  · rw [stepPlayer_of_respawns M dt g hr] at hf
    exact ⟨congrArg (fun f => f.1) hf, congrArg (fun f => f.2.2.1) hf,
      congrArg (fun f => f.2.2.2) hf, congrArg (fun f => f.2.1) hf⟩

/-- Witness of C13: the player falls for one step into the box of an enemy
and is put back at the spawn `(7, 1, 7)`; the collectible that was taken is
available again. -/
theorem stepPlayer_hazard_respawn_witness :
    ¬ (stepTrace coarseMath (1 / 30) hazardGame).final.pos.y < -30 ∧
      hitsEnemy hazardGame.enemies (stepTrace coarseMath (1 / 30) hazardGame).final = true ∧
      (_stepPlayer coarseMath (1 / 30) hazardGame).player.pos = ⟨7, 1, 7⟩ ∧
      ∀ c ∈ (_stepPlayer coarseMath (1 / 30) hazardGame).collectibles, c.taken = false := by
  have hy : ¬ (stepTrace coarseMath (1 / 30) hazardGame).final.pos.y < -30 := by
    norm_num [stepTrace, hazardGame, emptyGame, playerAt, Player.init, coarseMath,
      stepCarry, _inputAxes, stepTimers, _cameraRelativeAxes, rawWish, wishVector, stepFacing,
      stepDash, dashFires, dashSpeed, maxSpeed, stepDashTimer, stepGravity, stepHorizontal,
      stepJump, jumpFires, stepIntegrate, clearGround, restoreDash, _resolvePlayerCollisions,
      colliders, Vector3.sub, Vector3.add, Vector3.zero, Vector3.addScaledVector,
      Vector3.multiplyScalar, Vector3.lengthSq, Vector3.length, Vector3.normalize,
      Vector3.cross, Vector3.lerp]
  have hh : hitsEnemy hazardGame.enemies (stepTrace coarseMath (1 / 30) hazardGame).final
      = true := by
    norm_num [hitsEnemy, stepTrace, hazardGame, emptyGame, playerAt, Player.init, coarseMath,
      stepCarry, _inputAxes, stepTimers, _cameraRelativeAxes, rawWish, wishVector, stepFacing,
      stepDash, dashFires, dashSpeed, maxSpeed, stepDashTimer, stepGravity, stepHorizontal,
      stepJump, jumpFires, stepIntegrate, clearGround, restoreDash, _resolvePlayerCollisions,
      colliders, aabbOverlap, AABB.min, AABB.max, Vector3.sub, Vector3.add, Vector3.zero,
      Vector3.addScaledVector, Vector3.multiplyScalar, Vector3.lengthSq, Vector3.length,
      Vector3.normalize, Vector3.cross, Vector3.lerp]
  have h := stepPlayer_hazard_respawn coarseMath (1 / 30) hazardGame hh
  exact ⟨hy, hh, h.1, h.2.2.2.2.2.1⟩

/-! ## C16 -/

/-- C16: one `_updateMovingPlatforms` call updates every moving platform by
the loop body, which advances the phase by `dt * speed`, sets the position
to `basePos` plus `sin(phase) * amp` on the configured axis `x`, `y` or `z`
only (to `basePos` itself for any other axis name), sets `prevPos` to the
position before the call, `delta` to the new position minus the previous
one, and the centre of the collision box to the new position. -/
theorem updateMovingPlatforms_spec (M : JSMath K) (dt : K) (g : Game K) (mp : MovingPlatform K) :
    (_updateMovingPlatforms M dt g).movingPlatforms =
      g.movingPlatforms.map (updateMovingPlatform M dt) ∧
    (updateMovingPlatform M dt mp).t = mp.t + dt * mp.def_.speed ∧
    (mp.def_.axis = "x" → (updateMovingPlatform M dt mp).position =
      ⟨mp.basePos.x + M.sin (mp.t + dt * mp.def_.speed) * mp.def_.amp, mp.basePos.y,
        mp.basePos.z⟩) ∧
    (mp.def_.axis = "y" → (updateMovingPlatform M dt mp).position =
      ⟨mp.basePos.x, mp.basePos.y + M.sin (mp.t + dt * mp.def_.speed) * mp.def_.amp,
        mp.basePos.z⟩) ∧
    (mp.def_.axis = "z" → (updateMovingPlatform M dt mp).position =
      ⟨mp.basePos.x, mp.basePos.y,
        mp.basePos.z + M.sin (mp.t + dt * mp.def_.speed) * mp.def_.amp⟩) ∧
    (mp.def_.axis ≠ "x" → mp.def_.axis ≠ "y" → mp.def_.axis ≠ "z" →
      (updateMovingPlatform M dt mp).position = mp.basePos) ∧
    (updateMovingPlatform M dt mp).prevPos = mp.position ∧
    (updateMovingPlatform M dt mp).delta =
      Vector3.sub (updateMovingPlatform M dt mp).position mp.position ∧
    (updateMovingPlatform M dt mp).aabb.c = (updateMovingPlatform M dt mp).position ∧
    (updateMovingPlatform M dt mp).aabb.h = mp.aabb.h ∧
    (updateMovingPlatform M dt mp).basePos = mp.basePos := by
  refine ⟨rfl, rfl, ?_, ?_, ?_, ?_, rfl, rfl, rfl, rfl, rfl⟩
  · intro h
    simp [updateMovingPlatform, h]
  · intro h
    simp [updateMovingPlatform, h]
  · intro h
    simp [updateMovingPlatform, h]
  · intro h1 h2 h3
    simp [updateMovingPlatform, h1, h2, h3]

/-! ## C17 -/

theorem stepTrace_faced_dashTime (M : JSMath K) (dt : K) (g : Game K) :
    (stepTrace M dt g).faced.dashTime = g.player.dashTime := by
  simp only [stepTrace]
  rw [(stepFacing_keeps _ _ _).2.1, (stepTimers_keeps _ _ _).2.1, (stepCarry_keeps _ _).2.1]

theorem stepDash_dashInvariant (dashPressed : Bool) (wish away : Vector3 K) (ds : K)
    (p : Player K) (h : dashInvariant p) :
    dashInvariant (stepDash dashPressed wish away ds p) := by
  unfold stepDash
  split_ifs
  · intro _; rfl
  · intro _; rfl
  · exact h

theorem stepDashTimer_dashInvariant (dt : K) (p : Player K) (h : dashInvariant p) :
    dashInvariant (stepDashTimer dt p) := by
  simp only [stepDashTimer]
  split_ifs with h1 h2
  · intro h3
    exact absurd h3 (not_lt.2 h2)
  · intro _
    exact h1
  · exact h

theorem stepTrace_final_dash (M : JSMath K) (dt : K) (g : Game K) :
    (stepTrace M dt g).final.dashing = (stepDashTimer dt (stepTrace M dt g).dashed).dashing ∧
      (stepTrace M dt g).final.dashTime =
        (stepDashTimer dt (stepTrace M dt g).dashed).dashTime := by
  simp only [stepTrace]
  constructor
  · rw [(restoreDash_keeps _).2.1, (resolve_keeps _ _).2.1]
    show (stepJump _).dashing = _
    rw [(stepJump_keeps _).2.1, (stepHorizontal_keeps _ _ _ _ _ _).2.1,
      (stepGravity_keeps _ _).2.1]
  · rw [(restoreDash_keeps _).2.2.1, (resolve_keeps _ _).2.2.1]
    show (stepJump _).dashTime = _
    rw [(stepJump_keeps _).2.2.1, (stepHorizontal_keeps _ _ _ _ _ _).2.2.1,
      (stepGravity_keeps _ _).2.2.1]

/-- C17: `dashTime > 0` implies `dashing` holds for the player of the
constructor, holds after `_respawn`, and is preserved by every `_stepPlayer`
call, for every `dt` (so for every `dt ≥ 0`), the call in which a dash starts
and the call in which the dash timer runs out included. -/
theorem dashInvariant_inductive :
    dashInvariant (Player.init : Player K) ∧
    (∀ g : Game K, dashInvariant (_respawn g).player) ∧
    (∀ (M : JSMath K) (dt : K) (g : Game K), dashInvariant g.player →
      dashInvariant (_stepPlayer M dt g).player) := by
  refine ⟨?_, ?_, ?_⟩
  · intro h
    exact absurd h (lt_irrefl _)
  · intro g h
    exact absurd h (lt_irrefl _)
  · intro M dt g hinv
    cases hr : respawns M dt g
    · rw [stepPlayer_player_of_not_respawns M dt g hr]
      have hfaced : dashInvariant (stepTrace M dt g).faced := by
        intro h
        rw [stepTrace_faced_dashTime] at h
        rw [(stepTrace_faced_fields M dt g).2]
        exact hinv h
      have hd : dashInvariant (stepTrace M dt g).dashed :=
        stepDash_dashInvariant _ _ _ _ _ hfaced
      have ht := stepDashTimer_dashInvariant dt _ hd
      have hf := stepTrace_final_dash M dt g
      intro h
      rw [hf.2] at h
      rw [hf.1]
      exact ht h
    · rw [stepPlayer_of_respawns M dt g hr]
      intro h
      exact absurd h (lt_irrefl _)

/-! ## C18 -/

theorem stepTrace_preJump_fields (M : JSMath K) (dt : K) (g : Game K) :
    (stepTrace M dt g).preJump.jumpBuffer = (stepTrace M dt g).timed.jumpBuffer ∧
      (stepTrace M dt g).preJump.grounded = (stepTrace M dt g).timed.grounded ∧
      (stepTrace M dt g).preJump.coyote = (stepTrace M dt g).timed.coyote := by
  simp only [stepTrace]
  refine ⟨?_, ?_, ?_⟩
  · rw [(stepHorizontal_fields _ _ _ _ _ _).1, (stepGravity_fields _ _).1,
      (stepDashTimer_fields _ _).1, (stepDash_fields _ _ _ _ _).1,
      (stepFacing_fields _ _ _).2.2.1]
  · rw [(stepHorizontal_fields _ _ _ _ _ _).2.1, (stepGravity_fields _ _).2.1,
      (stepDashTimer_fields _ _).2.1, (stepDash_fields _ _ _ _ _).2.1,
      (stepFacing_fields _ _ _).2.2.2.1]
  · rw [(stepHorizontal_fields _ _ _ _ _ _).2.2.1, (stepGravity_fields _ _).2.2.1,
      (stepDashTimer_fields _ _).2.2.1, (stepDash_fields _ _ _ _ _).2.2.1,
      (stepFacing_fields _ _ _).2.2.2.2.1]

theorem stepTrace_timed_airborne (M : JSMath K) (dt : K) (g : Game K) (hdt : 0 ≤ dt)
    (hg : g.player.grounded = false) (hc : g.player.coyote ≤ 0) :
    (stepTrace M dt g).timed.grounded = false ∧ (stepTrace M dt g).timed.coyote = 0 := by
  have hcg : (stepCarry g.movingPlatforms g.player).grounded = false := by
    rw [(stepCarry_fields _ _).2.2.1]; exact hg
  have hcc : (stepCarry g.movingPlatforms g.player).coyote = g.player.coyote :=
    (stepCarry_keeps _ _).2.2.2.1
  have hm : Max.max 0 (g.player.coyote - dt) = 0 := max_eq_left (by linarith)
  simp only [stepTrace, stepTimers]
  split_ifs <;> simp_all

theorem stepPlayer_coyote (M : JSMath K) (dt : K) (g : Game K) :
    (_stepPlayer M dt g).player.coyote = 0 ∨
      (_stepPlayer M dt g).player.coyote = (stepTrace M dt g).jumped.coyote := by
  cases hr : respawns M dt g
  · right
    rw [stepPlayer_player_of_not_respawns M dt g hr]
    simp only [stepTrace]
    rw [(restoreDash_keeps _).2.2.2.2.1, (resolve_keeps _ _).2.2.2.1]
    rfl
  · left
    rw [stepPlayer_of_respawns M dt g hr]
    rfl

theorem stepPlayer_coyote_of_fires (M : JSMath K) (dt : K) (g : Game K)
    (h : jumpFires (stepTrace M dt g).preJump = true) :
    (_stepPlayer M dt g).player.coyote = 0 := by
  rcases stepPlayer_coyote M dt g with h0 | h0
  · exact h0
  · rw [h0]
    show (stepJump (stepTrace M dt g).preJump).coyote = 0
    simp [stepJump, h]

theorem stepPlayer_airborne (M : JSMath K) (dt : K) (g : Game K) (hdt : 0 ≤ dt)
    (hg : g.player.grounded = false) (hc : g.player.coyote ≤ 0) :
    jumpFires (stepTrace M dt g).preJump = false ∧ (_stepPlayer M dt g).player.coyote = 0 := by
  have ht := stepTrace_timed_airborne M dt g hdt hg hc
  have hp := stepTrace_preJump_fields M dt g
  have hnf : jumpFires (stepTrace M dt g).preJump = false := by
    unfold jumpFires
    rw [hp.2.1, hp.2.2, ht.1, ht.2]
    simp
  refine ⟨hnf, ?_⟩
  rcases stepPlayer_coyote M dt g with h0 | h0
  · exact h0
  · rw [h0]
    show (stepJump (stepTrace M dt g).preJump).coyote = 0
    simp only [stepJump, hnf, Bool.false_eq_true, if_false]
    rw [hp.2.2, ht.2]

/-- C18: no double jump.  In a sequence of `_stepPlayer` calls with
`dt ≥ 0` (keys, camera and world free to change between calls), if the jump
fires in call `i` and no call from `i` up to `j - 1` ends with `grounded`
true, then the jump does not fire in call `j`, whether or not the jump
button is held. -/
theorem no_double_jump (M : JSMath K) (dts : Nat → K) (s : Nat → Game K)
    (hdt : ∀ k, 0 ≤ dts k) (hrun : IsPlayerRun M dts s) (i j : Nat) (hij : i < j)
    (hfire : jumpFires (stepTrace M (dts i) (s i)).preJump = true)
    (hair : ∀ k, i ≤ k → k < j → (s (k + 1)).player.grounded = false) :
    jumpFires (stepTrace M (dts j) (s j)).preJump = false := by
  have key : ∀ n, i + n < j → (s (i + n + 1)).player.coyote = 0 := by
    intro n
    induction n with
    | zero =>
      intro _
      rw [hrun i]
      exact stepPlayer_coyote_of_fires M _ _ hfire
    | succ n ih =>
      intro hn
      have h1 := ih (by omega)
      have h2 := hair (i + n) (by omega) (by omega)
      have e : i + (n + 1) = i + n + 1 := by omega
      rw [e, hrun (i + n + 1)]
      exact (stepPlayer_airborne M _ _ (hdt _) h2 (le_of_eq h1)).2
  obtain ⟨n, hn⟩ : ∃ n, j = i + n + 1 := ⟨j - i - 1, by omega⟩
  subst hn
  have h1 := key n (by omega)
  have h2 := hair (i + n) (by omega) (by omega)
  exact (stepPlayer_airborne M _ _ (hdt _) h2 (le_of_eq h1)).1

/-- Witness of C18: the player stands on the platform with the jump button
held; the jump fires in call 0, the call ends airborne, and the jump does
not fire in call 1. -/
theorem no_double_jump_witness :
    jumpFires (stepTrace coarseMath (1 / 30) (jumpRun 0)).preJump = true ∧
      (jumpRun 1).player.grounded = false ∧
      jumpFires (stepTrace coarseMath (1 / 30) (jumpRun 1)).preJump = false := by
  have hf : jumpFires (stepTrace coarseMath (1 / 30) (jumpRun 0)).preJump = true := by
    norm_num [jumpRun, standingGame, landingGame, stepTrace, emptyGame, playerAt, Player.init,
      coarseMath, stepCarry, _inputAxes, stepTimers, _cameraRelativeAxes, rawWish, wishVector,
      stepFacing, stepDash, dashFires, dashSpeed, maxSpeed, stepDashTimer, stepGravity,
      stepHorizontal, jumpFires, Vector3.sub, Vector3.add, Vector3.zero,
      Vector3.addScaledVector, Vector3.multiplyScalar, Vector3.lengthSq, Vector3.length,
      Vector3.normalize, Vector3.cross, Vector3.lerp]
  have hg : (jumpRun 1).player.grounded = false := by
    norm_num [jumpRun, standingGame, landingGame, _stepPlayer, _respawn, hitsEnemy, stepTrace,
      emptyGame, playerAt, Player.init, coarseMath, stepCarry, _inputAxes, stepTimers,
      _cameraRelativeAxes, rawWish, wishVector, stepFacing, stepDash, dashFires, dashSpeed,
      maxSpeed, stepDashTimer, stepGravity, stepHorizontal, stepJump, jumpFires, stepIntegrate,
      clearGround, restoreDash, _resolvePlayerCollisions, colliders, resolveStep, playerOverlap,
      aabbOverlap, AABB.min, AABB.max, Vector3.sub, Vector3.add, Vector3.zero,
      Vector3.addScaledVector, Vector3.multiplyScalar, Vector3.lengthSq, Vector3.length,
      Vector3.normalize, Vector3.cross, Vector3.lerp]
  refine ⟨hf, hg, no_double_jump coarseMath (fun _ => 1 / 30) jumpRun (fun _ => by norm_num)
    (fun _ => rfl) 0 1 (by decide) hf ?_⟩
  intro k _ hk
  have : k = 0 := by omega
  subst this
  exact hg

/-! ## C14 -/

theorem stepPlayer_inputAxes (M : JSMath K) (dt : K) (g : Game K) :
    _inputAxes (_stepPlayer M dt g) = _inputAxes g := by
  unfold _stepPlayer
  simp only []
  split_ifs <;> rfl

theorem stepPlayer_world (M : JSMath K) (dt : K) (g : Game K) :
    (_stepPlayer M dt g).platforms = g.platforms ∧
      (_stepPlayer M dt g).movingPlatforms = g.movingPlatforms ∧
      (_stepPlayer M dt g).enemies = g.enemies := by
  unfold _stepPlayer
  simp only []
  split_ifs <;> exact ⟨rfl, rfl, rfl⟩

theorem freeFall_final (M : JSMath K) (dt y v : K) (g : Game K) (hdt : 0 ≤ dt)
    (hp : g.platforms = []) (hm : g.movingPlatforms = [])
    (hx : (_inputAxes g).x = 0) (hz : (_inputAxes g).z = 0)
    (hj : (_inputAxes g).jumpHeld = false) (hd : (_inputAxes g).dashHeld = false)
    (hg : g.player.grounded = false) (hdash : g.player.dashing = false)
    (hc : g.player.coyote = 0) (hpos : g.player.pos = ⟨0, y, 0⟩)
    (hvel : g.player.vel = ⟨0, v, 0⟩) :
    (stepTrace M dt g).final.pos = ⟨0, y + (v + -24 * dt) * dt, 0⟩ ∧
      (stepTrace M dt g).final.vel = ⟨0, v + -24 * dt, 0⟩ ∧
      (stepTrace M dt g).final.grounded = false ∧ (stepTrace M dt g).final.dashing = false ∧
      (stepTrace M dt g).final.coyote = 0 := by
  have hm0 : Max.max (0 : K) (0 - dt) = 0 := max_eq_left (by linarith)
  have hcol : colliders g = [] := by simp [colliders, hp, hm]
  rcases g with ⟨difficulty, levelIndex, adv, pend, pidx, keys, btn, cam, level, platforms,
    mps, cols, enemies, goal, player, prev⟩
  rcases player with ⟨pos, vel, half, grounded, gp, coyote, dA, dashing, dT, jB, spawn, facing⟩
  simp only at hg hdash hc hpos hvel
  subst hg hdash hc hpos hvel
  simp only [stepTrace, hx, hz, hj, hd, hcol, stepCarry, stepTimers, rawWish, wishVector,
    stepFacing, stepDash, dashFires, stepDashTimer, stepGravity, stepHorizontal, stepJump,
    jumpFires, stepIntegrate, clearGround, restoreDash, _resolvePlayerCollisions,
    Vector3.zero, Vector3.addScaledVector, Vector3.multiplyScalar, Vector3.lengthSq,
    Vector3.lerp, List.foldl_nil, hm0]
  have hneg : ¬ dt < 0 := not_lt.2 hdt
  have hm1 : Max.max (0 : K) (-dt) = 0 := max_eq_left (by linarith)
  norm_num [hneg, hm1]

theorem freeFall_step (M : JSMath K) (n : Nat) (g : Game K) (hn : n < 60) (h : FreeFall n g) :
    FreeFall (n + 1) (_stepPlayer M (1 / 60) g) := by
  obtain ⟨hp, hm, he, hx, hz, hj, hd, hg, hdash, hc, hpos, hvel⟩ := h
  have hf := freeFall_final M (1 / 60) _ _ g (by norm_num) hp hm hx hz hj hd hg hdash hc hpos hvel
  have hnK : (n : K) ≤ 59 := by
    have : n ≤ 59 := by omega
    exact_mod_cast this
  have hn0 : (0 : K) ≤ n := Nat.cast_nonneg n
  have hr : respawns M (1 / 60) g = false := by
    simp only [respawns, hitsEnemy, he, List.any_nil, Bool.or_false, decide_eq_false_iff_not,
      hf.1, not_lt]
    nlinarith
  have hw := stepPlayer_world M (1 / 60) g
  have hpl := stepPlayer_player_of_not_respawns M (1 / 60) g hr
  refine ⟨by rw [hw.1, hp], by rw [hw.2.1, hm], by rw [hw.2.2, he], ?_, ?_, ?_, ?_, ?_, ?_, ?_,
    ?_, ?_⟩
  · rw [stepPlayer_inputAxes, hx]
  · rw [stepPlayer_inputAxes, hz]
  · rw [stepPlayer_inputAxes, hj]
  · rw [stepPlayer_inputAxes, hd]
  · rw [hpl, hf.2.2.1]
  · rw [hpl, hf.2.2.2.1]
  · rw [hpl, hf.2.2.2.2]
  · rw [hpl, hf.1]
    simp only [Vector3.mk.injEq, true_and, and_true]
    push_cast
    ring
  · rw [hpl, hf.2.1]
    simp only [Vector3.mk.injEq, true_and, and_true]
    push_cast
    ring

theorem freeFall_iterate (M : JSMath K) (g : Game K) (h : FreeFall 0 g) (n : Nat)
    (hn : n ≤ 60) : FreeFall n ((_stepPlayer M (1 / 60))^[n] g) := by
  induction n with
  | zero => exact h
  | succ n ih =>
    rw [Function.iterate_succ_apply']
    exact freeFall_step M n _ (by omega) (ih (by omega))

/-- C14: free fall in exact arithmetic.  From position `(0,5,0)` with
velocity `(0,0,0)`, not grounded (and, as after a respawn, not dashing and
out of the coyote window), in a world without colliders or hazards and with
no input, `n ≤ 60` consecutive `_stepPlayer` calls with `dt = 1/60` leave the
vertical velocity at `-24 n / 60` and the height at
`5 - 24 n (n+1) / (2 * 3600)`, with x, z and the horizontal velocity 0; so
after 60 calls the vertical velocity is `-24` and the displacement is
`-12.2`, within `0.2` of `-12`. -/
theorem freeFall_sixty_steps (M : JSMath K) (g : Game K)
    (hp : g.platforms = []) (hm : g.movingPlatforms = []) (he : g.enemies = [])
    (hx : (_inputAxes g).x = 0) (hz : (_inputAxes g).z = 0)
    (hj : (_inputAxes g).jumpHeld = false) (hd : (_inputAxes g).dashHeld = false)
    (hg : g.player.grounded = false) (hdash : g.player.dashing = false)
    (hc : g.player.coyote = 0) (hpos : g.player.pos = ⟨0, 5, 0⟩)
    (hvel : g.player.vel = ⟨0, 0, 0⟩) :
    (∀ n : Nat, n ≤ 60 →
      ((_stepPlayer M (1 / 60))^[n] g).player.vel = ⟨0, -24 * (n : K) / 60, 0⟩ ∧
      ((_stepPlayer M (1 / 60))^[n] g).player.pos =
        ⟨0, 5 - 24 * (n : K) * ((n : K) + 1) / (2 * 3600), 0⟩) ∧
    ((_stepPlayer M (1 / 60))^[60] g).player.vel = ⟨0, -24, 0⟩ ∧
    ((_stepPlayer M (1 / 60))^[60] g).player.pos.y - 5 = -12.2 ∧
    |(((_stepPlayer M (1 / 60))^[60] g).player.pos.y - 5) - (-12)| ≤ 0.2 ∧
    ((_stepPlayer M (1 / 60))^[60] g).player.pos.x = 0 ∧
    ((_stepPlayer M (1 / 60))^[60] g).player.pos.z = 0 := by
  have h0 : FreeFall 0 g := by
    refine ⟨hp, hm, he, hx, hz, hj, hd, hg, hdash, hc, ?_, ?_⟩
    · rw [hpos]; simp
    · rw [hvel]; simp
  have hall := freeFall_iterate M g h0
  have h60 := hall 60 (le_refl _)
  obtain ⟨_, _, _, _, _, _, _, _, _, _, hpos60, hvel60⟩ := h60
  have hy : ((_stepPlayer M (1 / 60))^[60] g).player.pos.y - 5 = -12.2 := by
    rw [hpos60]; norm_num
  refine ⟨fun n hn => ?_, ?_, hy, ?_, ?_, ?_⟩
  · obtain ⟨_, _, _, _, _, _, _, _, _, _, hpn, hvn⟩ := hall n hn
    exact ⟨hvn, hpn⟩
  · rw [hvel60]; norm_num
  · rw [hy]
    norm_num [abs_le]
  · rw [hpos60]
  · rw [hpos60]

set_option maxRecDepth 10000 in
/-- Witness of C14: the empty world with the player of the constructor at
`(0, 5, 0)`; after 60 steps the height is `-7.2`. -/
theorem freeFall_sixty_steps_witness :
    freeFallGame.player.pos = ⟨0, 5, 0⟩ ∧
      ((_stepPlayer coarseMath (1 / 60))^[60] freeFallGame).player.pos.y - 5 = -12.2 := by
  have hx : (_inputAxes freeFallGame).x = 0 := by
    norm_num [_inputAxes, freeFallGame, emptyGame]
  have hz : (_inputAxes freeFallGame).z = 0 := by
    norm_num [_inputAxes, freeFallGame, emptyGame]
  have hj : (_inputAxes freeFallGame).jumpHeld = false := by
    simp [_inputAxes, freeFallGame, emptyGame]
  have hd : (_inputAxes freeFallGame).dashHeld = false := by
    simp [_inputAxes, freeFallGame, emptyGame]
  have h := freeFall_sixty_steps coarseMath freeFallGame rfl rfl rfl hx hz hj hd rfl rfl rfl
    rfl rfl
  exact ⟨rfl, h.2.2.1⟩

/-! ## C15 -/

theorem stepHorizontal_zero_wish (M : JSMath K) (dt ms accel : K) (p : Player K) :
    (p.dashing = false → p.grounded = true →
      (stepHorizontal M dt Vector3.zero ms accel p).vel.x =
          p.vel.x * (M.exp (-(accel * 1.0) * dt) * M.pow 0.0008 dt) ∧
        (stepHorizontal M dt Vector3.zero ms accel p).vel.z =
          p.vel.z * (M.exp (-(accel * 1.0) * dt) * M.pow 0.0008 dt)) ∧
    (p.dashing = true → stepHorizontal M dt Vector3.zero ms accel p = p) := by
  constructor
  · intro hd hg
    simp only [stepHorizontal, hd, hg, Vector3.zero, Vector3.multiplyScalar, Vector3.lengthSq,
      Vector3.lerp, Bool.not_false, if_true, zero_mul, add_zero, and_self]
    constructor <;> ring
  · intro hd
    simp only [stepHorizontal, hd, Bool.not_true, Bool.false_eq_true, if_false]

theorem stepTrace_wish_zero (M : JSMath K) (dt : K) (g : Game K)
    (hx : (_inputAxes g).x = 0) (hz : (_inputAxes g).z = 0) :
    (stepTrace M dt g).wish = Vector3.zero := by
  have hraw : ∀ away right : Vector3 K, rawWish (_inputAxes g) away right = Vector3.zero := by
    intro away right
    simp [rawWish, hx, hz, Vector3.addScaledVector, Vector3.zero]
  show wishVector M (rawWish (_inputAxes g) _ _) = _
  rw [hraw]
  simp [wishVector, Vector3.lengthSq, Vector3.zero]

theorem stepTrace_dashed_of_not_pressed (M : JSMath K) (dt : K) (g : Game K)
    (hd : (_inputAxes g).dashHeld = false) :
    (stepTrace M dt g).dashed = (stepTrace M dt g).faced := by
  have hp : (stepTrace M dt g).dashPressed = false := by
    show ((_inputAxes g).dashHeld && !g._prevDashHeld) = false
    rw [hd]; rfl
  show stepDash (stepTrace M dt g).dashPressed _ _ _ _ = _
  rw [hp]
  simp only [stepDash, dashFires, Bool.false_and, Bool.false_eq_true, if_false]
  rfl

theorem stepTrace_faced_vel (M : JSMath K) (dt : K) (g : Game K) :
    (stepTrace M dt g).faced.vel = g.player.vel ∧
      (stepTrace M dt g).faced.grounded = g.player.grounded := by
  simp only [stepTrace]
  constructor
  · rw [(stepFacing_keeps _ _ _).2.2.1, (stepTimers_keeps _ _ _).2.2.1,
      (stepCarry_keeps _ _).2.2.1]
  · rw [(stepFacing_fields _ _ _).2.2.2.1, (stepTimers_fields _ _ _).2.2.1,
      (stepCarry_fields _ _).2.2.1]

theorem stepTrace_preResolve_vel (M : JSMath K) (dt : K) (g : Game K) :
    (stepTrace M dt g).preResolve.vel.x = (stepTrace M dt g).preJump.vel.x ∧
      (stepTrace M dt g).preResolve.vel.z = (stepTrace M dt g).preJump.vel.z := by
  constructor
  · show (stepJump (stepTrace M dt g).preJump).vel.x = _
    exact (stepJump_fields _).2.1
  · show (stepJump (stepTrace M dt g).preJump).vel.z = _
    exact (stepJump_fields _).2.2

theorem zero_intent_preResolve (M : JSMath K) (dt : K) (g : Game K)
    (hg : g.player.grounded = true)
    (hx : (_inputAxes g).x = 0) (hz : (_inputAxes g).z = 0)
    (hd : (_inputAxes g).dashHeld = false) :
    (g.player.dashing = false →
      (stepDashTimer dt (stepTrace M dt g).dashed).dashing = false) ∧
    ((stepDashTimer dt (stepTrace M dt g).dashed).dashing = false →
      (stepTrace M dt g).preResolve.vel.x =
          g.player.vel.x * (M.exp (-36 * dt) * M.pow 0.0008 dt) ∧
        (stepTrace M dt g).preResolve.vel.z =
          g.player.vel.z * (M.exp (-36 * dt) * M.pow 0.0008 dt)) ∧
    ((stepDashTimer dt (stepTrace M dt g).dashed).dashing = true →
      (stepTrace M dt g).preResolve.vel.x = g.player.vel.x ∧
        (stepTrace M dt g).preResolve.vel.z = g.player.vel.z) := by
  have e36 : -((36.0 : K) * 1.0) * dt = -36 * dt := by norm_num
  have hdf := stepTrace_dashed_of_not_pressed M dt g hd
  have hfv := stepTrace_faced_vel M dt g
  have hw := stepTrace_wish_zero M dt g hx hz
  have hpv := stepTrace_preResolve_vel M dt g
  have hfg : (stepTrace M dt g).faced.grounded = true := by rw [hfv.2, hg]
  have hpre : (stepTrace M dt g).preJump =
      stepHorizontal M dt Vector3.zero (maxSpeed g.difficulty) 36.0
        (stepGravity dt (stepDashTimer dt (stepTrace M dt g).dashed)) := by
    show stepHorizontal M dt (stepTrace M dt g).wish (maxSpeed g.difficulty)
      (if (stepTrace M dt g).faced.grounded then 36.0 else 18.0) _ = _
    rw [hw, hfg]
    rfl
  have hgv : (stepGravity dt (stepDashTimer dt (stepTrace M dt g).dashed)).vel.x =
        g.player.vel.x ∧
      (stepGravity dt (stepDashTimer dt (stepTrace M dt g).dashed)).vel.z = g.player.vel.z := by
    rw [(stepGravity_keeps _ _).2.2.2.1, (stepGravity_keeps _ _).2.2.2.2.1,
      (stepDashTimer_keeps _ _).2.1, hdf, hfv.1]
    exact ⟨rfl, rfl⟩
  have hgg : (stepGravity dt (stepDashTimer dt (stepTrace M dt g).dashed)).grounded = true := by
    rw [(stepGravity_fields _ _).2.1, (stepDashTimer_fields _ _).2.1, hdf, hfg]
  have hgd : (stepGravity dt (stepDashTimer dt (stepTrace M dt g).dashed)).dashing =
      (stepDashTimer dt (stepTrace M dt g).dashed).dashing := (stepGravity_keeps _ _).2.1
  have hzw := stepHorizontal_zero_wish M dt (maxSpeed g.difficulty) 36.0
    (stepGravity dt (stepDashTimer dt (stepTrace M dt g).dashed))
  refine ⟨?_, ?_, ?_⟩
  · intro h0
    have : (stepTrace M dt g).dashed.dashing = false := by
      rw [hdf, (stepTrace_faced_fields M dt g).2, h0]
    simp only [stepDashTimer, this, Bool.false_eq_true, if_false]
  · intro h0
    have := hzw.1 (by rw [hgd, h0]) hgg
    rw [hpv.1, hpv.2, hpre, this.1, this.2, hgv.1, hgv.2, e36]
    exact ⟨rfl, rfl⟩
  · intro h1
    have := hzw.2 (by rw [hgd, h1])
    rw [hpv.1, hpv.2, hpre, this, hgv.1, hgv.2]
    exact ⟨rfl, rfl⟩

theorem stepPlayer_vel_cases (M : JSMath K) (dt : K) (g : Game K) :
    ((_stepPlayer M dt g).player.vel.x = (stepTrace M dt g).preResolve.vel.x ∨
        (_stepPlayer M dt g).player.vel.x = 0) ∧
      ((_stepPlayer M dt g).player.vel.z = (stepTrace M dt g).preResolve.vel.z ∨
        (_stepPlayer M dt g).player.vel.z = 0) := by
  cases hr : respawns M dt g
  · rw [stepPlayer_player_of_not_respawns M dt g hr]
    have hf : (stepTrace M dt g).final.vel =
        (_resolvePlayerCollisions (colliders g) (stepTrace M dt g).preResolve).vel :=
      (restoreDash_keeps _).2.2.2.1
    rw [hf]
    exact ⟨(resolve_keeps _ _).2.2.2.2.1, (resolve_keeps _ _).2.2.2.2.2⟩
  · rw [stepPlayer_of_respawns M dt g hr]
    exact ⟨Or.inr rfl, Or.inr rfl⟩

theorem sq_le_of_eq_or_zero (a b : ℝ) (h : a = b ∨ a = 0) : a ^ 2 ≤ b ^ 2 := by
  rcases h with h | h
  · rw [h]
  · rw [h]; nlinarith [sq_nonneg b]

theorem friction_factor_bounds (dt : ℝ) (hdt : 0 < dt) :
    0 < Real.exp (-36 * dt) * (0.0008 : ℝ) ^ dt ∧
      Real.exp (-36 * dt) * (0.0008 : ℝ) ^ dt < 1 := by
  have h1 : 0 < Real.exp (-36 * dt) := Real.exp_pos _
  have h2 : Real.exp (-36 * dt) < 1 := Real.exp_lt_one_iff.2 (by linarith)
  have h3 : 0 < (0.0008 : ℝ) ^ dt := Real.rpow_pos_of_pos (by norm_num) _
  have h4 : (0.0008 : ℝ) ^ dt < 1 := Real.rpow_lt_one (by norm_num) (by norm_num) hdt
  exact ⟨mul_pos h1 h3, by nlinarith⟩

/-- C15: with real `exp` and `pow`, for every `dt > 0` (so for every
`dt` in `(0, 1/30]`) and every state that is grounded at the start of the
step, a `_stepPlayer` call with no direction and no dash input ends with
horizontal speed `sqrt(vx^2 + vz^2)` no greater than before the call.  When
the player is not dashing as the blend block is reached (always so when it
is not dashing at the start), the horizontal velocity entering collision
resolution is the previous one scaled by `e^(-36 dt) * 0.0008^dt`, a factor
strictly between 0 and 1, so a non-zero horizontal speed strictly
decreases. -/
theorem zero_intent_friction_decay (M : JSMath ℝ) (hexp : ∀ x, M.exp x = Real.exp x)
    (hpow : ∀ b e, M.pow b e = b ^ e) (dt : ℝ) (hdt : 0 < dt) (g : Game ℝ)
    (hg : g.player.grounded = true)
    (hx : (_inputAxes g).x = 0) (hz : (_inputAxes g).z = 0)
    (hd : (_inputAxes g).dashHeld = false) :
    Real.sqrt ((_stepPlayer M dt g).player.vel.x ^ 2 + (_stepPlayer M dt g).player.vel.z ^ 2) ≤
      Real.sqrt (g.player.vel.x ^ 2 + g.player.vel.z ^ 2) ∧
    (0 < Real.exp (-36 * dt) * (0.0008 : ℝ) ^ dt ∧
      Real.exp (-36 * dt) * (0.0008 : ℝ) ^ dt < 1) ∧
    (g.player.dashing = false →
      (stepDashTimer dt (stepTrace M dt g).dashed).dashing = false) ∧
    ((stepDashTimer dt (stepTrace M dt g).dashed).dashing = false →
      (stepTrace M dt g).preResolve.vel.x =
          g.player.vel.x * (Real.exp (-36 * dt) * (0.0008 : ℝ) ^ dt) ∧
        (stepTrace M dt g).preResolve.vel.z =
          g.player.vel.z * (Real.exp (-36 * dt) * (0.0008 : ℝ) ^ dt) ∧
        (g.player.vel.x ≠ 0 ∨ g.player.vel.z ≠ 0 →
          Real.sqrt ((_stepPlayer M dt g).player.vel.x ^ 2 +
              (_stepPlayer M dt g).player.vel.z ^ 2) <
            Real.sqrt (g.player.vel.x ^ 2 + g.player.vel.z ^ 2))) := by
  have hb := friction_factor_bounds dt hdt
  have hz0 := zero_intent_preResolve M dt g hg hx hz hd
  rw [hexp, hpow] at hz0
  have hc := stepPlayer_vel_cases M dt g
  have hfx := sq_le_of_eq_or_zero _ _ hc.1
  have hfz := sq_le_of_eq_or_zero _ _ hc.2
  have hf2 : (Real.exp (-36 * dt) * (0.0008 : ℝ) ^ dt) ^ 2 < 1 := by nlinarith [hb.1, hb.2]
  have hscaled : (stepDashTimer dt (stepTrace M dt g).dashed).dashing = false →
      (stepTrace M dt g).preResolve.vel.x ^ 2 + (stepTrace M dt g).preResolve.vel.z ^ 2 =
        (Real.exp (-36 * dt) * (0.0008 : ℝ) ^ dt) ^ 2 *
          (g.player.vel.x ^ 2 + g.player.vel.z ^ 2) := by
    intro h0
    rw [(hz0.2.1 h0).1, (hz0.2.1 h0).2]
    ring
  have hsum : 0 ≤ g.player.vel.x ^ 2 + g.player.vel.z ^ 2 := by positivity
  refine ⟨?_, hb, hz0.1, ?_⟩
  · apply Real.sqrt_le_sqrt
    cases h0 : (stepDashTimer dt (stepTrace M dt g).dashed).dashing
    · have := hscaled h0
      nlinarith
    · have h1 := hz0.2.2 h0
      rw [h1.1] at hfx
      rw [h1.2] at hfz
      linarith
  · intro h0
    refine ⟨(hz0.2.1 h0).1, (hz0.2.1 h0).2, ?_⟩
    intro hne
    have hpos : 0 < g.player.vel.x ^ 2 + g.player.vel.z ^ 2 := by
      rcases hne with h | h
      · have := pow_pos (abs_pos.2 h) 2
        rw [sq_abs] at this
        nlinarith [sq_nonneg g.player.vel.z]
      · have := pow_pos (abs_pos.2 h) 2
        rw [sq_abs] at this
        nlinarith [sq_nonneg g.player.vel.x]
    apply Real.sqrt_lt_sqrt (by positivity)
    have := hscaled h0
    nlinarith

/-- Witness of C15: the player slides on the landing platform with
horizontal velocity `(3, 0, 4)`, grounded, no input, `dt = 1/60`, with the
real `sqrt`, `exp`, `pow` and `sin`. -/
theorem zero_intent_friction_decay_witness :
    (slidingGame : Game ℝ).player.grounded = true ∧
      Real.sqrt
          ((_stepPlayer ⟨Real.sqrt, Real.exp, fun b e => b ^ e, Real.sin⟩ (1 / 60)
              (slidingGame : Game ℝ)).player.vel.x ^ 2 +
            (_stepPlayer ⟨Real.sqrt, Real.exp, fun b e => b ^ e, Real.sin⟩ (1 / 60)
              (slidingGame : Game ℝ)).player.vel.z ^ 2) <
        Real.sqrt ((slidingGame : Game ℝ).player.vel.x ^ 2 +
          (slidingGame : Game ℝ).player.vel.z ^ 2) := by
  have hx : (_inputAxes (slidingGame : Game ℝ)).x = 0 := by
    norm_num [_inputAxes, slidingGame, landingGame, emptyGame]
  have hz : (_inputAxes (slidingGame : Game ℝ)).z = 0 := by
    norm_num [_inputAxes, slidingGame, landingGame, emptyGame]
  have hd : (_inputAxes (slidingGame : Game ℝ)).dashHeld = false := by
    simp [_inputAxes, slidingGame, landingGame, emptyGame]
  have h := zero_intent_friction_decay ⟨Real.sqrt, Real.exp, fun b e => b ^ e, Real.sin⟩
    (fun _ => rfl) (fun _ _ => rfl) (1 / 60) (by norm_num) (slidingGame : Game ℝ) rfl hx hz hd
  refine ⟨rfl, (h.2.2.2 (h.2.2.1 rfl)).2.2 (Or.inl ?_)⟩
  norm_num [slidingGame, playerAt]

end Platformer
